import Mathlib

/-!
# Rockchip Innosilicon combo PHY driver: bring-up engine

A shallow embedding of `drivers/phy/rockchip/phy-rockchip-inno-combphy.c`.

* C `u32` values are natural numbers, reduced modulo `2 ^ 32` wherever the C
  code can overflow (shifts, or-combination of the written word).
* The GRF register space, the PHY MMIO window, the reset lines, the reference
  clock and the microsecond clock are fields of an explicit `World`; every
  driver function is a state-passing function on it.
* The engine appends every operation it issues to `World.trace`, so that
  ordering properties are statements about that list; the PHY window keeps its
  own logs of `writel` and `readl` calls.
* Kernel macros and constants that the driver uses but that live outside the
  driver file (`GENMASK`, `readx_poll_timeout_atomic`, the `PHY_*` type values,
  the errno values) are modelled and marked as such.
-/

namespace Combphy

/-! ## Constants -/

/-- The `BIT_WRITEABLE_SHIFT` define of the driver. -/
def BIT_WRITEABLE_SHIFT : Nat := 16

/-- Index `OTG_RSTN` of `enum rockchip_combphy_rst`. -/
def OTG_RSTN : Nat := 0
/-- Index `PHY_POR_RSTN` of `enum rockchip_combphy_rst`. -/
def PHY_POR_RSTN : Nat := 1
/-- Index `PHY_APB_RSTN` of `enum rockchip_combphy_rst`. -/
def PHY_APB_RSTN : Nat := 2
/-- Index `PHY_PIPE_RSTN` of `enum rockchip_combphy_rst`. -/
def PHY_PIPE_RSTN : Nat := 3
/-- Bound `PHY_RESET_MAX` of `enum rockchip_combphy_rst`. -/
def PHY_RESET_MAX : Nat := 4

/-- Modelled from the spec: the constant `PHY_NONE` of the kernel header
`dt-bindings/phy/phy.h`, which is not part of the driver file. -/
def PHY_NONE : Nat := 0
/-- Modelled from the spec: the constant `PHY_TYPE_SATA` of the kernel header
`dt-bindings/phy/phy.h`, which is not part of the driver file. -/
def PHY_TYPE_SATA : Nat := 1
/-- Modelled from the spec: the constant `PHY_TYPE_PCIE` of the kernel header
`dt-bindings/phy/phy.h`, which is not part of the driver file. -/
def PHY_TYPE_PCIE : Nat := 2
/-- Modelled from the spec: the constant `PHY_TYPE_USB2` of the kernel header
`dt-bindings/phy/phy.h`, which is not part of the driver file. -/
def PHY_TYPE_USB2 : Nat := 3
/-- Modelled from the spec: the constant `PHY_TYPE_USB3` of the kernel header
`dt-bindings/phy/phy.h`, which is not part of the driver file. -/
def PHY_TYPE_USB3 : Nat := 4

/-- Modelled from the spec: the kernel errno `EINVAL`, returned negated where
the spec has `InvalidType`, `TypeConflict`, `TypeMismatch` and
`UnsupportedClockRate`. -/
def EINVAL : Int := 22
/-- Modelled from the spec: the kernel errno `ETIMEDOUT`, returned negated
where the spec has `PllLockTimeout` and `LaneReadyTimeout`. -/
def ETIMEDOUT : Int := 110

/-! ## Machine integers -/

/-- Truncation of a value to a C `u32`. -/
def u32 (n : Nat) : Nat := n % 2 ^ 32

/-- Truncation of a value to a C `u8`. -/
def u8 (n : Nat) : Nat := n % 2 ^ 8

/-- Modelled from the spec: the kernel macro `GENMASK(h, l)` of `linux/bits.h`
(not part of the driver file), the mask of the inclusive bit range `[l, h]` the
spec calls "the field's bit range". It is computed as the kernel does on a
64-bit `unsigned long`:
`((~0UL) - (1UL << l) + 1) & (~0UL >> (BITS_PER_LONG - 1 - h))`.
The C expression is only defined for `l < 64` and `h < 64`. -/
def GENMASK (h l : Nat) : Nat :=
  (((2 ^ 64 - 1) - (2 ^ l % 2 ^ 64) + 1) % 2 ^ 64) &&& ((2 ^ 64 - 1) >>> (63 - h))

/-! ## Data model -/

/-- The C `struct combphy_reg`: one bitfield of a GRF register. -/
structure combphy_reg where
  offset : Nat
  bitend : Nat
  bitstart : Nat
  disable : Nat
  enable : Nat
  deriving DecidableEq, Repr

/-- The C `struct rockchip_combphy_grfcfg`: the named bitfields of a variant. -/
structure rockchip_combphy_grfcfg where
  pipe_l1_sel : combphy_reg
  pipe_l1_set : combphy_reg
  pipe_l1pd_sel : combphy_reg
  pipe_l1pd_p3 : combphy_reg
  pipe_l0pd_sel : combphy_reg
  pipe_l0pd_p3 : combphy_reg
  pipe_clk_sel : combphy_reg
  pipe_clk_set : combphy_reg
  pipe_rate_sel : combphy_reg
  pipe_rate_set : combphy_reg
  pipe_mode_sel : combphy_reg
  pipe_mode_set : combphy_reg
  pipe_txrx_sel : combphy_reg
  pipe_txrx_set : combphy_reg
  pipe_width_sel : combphy_reg
  pipe_width_set : combphy_reg
  pipe_usb3_sel : combphy_reg
  pipe_pll_lock : combphy_reg
  pipe_status_l0 : combphy_reg
  deriving DecidableEq, Repr

/-- The simulated GRF register space behind `struct regmap`: the stored 32-bit
content of every register and, for fault injection, the result the transport
gives to a write at an offset (`0` for success, a negative errno otherwise). -/
structure regmap where
  regs : Nat → Nat
  bus_err : Nat → Int

/-- One write to a register that obeys the write-enable-mask convention: bit
`i` of the low half is replaced by bit `i` of the written word exactly when bit
`i + 16` of the written word is set; the stored high half is not touched. -/
def grf_update (old val : Nat) : Nat :=
  let wmask := (val >>> 16) &&& (2 ^ 16 - 1)
  (old &&& ((2 ^ 32 - 1) ^^^ wmask)) ||| (val &&& wmask)

/-- Simulated `regmap_write`: a transport error is returned and stores
nothing, a successful write is applied with `grf_update`. -/
def regmap_write (base : regmap) (offset val : Nat) : Int × regmap :=
  if base.bus_err offset ≠ 0 then (base.bus_err offset, base)
  else (0, { base with regs := fun o => if o = offset then grf_update (base.regs o) val
                                         else base.regs o })

/-- The driver's `param_write`. -/
def param_write (base : regmap) (reg : combphy_reg) (en : Bool) : Int × regmap :=
  let tmp := if en then reg.enable else reg.disable
  let mask := u32 (GENMASK reg.bitend reg.bitstart)
  let val := u32 (tmp <<< reg.bitstart) ||| u32 (mask <<< BIT_WRITEABLE_SHIFT)
  regmap_write base reg.offset val

/-- A register space whose transport never fails. -/
def regmap_ok (regs : Nat → Nat) : regmap := { regs := regs, bus_err := fun _ => 0 }


/-- The PHY MMIO window `priv->mmio`: register contents, the log of the
`writel` calls made on it, as `(offset, value)` in issue order, and the log of
the offsets of the `readl` calls made on it, in issue order. -/
structure mmio_space where
  regs : Nat → Nat
  writes : List (Nat × Nat)
  reads : List Nat

/-- The accessor `readl(mmio + off)`: the value read, and the window with the
read recorded. -/
def readl (m : mmio_space) (off : Nat) : Nat × mmio_space :=
  (m.regs off, { m with reads := m.reads ++ [off] })

/-- The accessor `writel(val, mmio + off)`. -/
def writel (val : Nat) (m : mmio_space) (off : Nat) : mmio_space :=
  { m with
    regs := fun o => if o = off then u32 val else m.regs o
    writes := m.writes ++ [(off, u32 val)] }

/-- A per-variant hook (`combphy_cfg`, `combphy_u3_cp_test`). The hooks of the
driver use `priv` for three things only: they read `priv->phy_type`, they read
the rate of `priv->ref_clk`, and they access `priv->mmio`; a hook is therefore a
function of the type, the rate and the MMIO window, returning an `int`. -/
abbrev hook_fn := Nat → Nat → mmio_space → Int × mmio_space

/-- The C `struct rockchip_combphy_cfg`; a `NULL` hook is `none`. -/
structure rockchip_combphy_cfg where
  grfcfg : rockchip_combphy_grfcfg
  combphy_u3_cp_test : Option hook_fn
  combphy_cfg : Option hook_fn

/-- The C `struct rockchip_combphy_priv`. `phy_type` is the `u8` field;
`rsts i` tells whether the handle `rsts[i]` is present (non-`NULL`). The
hardware behind `mmio`, `ref_clk` and `combphy_grf` lives in `World`. -/
structure rockchip_combphy_priv where
  phy_type : Nat
  rsts : Nat → Bool
  cfg : rockchip_combphy_cfg

/-- The C `struct of_phandle_args`, reduced to the members `xlate` reads. -/
structure of_phandle_args where
  args_count : Int
  args : Nat → Nat

/-- Operations the engine issues, in the order of `World.trace`. -/
inductive Op where
  | reset_assert (line : Nat)
  | reset_deassert (line : Nat)
  | udelay (us : Nat)
  | usleep_range (lo hi : Nat)
  | param_write (reg : combphy_reg) (en : Bool) (ret : Int)
  | combphy_cfg (ret : Int)
  | combphy_u3_cp_test (ret : Int)
  | poll_pll_lock (val : Nat) (ret : Int)
  | poll_is_ready (val : Nat) (ret : Int)
  | clk_prepare_enable (ret : Int)
  | clk_disable_unprepare
  deriving DecidableEq, Repr

/-- The simulated hardware and its environment.

* `now`: the microsecond clock; it advances through delays only.
* `grf`: the GRF register space written through `regmap_write`.
* `grf_hw t off v`: what a read of GRF register `off` returns at time `t` when
  `v` is stored there; a plain register is `fun _ _ v => v`, a status register
  is driven by the hardware as a function of time.
* `mmio`: the PHY register window.
* `rst_asserted`: state of the four reset lines.
* `clk_rate`, `clk_enable_ret`, `clk_enable_count`: the reference clock, the
  result `clk_prepare_enable` gives, and the enable count.
* `sched_slack`: how far into its range a `usleep_range` sleeps.
* `trace`: operations issued so far, oldest first. -/
structure World where
  now : Nat
  grf : regmap
  grf_hw : Nat → Nat → Nat → Nat
  mmio : mmio_space
  rst_asserted : Nat → Bool
  clk_rate : Nat
  clk_enable_ret : Int
  clk_enable_count : Nat
  sched_slack : Nat
  trace : List Op

/-! ## Primitives of the kernel the driver calls -/

/-- Append an operation to the trace. -/
def log (op : Op) (w : World) : World := { w with trace := w.trace ++ [op] }

/-- Let `us` microseconds pass. -/
def advance (us : Nat) (w : World) : World := { w with now := w.now + us }

/-- The kernel busy-wait `udelay`. -/
def udelay (us : Nat) (w : World) : World := log (Op.udelay us) (advance us w)

/-- The kernel sleep `usleep_range(lo, hi)`: sleeps between `lo` and `hi`. -/
def usleep_range (lo hi : Nat) (w : World) : World :=
  log (Op.usleep_range lo hi) (advance (lo + w.sched_slack % (hi - lo + 1)) w)

/-- The call `reset_control_assert(priv->rsts[line])`: no effect on the
hardware when the line is absent. -/
def reset_control_assert (priv : rockchip_combphy_priv) (line : Nat) (w : World) : World :=
  let w1 := log (Op.reset_assert line) w
  if priv.rsts line then
    { w1 with rst_asserted := fun l => if l = line then true else w1.rst_asserted l }
  else w1

/-- The call `reset_control_deassert(priv->rsts[line])`: no effect on the
hardware when the line is absent. -/
def reset_control_deassert (priv : rockchip_combphy_priv) (line : Nat) (w : World) : World :=
  let w1 := log (Op.reset_deassert line) w
  if priv.rsts line then
    { w1 with rst_asserted := fun l => if l = line then false else w1.rst_asserted l }
  else w1

/-- The call `clk_prepare_enable(priv->ref_clk)`. -/
def clk_prepare_enable (w : World) : Int × World :=
  if w.clk_enable_ret ≠ 0 then (w.clk_enable_ret, log (Op.clk_prepare_enable w.clk_enable_ret) w)
  else (0, log (Op.clk_prepare_enable 0) { w with clk_enable_count := w.clk_enable_count + 1 })

/-- The call `clk_disable_unprepare(priv->ref_clk)`: one enable is dropped; on a
clock that is not enabled the kernel only warns and the count stays zero,
which the truncated subtraction gives. -/
def clk_disable_unprepare (w : World) : World :=
  log Op.clk_disable_unprepare { w with clk_enable_count := w.clk_enable_count - 1 }

/-- Simulated `regmap_read` on the GRF at the current time. -/
def regmap_read (w : World) (offset : Nat) : Nat :=
  u32 (w.grf_hw w.now offset (w.grf.regs offset))

/-- A `param_write` on `priv->combphy_grf`, recorded in the trace with its
return value. -/
def grf_param_write (reg : combphy_reg) (en : Bool) (w : World) : Int × World :=
  let r := param_write w.grf reg en
  (r.1, log (Op.param_write reg en r.1) { w with grf := r.2 })

/-- Modelled from the spec: the loop of the kernel macro
`readx_poll_timeout_atomic` (see below), one iteration per unit of fuel: read,
leave if the condition holds, read once more and leave if the deadline has
passed, otherwise delay and repeat. Returns the last value read. -/
def poll_loop (op : World → Nat) (cond : Nat → Bool) (delay_us timeout_us deadline : Nat) :
    Nat → World → Nat × World
  | 0, w => (op w, w)
  | fuel + 1, w =>
    let val := op w
    if cond val then (val, w)
    else if timeout_us ≠ 0 ∧ w.now > deadline then (op w, w)
    else poll_loop op cond delay_us timeout_us deadline fuel
      (if delay_us ≠ 0 then advance delay_us w else w)

/-- Modelled from the spec: the kernel macro `readx_poll_timeout_atomic` of
`linux/iopoll.h` (not part of the driver file), the spec's `poll_field_until`:
it re-reads at the given interval until the condition holds or the elapsed time
exceeds the timeout, and returns `0` or `-ETIMEDOUT` according to the condition
on the last value read. Time passes through the delays only, so with a non-zero
interval `timeout_us / delay_us + 2` iterations reach the deadline. -/
def readx_poll_timeout_atomic (op : World → Nat) (cond : Nat → Bool)
    (delay_us timeout_us : Nat) (w : World) : Int × Nat × World :=
  let r := poll_loop op cond delay_us timeout_us (w.now + timeout_us)
    (timeout_us / delay_us + 2) w
  (if cond r.1 then 0 else -ETIMEDOUT, r.1, r.2)

/-! ## The driver -/

/-- The driver's `rockchip_combphy_pll_lock`. -/
def rockchip_combphy_pll_lock (priv : rockchip_combphy_priv) (w : World) : Nat :=
  let grfcfg := priv.cfg.grfcfg
  let mask := u32 (GENMASK grfcfg.pipe_pll_lock.bitend grfcfg.pipe_pll_lock.bitstart)
  let val := regmap_read w grfcfg.pipe_pll_lock.offset
  (val &&& mask) >>> grfcfg.pipe_pll_lock.bitstart

/-- The driver's `rockchip_combphy_is_ready`. -/
def rockchip_combphy_is_ready (priv : rockchip_combphy_priv) (w : World) : Nat :=
  let grfcfg := priv.cfg.grfcfg
  let mask := u32 (GENMASK grfcfg.pipe_status_l0.bitend grfcfg.pipe_status_l0.bitstart)
  let val := regmap_read w grfcfg.pipe_status_l0.offset
  (val &&& mask) >>> grfcfg.pipe_status_l0.bitstart

/-- The "Wait Tx PLL lock" poll of both bring-up routines, recorded in the
trace with the last value read and the result. -/
def wait_pll_lock (priv : rockchip_combphy_priv) (w : World) : Int × World :=
  let r := readx_poll_timeout_atomic (rockchip_combphy_pll_lock priv)
    (fun val => val == priv.cfg.grfcfg.pipe_pll_lock.enable) 10 1000 w
  (r.1, log (Op.poll_pll_lock r.2.1 r.1) r.2.2)

/-- The "Wait PIPE PHY status lane0 ready" poll of both bring-up routines,
recorded in the trace with the last value read and the result. -/
def wait_is_ready (priv : rockchip_combphy_priv) (w : World) : Int × World :=
  let r := readx_poll_timeout_atomic (rockchip_combphy_is_ready priv)
    (fun val => val == priv.cfg.grfcfg.pipe_status_l0.enable) 10 1000 w
  (r.1, log (Op.poll_is_ready r.2.1 r.1) r.2.2)

/-- The guarded hook call `if (priv->cfg->combphy_cfg) ret = ...(priv);`, with
`ret` initialised to `0`; a call is recorded in the trace. -/
def call_combphy_cfg (priv : rockchip_combphy_priv) (w : World) : Int × World :=
  match priv.cfg.combphy_cfg with
  | none => (0, w)
  | some f =>
    let r := f priv.phy_type w.clk_rate w.mmio
    (r.1, log (Op.combphy_cfg r.1) { w with mmio := r.2 })

/-- The driver's `phy_pcie_init`. -/
def phy_pcie_init (priv : rockchip_combphy_priv) (w : World) : Int × World :=
  let w := reset_control_deassert priv PHY_POR_RSTN w
  let w := udelay 5 w
  let w := reset_control_deassert priv PHY_APB_RSTN w
  let w := udelay 5 w
  let r := call_combphy_cfg priv w
  if r.1 ≠ 0 then r
  else
    let w := usleep_range 300 350 r.2
    let r := wait_pll_lock priv w
    if r.1 ≠ 0 then r
    else
      let w := reset_control_deassert priv PHY_PIPE_RSTN r.2
      wait_is_ready priv w

/-- The thirteen `param_write` calls of `phy_u3_init`, in source order; every
return value is discarded, as in the source. -/
def u3_param_writes (grfcfg : rockchip_combphy_grfcfg) (w : World) : World :=
  let w := (grf_param_write grfcfg.pipe_l1_set true w).2
  let w := (grf_param_write grfcfg.pipe_l1_sel true w).2
  let w := (grf_param_write grfcfg.pipe_txrx_set true w).2
  let w := (grf_param_write grfcfg.pipe_txrx_sel true w).2
  let w := (grf_param_write grfcfg.pipe_clk_set true w).2
  let w := (grf_param_write grfcfg.pipe_clk_sel true w).2
  let w := (grf_param_write grfcfg.pipe_rate_set true w).2
  let w := (grf_param_write grfcfg.pipe_rate_sel true w).2
  let w := (grf_param_write grfcfg.pipe_mode_set true w).2
  let w := (grf_param_write grfcfg.pipe_mode_sel true w).2
  let w := (grf_param_write grfcfg.pipe_width_set true w).2
  let w := (grf_param_write grfcfg.pipe_width_sel true w).2
  (grf_param_write grfcfg.pipe_usb3_sel true w).2

/-- The driver's `phy_u3_init`. -/
def phy_u3_init (priv : rockchip_combphy_priv) (w : World) : Int × World :=
  let w := reset_control_assert priv OTG_RSTN w
  let w := reset_control_deassert priv PHY_POR_RSTN w
  let w := udelay 5 w
  let w := reset_control_deassert priv PHY_APB_RSTN w
  let w := udelay 5 w
  let w := u3_param_writes priv.cfg.grfcfg w
  let r := call_combphy_cfg priv w
  if r.1 ≠ 0 then r
  else
    let w := usleep_range 300 350 r.2
    let r := wait_pll_lock priv w
    if r.1 ≠ 0 then r
    else
      let w := reset_control_deassert priv PHY_PIPE_RSTN r.2
      let r := wait_is_ready priv w
      if r.1 ≠ 0 then r
      else (r.1, reset_control_deassert priv OTG_RSTN r.2)

/-- The driver's `rockchip_combphy_set_phy_type`. -/
def rockchip_combphy_set_phy_type (priv : rockchip_combphy_priv) (w : World) : Int × World :=
  if priv.phy_type = PHY_TYPE_PCIE then phy_pcie_init priv w
  else if priv.phy_type = PHY_TYPE_USB3 then phy_u3_init priv w
  else (-EINVAL, w)

/-- The driver's `rockchip_combphy_init`. -/
def rockchip_combphy_init (priv : rockchip_combphy_priv) (w : World) : Int × World :=
  let r := clk_prepare_enable w
  if r.1 ≠ 0 then r
  else
    let r := rockchip_combphy_set_phy_type priv r.2
    if r.1 ≠ 0 then r
    else (0, r.2)

/-- The driver's `rockchip_combphy_exit`. -/
def rockchip_combphy_exit (priv : rockchip_combphy_priv) (w : World) : Int × World :=
  let w := reset_control_assert priv PHY_POR_RSTN w
  let w := reset_control_assert priv PHY_APB_RSTN w
  let w := reset_control_assert priv PHY_PIPE_RSTN w
  let w := clk_disable_unprepare w
  (0, w)

/-- The driver's `rockchip_combphy_u3_cp_test`. -/
def rockchip_combphy_u3_cp_test (priv : rockchip_combphy_priv) (w : World) : Int × World :=
  match priv.cfg.combphy_u3_cp_test with
  | none => (0, w)
  | some f =>
    let r := f priv.phy_type w.clk_rate w.mmio
    (r.1, log (Op.combphy_u3_cp_test r.1) { w with mmio := r.2 })

/-- The driver's `rockchip_combphy_xlate`: `.ok ()` stands for the returned
`priv->phy`, `.error e` for `ERR_PTR(e)`. The assignment
`priv->phy_type = args->args[0]` truncates the `u32` argument to `u8`, while the
comparison before it is made on the untruncated value. -/
def rockchip_combphy_xlate (priv : rockchip_combphy_priv) (args : of_phandle_args) :
    Except Int Unit × rockchip_combphy_priv :=
  if args.args_count < 1 then (.error (-EINVAL), priv)
  else if priv.phy_type ≠ PHY_NONE ∧ priv.phy_type ≠ u32 (args.args 0) then
    (.error (-EINVAL), priv)
  else
    let priv := { priv with phy_type := u8 (u32 (args.args 0)) }
    if priv.phy_type < PHY_TYPE_SATA ∨ priv.phy_type > PHY_TYPE_USB3 then
      (.error (-EINVAL), priv)
    else (.ok (), priv)

/-- The driver's `rk1808_combphy_u3_cp_test`. -/
def rk1808_combphy_u3_cp_test : hook_fn := fun phy_type _rate mmio =>
  if phy_type ≠ PHY_TYPE_USB3 then (-EINVAL, mmio)
  else (0, writel 0x0c mmio 0x4008)

/-- The C expression `reg & ~m` on `u32`. -/
def and_not32 (reg m : Nat) : Nat := reg &&& ((2 ^ 32 - 1) ^^^ m)

/-- The reference-clock part of `rk1808_combphy_cfg` (first `switch`): `none`
is the `default` branch. -/
def rk1808_refclk_cfg (rate : Nat) (mmio : mmio_space) : Option mmio_space :=
  if rate = 24000000 then some mmio
  else if rate = 25000000 then
    let m := writel 0x00 mmio 0x2118
    let m := writel 0x64 m 0x211c
    let m := writel 0x01 m 0x2020
    let m := writel 0x64 m 0x2028
    some (writel 0x21 m 0x2030)
  else if rate = 50000000 then
    let m := writel 0x00 mmio 0x2118
    let m := writel 0x32 m 0x211c
    let m := writel 0x01 m 0x2020
    let m := writel 0x32 m 0x2028
    some (writel 0x21 m 0x2030)
  else none

/-- The "Set and enable SSC" part of `rk1808_combphy_cfg` (second `switch` and
the `if (ssc_en)` block). -/
def rk1808_ssc_cfg (rate : Nat) (mmio : mmio_space) : mmio_space :=
  let r : Bool × mmio_space :=
    if rate = 24000000 then
      let r := readl mmio 0x2108
      let reg := and_not32 r.1 0xf ||| 0x1
      (true, writel reg r.2 0x2108)
    else if rate = 25000000 then
      let r := readl mmio 0x2108
      let reg := and_not32 r.1 0xf ||| 0x6
      (true, writel reg r.2 0x2108)
    else (false, mmio)
  if r.1 then
    let r := readl r.2 0x2120
    let reg := and_not32 r.1 (2 ^ 4)
    let m := writel reg r.2 0x2120
    let r := readl m 0x2000
    let reg := and_not32 r.1 0x6
    writel reg r.2 0x2000
  else r.2

/-- The driver's `rk1808_combphy_cfg`. -/
def rk1808_combphy_cfg : hook_fn := fun phy_type rate mmio =>
  match rk1808_refclk_cfg rate mmio with
  | none => (-EINVAL, mmio)
  | some m =>
    if phy_type = PHY_TYPE_PCIE then
      let m := writel 0x20 m 0x20ac
      let m := writel 0x20 m 0x30ac
      (0, m)
    else if phy_type = PHY_TYPE_USB3 then
      let m := writel 0x20 m 0x20ac
      let m := rk1808_ssc_cfg rate m
      let r := readl m 0x20c8
      let reg := and_not32 r.1 0x6 ||| 2 ^ 1
      let m := writel reg r.2 0x20c8
      let r := readl m 0x2150
      let reg := r.1 ||| 2 ^ 2
      let m := writel reg r.2 0x2150
      (0, m)
    else (-EINVAL, m)

/-- The table `rk1808_combphy_cfgs.grfcfg`; a `combphy_reg` initialiser lists
`offset, bitend, bitstart, disable, enable`. -/
def rk1808_grfcfg : rockchip_combphy_grfcfg where
  pipe_l1_sel := ⟨0x0000, 15, 11, 0x00, 0x1f⟩
  pipe_l1_set := ⟨0x0008, 13, 8, 0x00, 0x13⟩
  pipe_l1pd_sel := ⟨0x0000, 11, 11, 0x0, 0x1⟩
  pipe_l1pd_p3 := ⟨0x0008, 9, 8, 0x0, 0x3⟩
  pipe_l0pd_sel := ⟨0x0000, 6, 6, 0x0, 0x1⟩
  pipe_l0pd_p3 := ⟨0x0008, 1, 0, 0x0, 0x3⟩
  pipe_clk_sel := ⟨0x0000, 3, 3, 0x0, 0x1⟩
  pipe_clk_set := ⟨0x0004, 7, 6, 0x1, 0x0⟩
  pipe_rate_sel := ⟨0x0000, 2, 2, 0x0, 0x1⟩
  pipe_rate_set := ⟨0x0004, 5, 4, 0x0, 0x1⟩
  pipe_mode_sel := ⟨0x0000, 1, 1, 0x0, 0x1⟩
  pipe_mode_set := ⟨0x0004, 3, 2, 0x0, 0x1⟩
  pipe_txrx_sel := ⟨0x0004, 15, 8, 0x14, 0x2f⟩
  pipe_txrx_set := ⟨0x0008, 15, 14, 0x0, 0x3⟩
  pipe_width_sel := ⟨0x0000, 0, 0, 0x0, 0x1⟩
  pipe_width_set := ⟨0x0004, 1, 0, 0x2, 0x0⟩
  pipe_usb3_sel := ⟨0x000c, 0, 0, 0x0, 0x1⟩
  pipe_pll_lock := ⟨0x0034, 14, 14, 0x0, 0x1⟩
  pipe_status_l0 := ⟨0x0034, 7, 7, 0x1, 0x0⟩

/-- The driver's `rk1808_combphy_cfgs`. -/
def rk1808_combphy_cfgs : rockchip_combphy_cfg where
  grfcfg := rk1808_grfcfg
  combphy_u3_cp_test := some rk1808_combphy_u3_cp_test
  combphy_cfg := some rk1808_combphy_cfg

/-! ## Specification vocabulary -/

/-- The Bitfield Register Port contract for one register: `new` is `old` with
the bits `[bitstart, bitend]` replaced by the bits of `v`, every other bit as in
`old`. -/
def field_replaced (reg : combphy_reg) (v old new : Nat) : Prop :=
  ∀ i, new.testBit i =
    if reg.bitstart ≤ i ∧ i ≤ reg.bitend then v.testBit (i - reg.bitstart) else old.testBit i

/-- A call of the owning bus-controller framework on one instance. -/
inductive Call where
  | assign_type (args : of_phandle_args)
  | init
  | exit
  | compliance_test

/-- One framework call on an instance and its hardware. Only
`rockchip_combphy_xlate` assigns a member of `priv`; `init`, `exit` and
`cp_test` contain no assignment to `priv`, so they return the hardware only. -/
def step (s : rockchip_combphy_priv × World) : Call → rockchip_combphy_priv × World
  | .assign_type args => ((rockchip_combphy_xlate s.1 args).2, s.2)
  | .init => (s.1, (rockchip_combphy_init s.1 s.2).2)
  | .exit => (s.1, (rockchip_combphy_exit s.1 s.2).2)
  | .compliance_test => (s.1, (rockchip_combphy_u3_cp_test s.1 s.2).2)

/-- A sequence of framework calls, whatever each returns. -/
def run (s : rockchip_combphy_priv × World) (calls : List Call) :
    rockchip_combphy_priv × World :=
  calls.foldl step s

/-- The simulated rk1808 board used in examples: all registers zero, reset
lines asserted, reference clock of the given rate that can be enabled, and the
status register at GRF offset `0x34` driven by `status` as a function of
time. -/
def sim_world (rate : Nat) (status : Nat → Nat) : World where
  now := 0
  grf := regmap_ok fun _ => 0
  grf_hw := fun t off v => if off = 0x34 then status t else v
  mmio := ⟨fun _ => 0, [], []⟩
  rst_asserted := fun _ => true
  clk_rate := rate
  clk_enable_ret := 0
  clk_enable_count := 0
  sched_slack := 0
  trace := []

/-- The trace entry of the guarded fine-tuning hook call: none when the variant
has no hook, one entry carrying the hook's return value otherwise. -/
def cfg_hook_ops (hook : Option hook_fn) (ret : Int) : List Op :=
  match hook with
  | none => []
  | some _ => [Op.combphy_cfg ret]

/-- The documented order of PCIe bring-up (spec, section 4.5): deassert
power-on-reset, 5 us, deassert register-bus-reset, 5 us, fine-tuning hook if
configured, 300-350 us settle, PLL-lock poll, deassert data-path-reset,
lane-ready poll. The arguments are the values the run produced. -/
def pcie_documented_order (hook : Option hook_fn) (hook_ret : Int)
    (pll_val : Nat) (pll_ret : Int) (rdy_val : Nat) (rdy_ret : Int) : List Op :=
  [Op.reset_deassert PHY_POR_RSTN, Op.udelay 5, Op.reset_deassert PHY_APB_RSTN, Op.udelay 5]
    ++ cfg_hook_ops hook hook_ret
    ++ [Op.usleep_range 300 350, Op.poll_pll_lock pll_val pll_ret,
        Op.reset_deassert PHY_PIPE_RSTN, Op.poll_is_ready rdy_val rdy_ret]

/-- The bitfields USB3 bring-up writes, in the documented order (spec, section
4.5, step 3): lane-1 set and select, tx/rx set and select, clock-request set
and select, rate set and select, mode set and select, data-width set and
select, then the protocol (USB3) select. -/
def u3_write_fields (g : rockchip_combphy_grfcfg) : List combphy_reg :=
  [g.pipe_l1_set, g.pipe_l1_sel, g.pipe_txrx_set, g.pipe_txrx_sel,
   g.pipe_clk_set, g.pipe_clk_sel, g.pipe_rate_set, g.pipe_rate_sel,
   g.pipe_mode_set, g.pipe_mode_sel, g.pipe_width_set, g.pipe_width_sel,
   g.pipe_usb3_sel]

/-- Trace entries of enable-value writes to the given fields, with the return
value of each write. -/
def write_ops (regs : List combphy_reg) (rets : List Int) : List Op :=
  List.zipWith (fun reg ret => Op.param_write reg true ret) regs rets

/-- Enable-value writes to a list of fields, one after the other, every return
value discarded. -/
def param_writes (regs : List combphy_reg) (w : World) : World :=
  regs.foldl (fun w reg => (grf_param_write reg true w).2) w

/-- The operations of USB3 bring-up between the controller-reset assert and
the 300-350 us settle: power-up, the thirteen writes, the hook entry. -/
def u3_setup_ops (cfg : rockchip_combphy_cfg) (rets : List Int) (hook_ret : Int) : List Op :=
  [Op.reset_deassert PHY_POR_RSTN, Op.udelay 5, Op.reset_deassert PHY_APB_RSTN, Op.udelay 5]
    ++ write_ops (u3_write_fields cfg.grfcfg) rets
    ++ cfg_hook_ops cfg.combphy_cfg hook_ret

/-- The operations of USB3 bring-up up to and including the fine-tuning hook:
the controller-reset assert, then `u3_setup_ops`. -/
def u3_head_ops (cfg : rockchip_combphy_cfg) (rets : List Int) (hook_ret : Int) : List Op :=
  Op.reset_assert OTG_RSTN :: u3_setup_ops cfg rets hook_ret

/-- The simulated rk1808 board with a GRF transport that fails every write
with `-EIO` (`-5`), a 24 MHz reference clock, and a status register that shows
PLL lock (bit 14 set) and lane 0 ready (bit 7 clear) from the start. -/
def sim_world_bus_fault : World :=
  { sim_world 24000000 (fun _ => 0x4000) with
    grf := { regs := fun _ => 0, bus_err := fun _ => -5 } }

/-- A bring-up step whose failure the code examines, failing with result `r`:
the clock enable, the fine-tuning hook, the PLL-lock poll or the lane-ready
poll. -/
def failing_step (op : Op) (r : Int) : Prop :=
  r ≠ 0 ∧ (op = Op.clk_prepare_enable r ∨ op = Op.combphy_cfg r ∨
    (∃ v, op = Op.poll_pll_lock v r) ∨ ∃ v, op = Op.poll_is_ready v r)

/-- The driver's `rockchip_combphy_probe` on the path where resource discovery
succeeds: `phy_cfg` is the match data of the variant and `rsts` tells which
reset handles `rockchip_combphy_parse_dt` found. The instance is zero-filled,
the three PHY resets are asserted, and the type is set to `PHY_NONE`. -/
def rockchip_combphy_probe (phy_cfg : rockchip_combphy_cfg) (rsts : Nat → Bool) (w : World) :
    rockchip_combphy_priv × World :=
  let priv : rockchip_combphy_priv := { phy_type := 0, rsts := rsts, cfg := phy_cfg }
  let w := reset_control_assert priv PHY_POR_RSTN w
  let w := reset_control_assert priv PHY_APB_RSTN w
  let w := reset_control_assert priv PHY_PIPE_RSTN w
  ({ priv with phy_type := PHY_NONE }, w)

/-- The torn-down state the spec asks of `exit`, for the three resets the PHY
owns: every present line among power-on-reset, register-bus-reset and
data-path-reset is asserted and the reference clock is disabled (enable count
zero). -/
def phy_torn_down (priv : rockchip_combphy_priv) (w : World) : Prop :=
  (∀ l, l = PHY_POR_RSTN ∨ l = PHY_APB_RSTN ∨ l = PHY_PIPE_RSTN →
    priv.rsts l = true → w.rst_asserted l = true) ∧
  w.clk_enable_count = 0

/-- The simulated rk1808 board as a boot loader may leave it: like `sim_world`
with a 24 MHz reference clock, but with every reset line deasserted. -/
def sim_world_released : World :=
  { sim_world 24000000 (fun _ => 0) with rst_asserted := fun _ => false }

/-- What a poll of the driver (10 us interval, 1000 us timeout) started at time
`start` observes of a field that reads `f t` at time `t`: the index of the
first of its reads that shows `expected`, if any. The reads happen `0, 10, ...,
1010` us after `start`; the one at 1010 us is the first past the deadline, after
which the poll gives up. -/
def first_hit (f : Nat → Nat) (expected start : Nat) : Option Nat :=
  (List.range 102).find? (fun k => f (start + 10 * k) == expected)

/-- The hardware as bring-up sees it when it polls: for USB3 with the thirteen
bitfield writes stored in the GRF, for any other type as it is. -/
def bringup_grf (priv : rockchip_combphy_priv) (w : World) : World :=
  if priv.phy_type = PHY_TYPE_USB3 then u3_param_writes priv.cfg.grfcfg w else w

/-- The PLL-lock field as the hardware shows it at time `t` during bring-up. -/
def pll_lock_at (priv : rockchip_combphy_priv) (w : World) (t : Nat) : Nat :=
  rockchip_combphy_pll_lock priv { bringup_grf priv w with now := t }

/-- The lane-ready field as the hardware shows it at time `t` during
bring-up. -/
def is_ready_at (priv : rockchip_combphy_priv) (w : World) (t : Nat) : Nat :=
  rockchip_combphy_is_ready priv { bringup_grf priv w with now := t }

/-- The time at which bring-up started in `w` begins to poll PLL-lock: after the
two 5 us delays and the 300-350 us settle sleep. -/
def settle_end (w : World) : Nat :=
  w.now + 5 + 5 + (300 + w.sched_slack % (350 - 300 + 1))

/-- The result of the fine-tuning hook in bring-up started in `w`: `0` when the
variant has no hook. -/
def hook_ret (priv : rockchip_combphy_priv) (w : World) : Int :=
  match priv.cfg.combphy_cfg with
  | none => 0
  | some f => (f priv.phy_type w.clk_rate w.mmio).1

/-- The result of bring-up as the spec describes it (section 4.5): the hook
error if the hook fails; otherwise a timeout error if the PLL-lock poll or,
started when the PLL-lock poll ended, the lane-ready poll does not observe its
expected value; otherwise success. -/
def bringup_ret (priv : rockchip_combphy_priv) (w : World) : Int :=
  if hook_ret priv w ≠ 0 then hook_ret priv w
  else
    match first_hit (pll_lock_at priv w) priv.cfg.grfcfg.pipe_pll_lock.enable (settle_end w) with
    | none => -ETIMEDOUT
    | some k =>
      match first_hit (is_ready_at priv w) priv.cfg.grfcfg.pipe_status_l0.enable
          (settle_end w + 10 * k) with
      | none => -ETIMEDOUT
      | some _ => 0

/-- The nineteen fields of a variant table, in the order of
`struct rockchip_combphy_grfcfg`. -/
def grfcfg_fields (g : rockchip_combphy_grfcfg) : List combphy_reg :=
  [g.pipe_l1_sel, g.pipe_l1_set, g.pipe_l1pd_sel, g.pipe_l1pd_p3, g.pipe_l0pd_sel,
   g.pipe_l0pd_p3, g.pipe_clk_sel, g.pipe_clk_set, g.pipe_rate_sel, g.pipe_rate_set,
   g.pipe_mode_sel, g.pipe_mode_set, g.pipe_txrx_sel, g.pipe_txrx_set, g.pipe_width_sel,
   g.pipe_width_set, g.pipe_usb3_sel, g.pipe_pll_lock, g.pipe_status_l0]

/-- The 32-bit word `param_write` hands to `regmap_write`. -/
def param_word (reg : combphy_reg) (en : Bool) : Nat :=
  u32 ((if en then reg.enable else reg.disable) <<< reg.bitstart)
    ||| u32 (u32 (GENMASK reg.bitend reg.bitstart) <<< BIT_WRITEABLE_SHIFT)

/-- The value of a field in a register content, extracted as
`rockchip_combphy_pll_lock` and `rockchip_combphy_is_ready` do: mask with
`GENMASK(bitend, bitstart)`, shift down by `bitstart`. -/
def field_value (reg : combphy_reg) (content : Nat) : Nat :=
  (content &&& u32 (GENMASK reg.bitend reg.bitstart)) >>> reg.bitstart

/-- The literal reading of "the poll observes the field equal to its expected
value within its timeout": the field, which reads `f t` at time `t`, shows
`expected` at some time from the start of the poll to `timeout` us after it. -/
def observed_within (f : Nat → Nat) (expected start timeout : Nat) : Prop :=
  ∃ t, start ≤ t ∧ t ≤ start + timeout ∧ f t = expected

/-- The simulated rk1808 board with a 24 MHz reference clock whose status
register shows PLL lock (bit 14) from time 1320 us on and not before, lane 0
being ready (bit 7 clear) throughout. -/
def sim_world_late_lock : World :=
  sim_world 24000000 (fun t => if 1320 ≤ t then 0x4000 else 0)

/-! ## Theorems -/

/-! ### Bit-level facts about `GENMASK` and the written word -/

theorem testBit_GENMASK (h l i : Nat) (hh : h ≤ 63) :
    (GENMASK h l).testBit i = decide (l ≤ i ∧ i ≤ h) := by
  unfold GENMASK
  rw [Nat.testBit_and, Nat.testBit_shiftRight, Nat.testBit_two_pow_sub_one]
  by_cases hl : l < 64
  · have h1 : 2 ^ l < 2 ^ 64 := Nat.pow_lt_pow_right (by norm_num) hl
    have h0 : 0 < 2 ^ l := Nat.pow_pos (by norm_num)
    have e : ((2 ^ 64 - 1) - (2 ^ l % 2 ^ 64) + 1) % 2 ^ 64 = 2 ^ 64 - ((2 ^ l - 1) + 1) := by
      rw [Nat.mod_eq_of_lt h1]
      have : 2 ^ 64 - 1 - 2 ^ l + 1 = 2 ^ 64 - 2 ^ l := by omega
      rw [this, Nat.mod_eq_of_lt (by omega)]
      congr 1; omega
    rw [e, Nat.testBit_two_pow_sub_succ (by omega), Nat.testBit_two_pow_sub_one]
    by_cases a : l ≤ i <;> by_cases b : i ≤ h <;> simp [a, b] <;> omega
  · have e : 2 ^ l % 2 ^ 64 = 0 := by
      have : l = 64 + (l - 64) := by omega
      rw [this, pow_add]; simp
    rw [e]
    simp
    omega

/-- Bits of the word `param_write` builds, for a field inside the low half. -/
theorem testBit_param_val (tmp h l i : Nat) (hlh : l ≤ h) (h15 : h ≤ 15)
    (ht : tmp < 2 ^ (h - l + 1)) :
    (u32 (tmp <<< l) ||| u32 (u32 (GENMASK h l) <<< BIT_WRITEABLE_SHIFT)).testBit i
      = ((decide (l ≤ i ∧ i ≤ h) && tmp.testBit (i - l))
          || decide (l + 16 ≤ i ∧ i ≤ h + 16)) := by
  have hb : tmp.testBit (i - l) = true → i - l ≤ h - l := by
    intro hb
    by_contra hc
    have := Nat.testBit_lt_two_pow (x := tmp) (i := i - l)
      (lt_of_lt_of_le ht (Nat.pow_le_pow_right (by norm_num) (by omega)))
    simp [this] at hb
  simp only [u32, BIT_WRITEABLE_SHIFT, Nat.testBit_or, Nat.testBit_mod_two_pow,
    Nat.testBit_shiftLeft, testBit_GENMASK h l _ (by omega : h ≤ 63)]
  generalize tmp.testBit (i - l) = b at hb ⊢
  cases b
  · simp only [Bool.and_false, Bool.false_or, Bool.and_true]
    by_cases h1 : i < 32 <;> by_cases h2 : l + 16 ≤ i <;> by_cases h3 : i ≤ h + 16 <;>
      simp [h1, h2, h3] <;> omega
  · simp at hb
    by_cases h0 : l ≤ i <;> by_cases h1 : i < 32 <;> by_cases h2 : l + 16 ≤ i <;>
      by_cases h3 : i ≤ h + 16 <;> by_cases h4 : i ≤ h <;>
      simp [h0, h1, h2, h3, h4] <;> omega

/-- Effect of one `param_write` word on a register of the write-enable-mask
space: the field is replaced, every other bit is kept. -/
theorem testBit_grf_update_param (old tmp h l i : Nat) (hlh : l ≤ h) (h15 : h ≤ 15)
    (ht : tmp < 2 ^ (h - l + 1)) (hold : old < 2 ^ 32) :
    (grf_update old
        (u32 (tmp <<< l) ||| u32 (u32 (GENMASK h l) <<< BIT_WRITEABLE_SHIFT))).testBit i
      = if l ≤ i ∧ i ≤ h then tmp.testBit (i - l) else old.testBit i := by
  have ho : old.testBit i = true → i < 32 := by
    intro ho
    by_contra hc
    have := Nat.testBit_lt_two_pow (x := old) (i := i)
      (lt_of_lt_of_le hold (Nat.pow_le_pow_right (by norm_num) (by omega)))
    simp [this] at ho
  simp only [grf_update, Nat.testBit_or, Nat.testBit_and, Nat.testBit_xor,
    Nat.testBit_shiftRight, Nat.testBit_two_pow_sub_one,
    testBit_param_val tmp h l _ hlh h15 ht]
  generalize old.testBit i = a at ho ⊢
  generalize tmp.testBit (i - l) = b
  generalize tmp.testBit (16 + i - l) = c
  by_cases hf : l ≤ i ∧ i ≤ h
  · have h1 : ¬ (l + 16 ≤ i) := by omega
    have h2 : l + 16 ≤ 16 + i ∧ 16 + i ≤ h + 16 := by omega
    have h3 : ¬ (16 + i ≤ h) := by omega
    have h4 : i < 16 := by omega
    have h5 : i < 32 := by omega
    simp [hf, h1, h2, h3, h4, h5]
  · have h2 : ¬ (l + 16 ≤ 16 + i ∧ 16 + i ≤ h + 16) := by omega
    have h3 : ¬ (16 + i ≤ h) := by omega
    simp only [hf, h2, h3]
    cases a
    · simp
    · simp at ho
      simp [ho]

/-! ### C1: the bitfield write primitive -/

/-- C1, as stated, fails: the field `{offset 0, bits 16..16, disable 0, enable 1}`
satisfies `bit_end >= bit_start` and both values fit its one-bit width, yet
`param_write(field, true)` on a register holding `1` does not replace bit 16:
the write-enable mask is shifted out of the 32-bit word, bit 16 of the written
word enables bit 0, and the register ends as `0`. -/
theorem param_write_high_field_counterexample :
    (16 : Nat) ≤ 16 ∧ (1 : Nat) < 2 ^ (16 - 16 + 1) ∧ (0 : Nat) < 2 ^ (16 - 16 + 1) ∧
    (param_write (regmap_ok fun _ => 1) ⟨0, 16, 16, 0, 1⟩ true).2.regs 0 = 0 ∧
    ¬ field_replaced ⟨0, 16, 16, 0, 1⟩ 1 1
        ((param_write (regmap_ok fun _ => 1) ⟨0, 16, 16, 0, 1⟩ true).2.regs 0) := by
  refine ⟨by decide, by decide, by decide, by decide, ?_⟩
  intro h
  have h0 := h 0
  revert h0
  decide

/-- C1, amended: for every field lying in the low half of its register
(`bitstart <= bitend <= 15`) whose enable and disable values fit the field
width, every 32-bit prior content and both values of `en`, `param_write` on a
write-enable-mask register space returns `0`, leaves the target register
equal to its old content with bits `[bitstart, bitend]` replaced by the chosen
value, and leaves every other register unchanged. -/
theorem param_write_replaces_field (reg : combphy_reg) (regs : Nat → Nat) (en : Bool)
    (hlh : reg.bitstart ≤ reg.bitend) (h15 : reg.bitend ≤ 15)
    (hen : reg.enable < 2 ^ (reg.bitend - reg.bitstart + 1))
    (hdis : reg.disable < 2 ^ (reg.bitend - reg.bitstart + 1))
    (hold : regs reg.offset < 2 ^ 32) :
    (param_write (regmap_ok regs) reg en).1 = 0 ∧
    field_replaced reg (if en then reg.enable else reg.disable) (regs reg.offset)
      ((param_write (regmap_ok regs) reg en).2.regs reg.offset) ∧
    ∀ o, o ≠ reg.offset → (param_write (regmap_ok regs) reg en).2.regs o = regs o := by
  have ht : (if en then reg.enable else reg.disable) < 2 ^ (reg.bitend - reg.bitstart + 1) := by
    cases en <;> simp [hen, hdis]
  refine ⟨by simp [param_write, regmap_write, regmap_ok], ?_, ?_⟩
  · intro i
    simp only [param_write, regmap_write, regmap_ok, ne_eq, not_true_eq_false, if_false,
      if_true]
    exact testBit_grf_update_param _ _ _ _ i hlh h15 ht hold
  · intro o ho
    simp [param_write, regmap_write, regmap_ok, ho]

/-- Witness for `param_write_replaces_field`: the rk1808 field `pipe_l1_sel`
(bits 15..11 of offset 0, enable value `0x1f`) on a register holding
`0x1234`. -/
theorem param_write_replaces_field_witness :
    (param_write (regmap_ok fun _ => 0x1234) ⟨0x0000, 15, 11, 0x00, 0x1f⟩ true).1 = 0 ∧
    field_replaced ⟨0x0000, 15, 11, 0x00, 0x1f⟩ 0x1f 0x1234
      ((param_write (regmap_ok fun _ => 0x1234) ⟨0x0000, 15, 11, 0x00, 0x1f⟩ true).2.regs 0) ∧
    ∀ o, o ≠ 0 →
      (param_write (regmap_ok fun _ => 0x1234) ⟨0x0000, 15, 11, 0x00, 0x1f⟩ true).2.regs o
        = 0x1234 :=
  param_write_replaces_field ⟨0x0000, 15, 11, 0x00, 0x1f⟩ (fun _ => 0x1234) true
    (by decide) (by decide) (by decide) (by decide) (by decide)

/-! ### C2 to C5: type assignment -/

/-- C2, evaluated on the code: an unassigned rk1808 instance asked for the
unsupported type value `5` gets the error `-EINVAL`, but its recorded type has
become `5`; a later request for PCIe then fails too. The claim says the rejected
request leaves the type unassigned and the later request succeeds. -/
theorem xlate_rejected_request_mutates_type :
    (rockchip_combphy_xlate ⟨PHY_NONE, fun _ => true, rk1808_combphy_cfgs⟩
        ⟨1, fun _ => 5⟩).1 = .error (-EINVAL) ∧
    (rockchip_combphy_xlate ⟨PHY_NONE, fun _ => true, rk1808_combphy_cfgs⟩
        ⟨1, fun _ => 5⟩).2.phy_type = 5 ∧
    (rockchip_combphy_xlate
        (rockchip_combphy_xlate ⟨PHY_NONE, fun _ => true, rk1808_combphy_cfgs⟩
          ⟨1, fun _ => 5⟩).2
        ⟨1, fun _ => PHY_TYPE_PCIE⟩).1 = .error (-EINVAL) :=
  ⟨rfl, rfl, rfl⟩

/-- C3, as stated, fails: the requested value `PHY_TYPE_SATA` (1) is neither
PCIe nor USB3, yet type assignment on an unassigned instance succeeds and
records it. -/
theorem xlate_accepts_sata_counterexample :
    PHY_TYPE_SATA ≠ PHY_TYPE_PCIE ∧ PHY_TYPE_SATA ≠ PHY_TYPE_USB3 ∧
    (rockchip_combphy_xlate ⟨PHY_NONE, fun _ => true, rk1808_combphy_cfgs⟩
        ⟨1, fun _ => PHY_TYPE_SATA⟩).1 = .ok () ∧
    (rockchip_combphy_xlate ⟨PHY_NONE, fun _ => true, rk1808_combphy_cfgs⟩
        ⟨1, fun _ => PHY_TYPE_SATA⟩).2.phy_type = PHY_TYPE_SATA :=
  ⟨by decide, by decide, rfl, rfl⟩

/-- The slip behind the values above 255: the conflict check compares the
untruncated request, the store truncates it to `u8`, so on an unassigned
instance the request `258` is accepted and recorded as `PHY_TYPE_PCIE`. -/
theorem xlate_truncates_request :
    (rockchip_combphy_xlate ⟨PHY_NONE, fun _ => true, rk1808_combphy_cfgs⟩
        ⟨1, fun _ => 258⟩).1 = .ok () ∧
    (rockchip_combphy_xlate ⟨PHY_NONE, fun _ => true, rk1808_combphy_cfgs⟩
        ⟨1, fun _ => 258⟩).2.phy_type = PHY_TYPE_PCIE :=
  ⟨rfl, rfl⟩

/-- C3, amended: type assignment succeeds only for a requested value in the
range `PHY_TYPE_SATA .. PHY_TYPE_USB3` (1..4): for every instance state, every
argument count and every requested value below 256 outside that range
(`PHY_NONE` included), the call fails with `-EINVAL`. -/
theorem xlate_rejects_out_of_range (priv : rockchip_combphy_priv) (args : of_phandle_args)
    (h8 : args.args 0 < 256)
    (hout : args.args 0 < PHY_TYPE_SATA ∨ PHY_TYPE_USB3 < args.args 0) :
    (rockchip_combphy_xlate priv args).1 = .error (-EINVAL) := by
  have e8 : u8 (u32 (args.args 0)) = args.args 0 := by
    unfold u8 u32; omega
  unfold rockchip_combphy_xlate
  split
  · rfl
  · split
    · rfl
    · simp only [e8]
      rw [if_pos hout]

/-- Witness for `xlate_rejects_out_of_range`: an unassigned rk1808 instance and
the requested value `PHY_NONE`. -/
theorem xlate_rejects_out_of_range_witness :
    (rockchip_combphy_xlate ⟨PHY_NONE, fun _ => true, rk1808_combphy_cfgs⟩
        ⟨1, fun _ => PHY_NONE⟩).1 = .error (-EINVAL) :=
  xlate_rejects_out_of_range ⟨PHY_NONE, fun _ => true, rk1808_combphy_cfgs⟩
    ⟨1, fun _ => PHY_NONE⟩ (by decide) (by decide)

/-- C4: on an unassigned instance and for `t` PCIe or USB3, the first
`assign_type(t)` succeeds and records `t`; a second `assign_type(t)` succeeds
and leaves the whole instance unchanged; a second call requesting any other
32-bit value fails with `-EINVAL` and leaves the instance, hence the recorded
type `t`, unchanged. -/
theorem xlate_first_wins (priv : rockchip_combphy_priv) (args : of_phandle_args) (t : Nat)
    (h0 : priv.phy_type = PHY_NONE) (hc : 1 ≤ args.args_count) (ha : args.args 0 = t)
    (ht : t = PHY_TYPE_PCIE ∨ t = PHY_TYPE_USB3) :
    (rockchip_combphy_xlate priv args).1 = .ok () ∧
    (rockchip_combphy_xlate priv args).2.phy_type = t ∧
    (rockchip_combphy_xlate (rockchip_combphy_xlate priv args).2 args).1 = .ok () ∧
    (rockchip_combphy_xlate (rockchip_combphy_xlate priv args).2 args).2
      = (rockchip_combphy_xlate priv args).2 ∧
    ∀ args2 : of_phandle_args, 1 ≤ args2.args_count → args2.args 0 < 2 ^ 32 →
      args2.args 0 ≠ t →
      (rockchip_combphy_xlate (rockchip_combphy_xlate priv args).2 args2).1
        = .error (-EINVAL) ∧
      (rockchip_combphy_xlate (rockchip_combphy_xlate priv args).2 args2).2
        = (rockchip_combphy_xlate priv args).2 := by
  have hc2 : ¬ args.args_count < 1 := by omega
  have e1 : rockchip_combphy_xlate priv args = (.ok (), { priv with phy_type := t }) := by
    rcases ht with ht | ht <;> subst ht <;>
      simp [rockchip_combphy_xlate, hc2, h0, ha, u8, u32, PHY_NONE, PHY_TYPE_PCIE,
        PHY_TYPE_USB3, PHY_TYPE_SATA]
  have e2 : rockchip_combphy_xlate { priv with phy_type := t } args
      = (.ok (), { priv with phy_type := t }) := by
    rcases ht with ht | ht <;> subst ht <;>
      simp [rockchip_combphy_xlate, hc2, ha, u8, u32, PHY_NONE, PHY_TYPE_PCIE,
        PHY_TYPE_USB3, PHY_TYPE_SATA]
  rw [e1]
  refine ⟨rfl, rfl, ?_, ?_, ?_⟩
  · simp only [e2]
  · simp only [e2]
  · intro args2 hc3 h32 hne
    have hc4 : ¬ args2.args_count < 1 := by omega
    have hu : u32 (args2.args 0) = args2.args 0 := Nat.mod_eq_of_lt h32
    have hne2 : ¬ t = args2.args 0 := fun h => hne h.symm
    have hnz : ¬ t = PHY_NONE := by
      rcases ht with ht | ht <;> subst ht <;> decide
    simp [rockchip_combphy_xlate, hc4, hu, hne2, hnz]

/-- Witness for `xlate_first_wins`: an unassigned rk1808 instance and the
request `PHY_TYPE_USB3`. -/
theorem xlate_first_wins_witness :
    (rockchip_combphy_xlate ⟨PHY_NONE, fun _ => true, rk1808_combphy_cfgs⟩
        ⟨1, fun _ => PHY_TYPE_USB3⟩).2.phy_type = PHY_TYPE_USB3 :=
  (xlate_first_wins ⟨PHY_NONE, fun _ => true, rk1808_combphy_cfgs⟩
    ⟨1, fun _ => PHY_TYPE_USB3⟩ PHY_TYPE_USB3 rfl (by decide) rfl (Or.inr rfl)).2.1

/-- An assigned PCIe or USB3 type survives one framework call. -/
theorem step_keeps_type (s : rockchip_combphy_priv × World) (c : Call)
    (ht : s.1.phy_type = PHY_TYPE_PCIE ∨ s.1.phy_type = PHY_TYPE_USB3) :
    (step s c).1.phy_type = s.1.phy_type := by
  cases c with
  | assign_type args =>
    simp only [step, rockchip_combphy_xlate]
    split
    · rfl
    · split
      · rfl
      · rename_i h1 h2
        have hnz : s.1.phy_type ≠ PHY_NONE := by
          rcases ht with ht | ht <;> rw [ht] <;> decide
        have heq : s.1.phy_type = u32 (args.args 0) := by
          by_contra hc
          exact h2 ⟨hnz, hc⟩
        have h8 : u8 (u32 (args.args 0)) = s.1.phy_type := by
          rw [← heq]
          rcases ht with ht | ht <;> rw [ht] <;> decide
        split <;> exact h8
  | init => rfl
  | exit => rfl
  | compliance_test => rfl

/-- C5: once the recorded type is PCIe or USB3, no sequence of `assign_type`
(with any argument), `init`, `exit` and `compliance_test` calls changes it,
whatever the calls return. -/
theorem type_immutable_once_assigned (priv : rockchip_combphy_priv) (w : World)
    (calls : List Call)
    (ht : priv.phy_type = PHY_TYPE_PCIE ∨ priv.phy_type = PHY_TYPE_USB3) :
    (run (priv, w) calls).1.phy_type = priv.phy_type := by
  suffices h : ∀ (cs : List Call) (s : rockchip_combphy_priv × World),
      (s.1.phy_type = PHY_TYPE_PCIE ∨ s.1.phy_type = PHY_TYPE_USB3) →
      (run s cs).1.phy_type = s.1.phy_type from h calls (priv, w) ht
  intro cs
  induction cs with
  | nil => intro s _; rfl
  | cons c cs ih =>
    intro s hs
    have hk := step_keeps_type s c hs
    have : (run s (c :: cs)) = run (step s c) cs := rfl
    rw [this, ih (step s c) (by rw [hk]; exact hs), hk]

/-- Witness for `type_immutable_once_assigned`: a PCIe instance keeps its type
through a USB3 request, an init, an exit and a compliance test. -/
theorem type_immutable_once_assigned_witness :
    (run (⟨PHY_TYPE_PCIE, fun _ => true, rk1808_combphy_cfgs⟩, sim_world 24000000 fun _ => 0)
        [.assign_type ⟨1, fun _ => PHY_TYPE_USB3⟩, .init, .exit, .compliance_test]).1.phy_type
      = PHY_TYPE_PCIE :=
  type_immutable_once_assigned ⟨PHY_TYPE_PCIE, fun _ => true, rk1808_combphy_cfgs⟩
    (sim_world 24000000 fun _ => 0)
    [.assign_type ⟨1, fun _ => PHY_TYPE_USB3⟩, .init, .exit, .compliance_test] (Or.inl rfl)

/-! ### Effect of the primitives on the trace, the clock and the GRF -/

@[simp] theorem log_trace (op : Op) (w : World) : (log op w).trace = w.trace ++ [op] := rfl
@[simp] theorem log_now (op : Op) (w : World) : (log op w).now = w.now := rfl
@[simp] theorem log_grf (op : Op) (w : World) : (log op w).grf = w.grf := rfl
@[simp] theorem log_grf_hw (op : Op) (w : World) : (log op w).grf_hw = w.grf_hw := rfl

@[simp] theorem udelay_trace (us : Nat) (w : World) :
    (udelay us w).trace = w.trace ++ [Op.udelay us] := rfl
@[simp] theorem udelay_now (us : Nat) (w : World) : (udelay us w).now = w.now + us := rfl
@[simp] theorem udelay_grf (us : Nat) (w : World) : (udelay us w).grf = w.grf := rfl
@[simp] theorem udelay_grf_hw (us : Nat) (w : World) : (udelay us w).grf_hw = w.grf_hw := rfl

@[simp] theorem usleep_range_trace (lo hi : Nat) (w : World) :
    (usleep_range lo hi w).trace = w.trace ++ [Op.usleep_range lo hi] := rfl
@[simp] theorem usleep_range_now (lo hi : Nat) (w : World) :
    (usleep_range lo hi w).now = w.now + (lo + w.sched_slack % (hi - lo + 1)) := rfl
@[simp] theorem usleep_range_grf (lo hi : Nat) (w : World) :
    (usleep_range lo hi w).grf = w.grf := rfl
@[simp] theorem usleep_range_grf_hw (lo hi : Nat) (w : World) :
    (usleep_range lo hi w).grf_hw = w.grf_hw := rfl

@[simp] theorem reset_control_assert_trace (priv : rockchip_combphy_priv) (l : Nat) (w : World) :
    (reset_control_assert priv l w).trace = w.trace ++ [Op.reset_assert l] := by
  unfold reset_control_assert; split <;> rfl
@[simp] theorem reset_control_assert_now (priv : rockchip_combphy_priv) (l : Nat) (w : World) :
    (reset_control_assert priv l w).now = w.now := by
  unfold reset_control_assert; split <;> rfl
@[simp] theorem reset_control_assert_grf (priv : rockchip_combphy_priv) (l : Nat) (w : World) :
    (reset_control_assert priv l w).grf = w.grf := by
  unfold reset_control_assert; split <;> rfl
@[simp] theorem reset_control_assert_grf_hw (priv : rockchip_combphy_priv) (l : Nat)
    (w : World) : (reset_control_assert priv l w).grf_hw = w.grf_hw := by
  unfold reset_control_assert; split <;> rfl

@[simp] theorem reset_control_deassert_trace (priv : rockchip_combphy_priv) (l : Nat)
    (w : World) : (reset_control_deassert priv l w).trace = w.trace ++ [Op.reset_deassert l] := by
  unfold reset_control_deassert; split <;> rfl
@[simp] theorem reset_control_deassert_now (priv : rockchip_combphy_priv) (l : Nat)
    (w : World) : (reset_control_deassert priv l w).now = w.now := by
  unfold reset_control_deassert; split <;> rfl
@[simp] theorem reset_control_deassert_grf (priv : rockchip_combphy_priv) (l : Nat)
    (w : World) : (reset_control_deassert priv l w).grf = w.grf := by
  unfold reset_control_deassert; split <;> rfl
@[simp] theorem reset_control_deassert_grf_hw (priv : rockchip_combphy_priv) (l : Nat)
    (w : World) : (reset_control_deassert priv l w).grf_hw = w.grf_hw := by
  unfold reset_control_deassert; split <;> rfl

@[simp] theorem call_combphy_cfg_trace (priv : rockchip_combphy_priv) (w : World) :
    (call_combphy_cfg priv w).2.trace
      = w.trace ++ cfg_hook_ops priv.cfg.combphy_cfg (call_combphy_cfg priv w).1 := by
  unfold call_combphy_cfg cfg_hook_ops; split <;> simp
@[simp] theorem call_combphy_cfg_now (priv : rockchip_combphy_priv) (w : World) :
    (call_combphy_cfg priv w).2.now = w.now := by
  unfold call_combphy_cfg; split <;> rfl
@[simp] theorem call_combphy_cfg_grf (priv : rockchip_combphy_priv) (w : World) :
    (call_combphy_cfg priv w).2.grf = w.grf := by
  unfold call_combphy_cfg; split <;> rfl
@[simp] theorem call_combphy_cfg_grf_hw (priv : rockchip_combphy_priv) (w : World) :
    (call_combphy_cfg priv w).2.grf_hw = w.grf_hw := by
  unfold call_combphy_cfg; split <;> rfl

/-- The fine-tuning hook call returns `0` when no hook is configured. -/
theorem call_combphy_cfg_none (priv : rockchip_combphy_priv) (w : World)
    (h : priv.cfg.combphy_cfg = none) : (call_combphy_cfg priv w).1 = 0 := by
  unfold call_combphy_cfg; rw [h]

/-! ### The poll -/

/-- The poll loop changes nothing but the clock, never sets it back, and
returns the value the polled function has at the clock it stops at. -/
theorem poll_loop_spec (op : World → Nat) (cond : Nat → Bool) (d T dl : Nat) :
    ∀ (fuel : Nat) (w : World), ∃ t, w.now ≤ t ∧
      (poll_loop op cond d T dl fuel w).2 = { w with now := t } ∧
      (poll_loop op cond d T dl fuel w).1 = op { w with now := t } := by
  intro fuel
  induction fuel with
  | zero => intro w; exact ⟨w.now, le_refl _, rfl, rfl⟩
  | succ n ih =>
    intro w
    unfold poll_loop
    dsimp only
    by_cases hc : cond (op w) = true
    · rw [if_pos hc]
      exact ⟨w.now, le_refl _, rfl, rfl⟩
    · rw [if_neg hc]
      by_cases ht : T ≠ 0 ∧ w.now > dl
      · rw [if_pos ht]
        exact ⟨w.now, le_refl _, rfl, rfl⟩
      · rw [if_neg ht]
        by_cases hd : d ≠ 0
        · rw [if_pos hd]
          obtain ⟨t, h1, h2, h3⟩ := ih (advance d w)
          refine ⟨t, ?_, ?_, ?_⟩
          · have : (advance d w).now = w.now + d := rfl
            omega
          · rw [h2]; rfl
          · rw [h3]; rfl
        · rw [if_neg hd]
          exact ih w

/-- Iterations the poll loop still needs at time `now` with a 10 us interval:
one if the deadline has passed, otherwise one per interval up to the deadline
plus the two that detect the timeout. -/
theorem poll_loop_fuel_step (op : World → Nat) (cond : Nat → Bool) (T dl : Nat)
    (hT : T ≠ 0) :
    ∀ (fuel : Nat) (w : World),
      (if w.now > dl then 1 else (dl - w.now) / 10 + 2) ≤ fuel →
      poll_loop op cond 10 T dl (fuel + 1) w = poll_loop op cond 10 T dl fuel w := by
  intro fuel
  induction fuel with
  | zero =>
    intro w h
    exfalso
    split at h <;> omega
  | succ n ih =>
    intro w h
    have unfold_succ : ∀ (k : Nat) (w : World), poll_loop op cond 10 T dl (k + 1) w
        = if cond (op w) then (op w, w)
          else if T ≠ 0 ∧ w.now > dl then (op w, w)
          else poll_loop op cond 10 T dl k (if 10 ≠ 0 then advance 10 w else w) :=
      fun _ _ => rfl
    rw [unfold_succ (n + 1) w, unfold_succ n w]
    by_cases hc : cond (op w) = true
    · rw [if_pos hc, if_pos hc]
    · rw [if_neg hc, if_neg hc]
      by_cases ht : T ≠ 0 ∧ w.now > dl
      · rw [if_pos ht, if_pos ht]
      · rw [if_neg ht, if_neg ht]
        have hle : w.now ≤ dl := by
          by_contra hgt
          exact ht ⟨hT, by omega⟩
        rw [if_neg (by omega : ¬ w.now > dl)] at h
        have h10 : (10 : Nat) ≠ 0 := by decide
        rw [if_pos h10]
        apply ih
        have hn : (advance 10 w).now = w.now + 10 := rfl
        rw [hn]
        split <;> omega

/-- The fuel `timeout_us / delay_us + 2` of `readx_poll_timeout_atomic` is
enough for the two polls of the driver (10 us interval, 1000 us timeout): any
larger amount of fuel gives the same result, so the loop always ends by meeting
the condition or by passing the deadline. -/
theorem poll_loop_fuel_sufficient (op : World → Nat) (cond : Nat → Bool) (w : World)
    (extra : Nat) :
    poll_loop op cond 10 1000 (w.now + 1000) (1000 / 10 + 2 + extra) w
      = poll_loop op cond 10 1000 (w.now + 1000) (1000 / 10 + 2) w := by
  induction extra with
  | zero => rfl
  | succ n ih =>
    rw [← ih]
    exact poll_loop_fuel_step op cond 1000 (w.now + 1000) (by decide) (1000 / 10 + 2 + n) w
      (by rw [if_neg (by omega)]; omega)

/-- The PLL-lock field read depends on the clock, the GRF and the hardware
view only. -/
theorem pll_lock_congr (priv : rockchip_combphy_priv) (w1 w2 : World)
    (hn : w1.now = w2.now) (hg : w1.grf = w2.grf) (hh : w1.grf_hw = w2.grf_hw) :
    rockchip_combphy_pll_lock priv w1 = rockchip_combphy_pll_lock priv w2 := by
  simp only [rockchip_combphy_pll_lock, regmap_read, hn, hg, hh]

/-- The lane-ready field read depends on the clock, the GRF and the hardware
view only. -/
theorem is_ready_congr (priv : rockchip_combphy_priv) (w1 w2 : World)
    (hn : w1.now = w2.now) (hg : w1.grf = w2.grf) (hh : w1.grf_hw = w2.grf_hw) :
    rockchip_combphy_is_ready priv w1 = rockchip_combphy_is_ready priv w2 := by
  simp only [rockchip_combphy_is_ready, regmap_read, hn, hg, hh]

/-- The PLL-lock poll: it stops at some time `t`, returns `0` exactly when the
field read at `t` is the expected value and `-ETIMEDOUT` otherwise, and adds one
trace entry. -/
theorem wait_pll_lock_spec (priv : rockchip_combphy_priv) (w : World) :
    ∃ t, w.now ≤ t ∧
      (wait_pll_lock priv w).1
        = (if rockchip_combphy_pll_lock priv { w with now := t }
              = priv.cfg.grfcfg.pipe_pll_lock.enable then 0 else -ETIMEDOUT) ∧
      (wait_pll_lock priv w).2
        = log (Op.poll_pll_lock (rockchip_combphy_pll_lock priv { w with now := t })
            (wait_pll_lock priv w).1) { w with now := t } := by
  obtain ⟨t, h1, h2, h3⟩ := poll_loop_spec (rockchip_combphy_pll_lock priv)
    (fun val => val == priv.cfg.grfcfg.pipe_pll_lock.enable) 10 1000 (w.now + 1000)
    (1000 / 10 + 2) w
  refine ⟨t, h1, ?_, ?_⟩
  · simp only [wait_pll_lock, readx_poll_timeout_atomic, h3, beq_iff_eq]
  · simp only [wait_pll_lock, readx_poll_timeout_atomic, h3, h2]

/-- The lane-ready poll: it stops at some time `t`, returns `0` exactly when
the field read at `t` is the expected value and `-ETIMEDOUT` otherwise, and adds
one trace entry. -/
theorem wait_is_ready_spec (priv : rockchip_combphy_priv) (w : World) :
    ∃ t, w.now ≤ t ∧
      (wait_is_ready priv w).1
        = (if rockchip_combphy_is_ready priv { w with now := t }
              = priv.cfg.grfcfg.pipe_status_l0.enable then 0 else -ETIMEDOUT) ∧
      (wait_is_ready priv w).2
        = log (Op.poll_is_ready (rockchip_combphy_is_ready priv { w with now := t })
            (wait_is_ready priv w).1) { w with now := t } := by
  obtain ⟨t, h1, h2, h3⟩ := poll_loop_spec (rockchip_combphy_is_ready priv)
    (fun val => val == priv.cfg.grfcfg.pipe_status_l0.enable) 10 1000 (w.now + 1000)
    (1000 / 10 + 2) w
  refine ⟨t, h1, ?_, ?_⟩
  · simp only [wait_is_ready, readx_poll_timeout_atomic, h3, beq_iff_eq]
  · simp only [wait_is_ready, readx_poll_timeout_atomic, h3, h2]

/-- Outcome of a poll started in world `w0` on behalf of a bring-up that began
in a world with the same GRF and hardware view at time `start`: the trace grows
by one poll entry, and a zero result means the field showed its expected value
at some time not before `start`. -/
theorem wait_pll_lock_outcome (priv : rockchip_combphy_priv) (w0 wg : World)
    (hn : wg.now ≤ w0.now) (hg : w0.grf = wg.grf) (hh : w0.grf_hw = wg.grf_hw) :
    ∃ v, (wait_pll_lock priv w0).2.trace
          = w0.trace ++ [Op.poll_pll_lock v (wait_pll_lock priv w0).1] ∧
      (wait_pll_lock priv w0).2.grf = wg.grf ∧
      (wait_pll_lock priv w0).2.grf_hw = wg.grf_hw ∧
      wg.now ≤ (wait_pll_lock priv w0).2.now ∧
      ((wait_pll_lock priv w0).1 = 0 →
        v = priv.cfg.grfcfg.pipe_pll_lock.enable ∧
        ∃ t, wg.now ≤ t ∧ rockchip_combphy_pll_lock priv { wg with now := t }
          = priv.cfg.grfcfg.pipe_pll_lock.enable) := by
  obtain ⟨t, h1, h2, h3⟩ := wait_pll_lock_spec priv w0
  have hc : rockchip_combphy_pll_lock priv { w0 with now := t }
      = rockchip_combphy_pll_lock priv { wg with now := t } :=
    pll_lock_congr priv _ _ rfl hg hh
  refine ⟨rockchip_combphy_pll_lock priv { w0 with now := t }, ?_, ?_, ?_, ?_, ?_⟩
  · rw [h3]; rfl
  · rw [h3]; exact hg
  · rw [h3]; exact hh
  · rw [h3]; exact le_trans hn h1
  · intro hz
    rw [h2] at hz
    have hv : rockchip_combphy_pll_lock priv { w0 with now := t }
        = priv.cfg.grfcfg.pipe_pll_lock.enable := by
      by_contra hne
      rw [if_neg hne] at hz
      revert hz; decide
    exact ⟨hv, t, le_trans hn h1, hc ▸ hv⟩

/-- Outcome of a lane-ready poll, in the same terms as
`wait_pll_lock_outcome`. -/
theorem wait_is_ready_outcome (priv : rockchip_combphy_priv) (w0 wg : World)
    (hn : wg.now ≤ w0.now) (hg : w0.grf = wg.grf) (hh : w0.grf_hw = wg.grf_hw) :
    ∃ v, (wait_is_ready priv w0).2.trace
          = w0.trace ++ [Op.poll_is_ready v (wait_is_ready priv w0).1] ∧
      (wait_is_ready priv w0).2.grf = wg.grf ∧
      (wait_is_ready priv w0).2.grf_hw = wg.grf_hw ∧
      wg.now ≤ (wait_is_ready priv w0).2.now ∧
      ((wait_is_ready priv w0).1 = 0 →
        v = priv.cfg.grfcfg.pipe_status_l0.enable ∧
        ∃ t, wg.now ≤ t ∧ rockchip_combphy_is_ready priv { wg with now := t }
          = priv.cfg.grfcfg.pipe_status_l0.enable) := by
  obtain ⟨t, h1, h2, h3⟩ := wait_is_ready_spec priv w0
  have hc : rockchip_combphy_is_ready priv { w0 with now := t }
      = rockchip_combphy_is_ready priv { wg with now := t } :=
    is_ready_congr priv _ _ rfl hg hh
  refine ⟨rockchip_combphy_is_ready priv { w0 with now := t }, ?_, ?_, ?_, ?_, ?_⟩
  · rw [h3]; rfl
  · rw [h3]; exact hg
  · rw [h3]; exact hh
  · rw [h3]; exact le_trans hn h1
  · intro hz
    rw [h2] at hz
    have hv : rockchip_combphy_is_ready priv { w0 with now := t }
        = priv.cfg.grfcfg.pipe_status_l0.enable := by
      by_contra hne
      rw [if_neg hne] at hz
      revert hz; decide
    exact ⟨hv, t, le_trans hn h1, hc ▸ hv⟩

/-! ### PCIe bring-up -/

/-- The three ways `phy_pcie_init` can run, with its result and the trace it
adds: the hook fails; the PLL-lock poll fails; or the PLL-lock poll saw the
expected value, the data-path reset was deasserted and the lane-ready poll
decided the result. -/
theorem phy_pcie_init_cases (priv : rockchip_combphy_priv) (w : World) :
    ∃ hr : Int,
      (hr ≠ 0 ∧ priv.cfg.combphy_cfg ≠ none ∧ (phy_pcie_init priv w).1 = hr ∧
        (phy_pcie_init priv w).2.trace
          = w.trace ++ ([Op.reset_deassert PHY_POR_RSTN, Op.udelay 5,
              Op.reset_deassert PHY_APB_RSTN, Op.udelay 5]
              ++ cfg_hook_ops priv.cfg.combphy_cfg hr))
      ∨ (hr = 0 ∧ ∃ v r, r ≠ 0 ∧ (phy_pcie_init priv w).1 = r ∧
        (phy_pcie_init priv w).2.trace
          = w.trace ++ ([Op.reset_deassert PHY_POR_RSTN, Op.udelay 5,
              Op.reset_deassert PHY_APB_RSTN, Op.udelay 5]
              ++ cfg_hook_ops priv.cfg.combphy_cfg hr
              ++ [Op.usleep_range 300 350, Op.poll_pll_lock v r]))
      ∨ (hr = 0 ∧
        (∃ t, w.now ≤ t ∧ rockchip_combphy_pll_lock priv { w with now := t }
          = priv.cfg.grfcfg.pipe_pll_lock.enable) ∧
        ∃ v r, (phy_pcie_init priv w).1 = r ∧
          (phy_pcie_init priv w).2.trace
            = w.trace ++ ([Op.reset_deassert PHY_POR_RSTN, Op.udelay 5,
                Op.reset_deassert PHY_APB_RSTN, Op.udelay 5]
                ++ cfg_hook_ops priv.cfg.combphy_cfg hr
                ++ [Op.usleep_range 300 350,
                    Op.poll_pll_lock priv.cfg.grfcfg.pipe_pll_lock.enable 0,
                    Op.reset_deassert PHY_PIPE_RSTN, Op.poll_is_ready v r]) ∧
          (r = 0 → v = priv.cfg.grfcfg.pipe_status_l0.enable ∧
            ∃ t, w.now ≤ t ∧ rockchip_combphy_is_ready priv { w with now := t }
              = priv.cfg.grfcfg.pipe_status_l0.enable)) := by
  generalize hw4 : udelay 5 (reset_control_deassert priv PHY_APB_RSTN
    (udelay 5 (reset_control_deassert priv PHY_POR_RSTN w))) = w4
  have t4 : w4.trace = w.trace ++ [Op.reset_deassert PHY_POR_RSTN, Op.udelay 5,
      Op.reset_deassert PHY_APB_RSTN, Op.udelay 5] := by subst hw4; simp
  have g4 : w4.grf = w.grf := by subst hw4; simp
  have v4 : w4.grf_hw = w.grf_hw := by subst hw4; simp
  have n4 : w.now ≤ w4.now := by subst hw4; simp; omega
  generalize hw5 : usleep_range 300 350 (call_combphy_cfg priv w4).2 = w5
  have t5 : w5.trace = w.trace ++ ([Op.reset_deassert PHY_POR_RSTN, Op.udelay 5,
      Op.reset_deassert PHY_APB_RSTN, Op.udelay 5]
      ++ cfg_hook_ops priv.cfg.combphy_cfg (call_combphy_cfg priv w4).1
      ++ [Op.usleep_range 300 350]) := by subst hw5; simp [t4]
  have g5 : w5.grf = w.grf := by subst hw5; simp [g4]
  have v5 : w5.grf_hw = w.grf_hw := by subst hw5; simp [v4]
  have n5 : w.now ≤ w5.now := by subst hw5; simp; omega
  have e : phy_pcie_init priv w
      = if (call_combphy_cfg priv w4).1 ≠ 0 then call_combphy_cfg priv w4
        else if (wait_pll_lock priv w5).1 ≠ 0 then wait_pll_lock priv w5
        else wait_is_ready priv
          (reset_control_deassert priv PHY_PIPE_RSTN (wait_pll_lock priv w5).2) := by
    subst hw4 hw5; rfl
  refine ⟨(call_combphy_cfg priv w4).1, ?_⟩
  by_cases h1 : (call_combphy_cfg priv w4).1 ≠ 0
  · left
    rw [e, if_pos h1]
    refine ⟨h1, ?_, rfl, ?_⟩
    · intro hn
      exact h1 (call_combphy_cfg_none priv w4 hn)
    · simp [t4]
  · right
    rw [e, if_neg h1]
    have h1z : (call_combphy_cfg priv w4).1 = 0 := by
      by_contra hc; exact h1 hc
    obtain ⟨v, pt, pg, ph, pn, pz⟩ := wait_pll_lock_outcome priv w5 w n5 g5 v5
    by_cases h2 : (wait_pll_lock priv w5).1 ≠ 0
    · left
      rw [if_pos h2]
      refine ⟨h1z, v, (wait_pll_lock priv w5).1, h2, rfl, ?_⟩
      rw [pt, t5]; simp
    · right
      rw [if_neg h2]
      have h2z : (wait_pll_lock priv w5).1 = 0 := by
        by_contra hc; exact h2 hc
      obtain ⟨hv, hobs⟩ := pz h2z
      obtain ⟨v2, qt, _, _, _, qz⟩ := wait_is_ready_outcome priv
        (reset_control_deassert priv PHY_PIPE_RSTN (wait_pll_lock priv w5).2) w
        (by simpa using pn) (by simpa using pg) (by simpa using ph)
      refine ⟨h1z, hobs, v2, _, rfl, ?_, qz⟩
      rw [qt]
      simp [pt, t5, hv, h2z]

/-- C6: in every run of `phy_pcie_init`, successful or failing, the operations
it adds to the trace form a prefix of the documented order (deassert
power-on-reset, 5 us, deassert register-bus-reset, 5 us, hook if configured,
300-350 us settle, PLL-lock poll, deassert data-path-reset, lane-ready poll)
and contain no bitfield write; the data-path reset is deasserted only directly
after a PLL-lock poll that returned `0` with the expected value, which the
PLL-lock field did show at some time of the run; and it is never deasserted in a
run where the hook or the PLL-lock poll returned an error. -/
theorem pcie_bringup_order (priv : rockchip_combphy_priv) (w : World) :
    ∃ ops, (phy_pcie_init priv w).2.trace = w.trace ++ ops ∧
      (∃ hr v1 r1 v2 r2,
        ops <+: pcie_documented_order priv.cfg.combphy_cfg hr v1 r1 v2 r2) ∧
      (∀ reg en ret, Op.param_write reg en ret ∉ ops) ∧
      (Op.reset_deassert PHY_PIPE_RSTN ∈ ops →
        (∃ pre post, ops = pre ++ Op.poll_pll_lock priv.cfg.grfcfg.pipe_pll_lock.enable 0
            :: Op.reset_deassert PHY_PIPE_RSTN :: post ∧
          Op.reset_deassert PHY_PIPE_RSTN ∉ pre) ∧
        ∃ t, w.now ≤ t ∧ rockchip_combphy_pll_lock priv { w with now := t }
          = priv.cfg.grfcfg.pipe_pll_lock.enable) ∧
      (∀ r, r ≠ 0 → Op.combphy_cfg r ∈ ops → Op.reset_deassert PHY_PIPE_RSTN ∉ ops) ∧
      (∀ v r, r ≠ 0 → Op.poll_pll_lock v r ∈ ops →
        Op.reset_deassert PHY_PIPE_RSTN ∉ ops) := by
  obtain ⟨hr, h | h | h⟩ := phy_pcie_init_cases priv w
  · obtain ⟨_, _, _, ht⟩ := h
    refine ⟨_, ht, ⟨hr, 0, 0, 0, 0, ⟨_, rfl⟩⟩, ?_, ?_, ?_, ?_⟩
    · intro reg en ret
      cases priv.cfg.combphy_cfg <;> simp [cfg_hook_ops]
    · intro hm
      exfalso; revert hm
      cases priv.cfg.combphy_cfg <;>
        simp [cfg_hook_ops, PHY_PIPE_RSTN, PHY_POR_RSTN, PHY_APB_RSTN]
    · intro r _ _
      cases priv.cfg.combphy_cfg <;>
        simp [cfg_hook_ops, PHY_PIPE_RSTN, PHY_POR_RSTN, PHY_APB_RSTN]
    · intro v r _ _
      cases priv.cfg.combphy_cfg <;>
        simp [cfg_hook_ops, PHY_PIPE_RSTN, PHY_POR_RSTN, PHY_APB_RSTN]
  · obtain ⟨_, v, r, hrz, _, ht⟩ := h
    refine ⟨_, ht, ⟨hr, v, r, 0, 0,
      ⟨[Op.reset_deassert PHY_PIPE_RSTN, Op.poll_is_ready 0 0], ?_⟩⟩, ?_, ?_, ?_, ?_⟩
    · simp [pcie_documented_order]
    · intro reg en ret
      cases priv.cfg.combphy_cfg <;> simp [cfg_hook_ops]
    · intro hm
      exfalso; revert hm
      cases priv.cfg.combphy_cfg <;>
        simp [cfg_hook_ops, PHY_PIPE_RSTN, PHY_POR_RSTN, PHY_APB_RSTN]
    · intro r _ _
      cases priv.cfg.combphy_cfg <;>
        simp [cfg_hook_ops, PHY_PIPE_RSTN, PHY_POR_RSTN, PHY_APB_RSTN]
    · intro v r _ _
      cases priv.cfg.combphy_cfg <;>
        simp [cfg_hook_ops, PHY_PIPE_RSTN, PHY_POR_RSTN, PHY_APB_RSTN]
  · obtain ⟨hz, hobs, v, r, _, ht, _⟩ := h
    refine ⟨_, ht, ⟨hr, priv.cfg.grfcfg.pipe_pll_lock.enable, 0, v, r, ⟨[], ?_⟩⟩,
      ?_, ?_, ?_, ?_⟩
    · simp [pcie_documented_order]
    · intro reg en ret
      cases priv.cfg.combphy_cfg <;> simp [cfg_hook_ops]
    · intro _
      refine ⟨⟨[Op.reset_deassert PHY_POR_RSTN, Op.udelay 5,
          Op.reset_deassert PHY_APB_RSTN, Op.udelay 5]
          ++ cfg_hook_ops priv.cfg.combphy_cfg hr ++ [Op.usleep_range 300 350],
        [Op.poll_is_ready v r], ?_, ?_⟩, hobs⟩
      · simp
      · cases priv.cfg.combphy_cfg <;>
          simp [cfg_hook_ops, PHY_PIPE_RSTN, PHY_POR_RSTN, PHY_APB_RSTN]
    · intro r hrz hm
      exfalso; revert hm
      subst hz
      cases priv.cfg.combphy_cfg <;> simp [cfg_hook_ops]
      exact fun h => hrz h
    · intro v r hrz hm
      exfalso; revert hm
      cases priv.cfg.combphy_cfg <;> simp [cfg_hook_ops] <;>
        exact fun _ h => hrz h

/-! ### USB3 bring-up -/

@[simp] theorem grf_param_write_trace (reg : combphy_reg) (en : Bool) (w : World) :
    (grf_param_write reg en w).2.trace
      = w.trace ++ [Op.param_write reg en (param_write w.grf reg en).1] := rfl
@[simp] theorem grf_param_write_now (reg : combphy_reg) (en : Bool) (w : World) :
    (grf_param_write reg en w).2.now = w.now := rfl
@[simp] theorem grf_param_write_grf (reg : combphy_reg) (en : Bool) (w : World) :
    (grf_param_write reg en w).2.grf = (param_write w.grf reg en).2 := rfl
@[simp] theorem grf_param_write_grf_hw (reg : combphy_reg) (en : Bool) (w : World) :
    (grf_param_write reg en w).2.grf_hw = w.grf_hw := rfl

/-- The thirteen writes of `phy_u3_init` are the writes to `u3_write_fields`. -/
theorem u3_param_writes_eq (g : rockchip_combphy_grfcfg) (w : World) :
    u3_param_writes g w = param_writes (u3_write_fields g) w := rfl

/-- A run of writes adds one trace entry per field, in order, whatever each
write returns, and touches neither the clock nor the hardware view. -/
theorem param_writes_spec (regs : List combphy_reg) :
    ∀ w : World, ∃ rets : List Int, rets.length = regs.length ∧
      (param_writes regs w).trace = w.trace ++ write_ops regs rets ∧
      (param_writes regs w).now = w.now ∧
      (param_writes regs w).grf_hw = w.grf_hw := by
  induction regs with
  | nil => intro w; exact ⟨[], rfl, by simp [param_writes, write_ops], rfl, rfl⟩
  | cons reg regs ih =>
    intro w
    obtain ⟨rets, hl, ht, hn, hh⟩ := ih (grf_param_write reg true w).2
    refine ⟨(param_write w.grf reg true).1 :: rets, by simp [hl], ?_, ?_, ?_⟩
    · show (param_writes regs (grf_param_write reg true w).2).trace = _
      rw [ht]; simp [write_ops]
    · show (param_writes regs (grf_param_write reg true w).2).now = _
      rw [hn]; rfl
    · show (param_writes regs (grf_param_write reg true w).2).grf_hw = _
      rw [hh]; rfl

/-- The GRF after a run of writes depends on the GRF before it only. -/
theorem param_writes_grf_congr (regs : List combphy_reg) :
    ∀ w1 w2 : World, w1.grf = w2.grf →
      (param_writes regs w1).grf = (param_writes regs w2).grf := by
  induction regs with
  | nil => intro w1 w2 h; exact h
  | cons reg regs ih =>
    intro w1 w2 h
    show (param_writes regs (grf_param_write reg true w1).2).grf
      = (param_writes regs (grf_param_write reg true w2).2).grf
    apply ih
    simp [h]

/-- No entry of a run of writes is anything but a bitfield write. -/
theorem mem_write_ops (regs : List combphy_reg) (rets : List Int) (op : Op)
    (h : op ∈ write_ops regs rets) : ∃ reg ret, op = Op.param_write reg true ret := by
  induction regs generalizing rets with
  | nil => simp [write_ops] at h
  | cons reg regs ih =>
    cases rets with
    | nil => simp [write_ops] at h
    | cons ret rets =>
      simp only [write_ops, List.zipWith_cons_cons, List.mem_cons] at h
      rcases h with h | h
      · exact ⟨reg, ret, h⟩
      · exact ih rets h

/-- The four ways `phy_u3_init` can run, with its result and the trace it
adds: the hook fails; the PLL-lock poll fails; the lane-ready poll fails; or
both polls saw the expected value and the controller reset was deasserted. The
fields are the ones the hardware shows once the thirteen writes are stored. -/
theorem phy_u3_init_cases (priv : rockchip_combphy_priv) (w : World) :
    ∃ (rets : List Int) (hr : Int), rets.length = 13 ∧
      ((hr ≠ 0 ∧ priv.cfg.combphy_cfg ≠ none ∧ (phy_u3_init priv w).1 = hr ∧
        (phy_u3_init priv w).2.trace = w.trace ++ u3_head_ops priv.cfg rets hr)
      ∨ (hr = 0 ∧ ∃ v r, r ≠ 0 ∧ (phy_u3_init priv w).1 = r ∧
        (phy_u3_init priv w).2.trace
          = w.trace ++ (u3_head_ops priv.cfg rets hr
              ++ [Op.usleep_range 300 350, Op.poll_pll_lock v r]))
      ∨ (hr = 0 ∧ ∃ v r, r ≠ 0 ∧ (phy_u3_init priv w).1 = r ∧
        (phy_u3_init priv w).2.trace
          = w.trace ++ (u3_head_ops priv.cfg rets hr
              ++ [Op.usleep_range 300 350,
                  Op.poll_pll_lock priv.cfg.grfcfg.pipe_pll_lock.enable 0,
                  Op.reset_deassert PHY_PIPE_RSTN, Op.poll_is_ready v r]))
      ∨ (hr = 0 ∧ (phy_u3_init priv w).1 = 0 ∧
        (∃ t, w.now ≤ t ∧
          rockchip_combphy_pll_lock priv { u3_param_writes priv.cfg.grfcfg w with now := t }
            = priv.cfg.grfcfg.pipe_pll_lock.enable) ∧
        (∃ t, w.now ≤ t ∧
          rockchip_combphy_is_ready priv { u3_param_writes priv.cfg.grfcfg w with now := t }
            = priv.cfg.grfcfg.pipe_status_l0.enable) ∧
        (phy_u3_init priv w).2.trace
          = w.trace ++ (u3_head_ops priv.cfg rets hr
              ++ [Op.usleep_range 300 350,
                  Op.poll_pll_lock priv.cfg.grfcfg.pipe_pll_lock.enable 0,
                  Op.reset_deassert PHY_PIPE_RSTN,
                  Op.poll_is_ready priv.cfg.grfcfg.pipe_status_l0.enable 0,
                  Op.reset_deassert OTG_RSTN]))) := by
  generalize hw5 : udelay 5 (reset_control_deassert priv PHY_APB_RSTN
    (udelay 5 (reset_control_deassert priv PHY_POR_RSTN
      (reset_control_assert priv OTG_RSTN w)))) = w5
  have t5 : w5.trace = w.trace ++ [Op.reset_assert OTG_RSTN, Op.reset_deassert PHY_POR_RSTN,
      Op.udelay 5, Op.reset_deassert PHY_APB_RSTN, Op.udelay 5] := by subst hw5; simp
  have g5 : w5.grf = w.grf := by subst hw5; simp
  have v5 : w5.grf_hw = w.grf_hw := by subst hw5; simp
  have n5 : w.now ≤ w5.now := by subst hw5; simp; omega
  obtain ⟨rets, hl, t6, n6, v6⟩ := param_writes_spec (u3_write_fields priv.cfg.grfcfg) w5
  obtain ⟨_, _, _, ng, vg⟩ := param_writes_spec (u3_write_fields priv.cfg.grfcfg) w
  have g6 := param_writes_grf_congr (u3_write_fields priv.cfg.grfcfg) w5 w g5
  generalize hw6 : param_writes (u3_write_fields priv.cfg.grfcfg) w5 = w6 at t6 n6 v6 g6
  generalize hwg : param_writes (u3_write_fields priv.cfg.grfcfg) w = wg at ng vg g6
  have hwg2 : u3_param_writes priv.cfg.grfcfg w = wg := by rw [u3_param_writes_eq, hwg]
  rw [hwg2]
  generalize hw7 : usleep_range 300 350 (call_combphy_cfg priv w6).2 = w7
  have t7 : w7.trace = w.trace ++ (u3_head_ops priv.cfg rets (call_combphy_cfg priv w6).1
      ++ [Op.usleep_range 300 350]) := by
    subst hw7; simp [t6, t5, u3_head_ops, u3_setup_ops]
  have g7 : w7.grf = wg.grf := by subst hw7; simp [g6]
  have v7 : w7.grf_hw = wg.grf_hw := by subst hw7; simp [v6, v5, vg]
  have n7 : wg.now ≤ w7.now := by subst hw7; simp; omega
  have e : phy_u3_init priv w
      = if (call_combphy_cfg priv w6).1 ≠ 0 then call_combphy_cfg priv w6
        else if (wait_pll_lock priv w7).1 ≠ 0 then wait_pll_lock priv w7
        else if (wait_is_ready priv
            (reset_control_deassert priv PHY_PIPE_RSTN (wait_pll_lock priv w7).2)).1 ≠ 0
          then wait_is_ready priv
            (reset_control_deassert priv PHY_PIPE_RSTN (wait_pll_lock priv w7).2)
        else ((wait_is_ready priv
            (reset_control_deassert priv PHY_PIPE_RSTN (wait_pll_lock priv w7).2)).1,
          reset_control_deassert priv OTG_RSTN (wait_is_ready priv
            (reset_control_deassert priv PHY_PIPE_RSTN (wait_pll_lock priv w7).2)).2) := by
    subst hw5 hw6 hw7; rfl
  refine ⟨rets, (call_combphy_cfg priv w6).1, by rw [hl]; rfl, ?_⟩
  by_cases h1 : (call_combphy_cfg priv w6).1 ≠ 0
  · left
    rw [e, if_pos h1]
    refine ⟨h1, ?_, rfl, ?_⟩
    · intro hn
      exact h1 (call_combphy_cfg_none priv w6 hn)
    · simp [t6, t5, u3_head_ops, u3_setup_ops]
  · right
    rw [e, if_neg h1]
    have h1z : (call_combphy_cfg priv w6).1 = 0 := by
      by_contra hc; exact h1 hc
    obtain ⟨v, pt, pg, ph, pn, pz⟩ := wait_pll_lock_outcome priv w7 wg n7 g7 v7
    by_cases h2 : (wait_pll_lock priv w7).1 ≠ 0
    · left
      rw [if_pos h2]
      refine ⟨h1z, v, (wait_pll_lock priv w7).1, h2, rfl, ?_⟩
      rw [pt, t7]; simp
    · right
      rw [if_neg h2]
      have h2z : (wait_pll_lock priv w7).1 = 0 := by
        by_contra hc; exact h2 hc
      obtain ⟨hv, hobs⟩ := pz h2z
      obtain ⟨v2, qt, _, _, _, qz⟩ := wait_is_ready_outcome priv
        (reset_control_deassert priv PHY_PIPE_RSTN (wait_pll_lock priv w7).2) wg
        (by simpa using pn) (by simpa using pg) (by simpa using ph)
      by_cases h3 : (wait_is_ready priv
          (reset_control_deassert priv PHY_PIPE_RSTN (wait_pll_lock priv w7).2)).1 ≠ 0
      · left
        rw [if_pos h3]
        refine ⟨h1z, v2, _, h3, rfl, ?_⟩
        rw [qt]
        simp [pt, t7, hv, h2z]
      · right
        rw [if_neg h3]
        have h3z : (wait_is_ready priv
            (reset_control_deassert priv PHY_PIPE_RSTN (wait_pll_lock priv w7).2)).1 = 0 := by
          by_contra hc; exact h3 hc
        obtain ⟨hv2, hobs2⟩ := qz h3z
        refine ⟨h1z, h3z, ?_, ?_, ?_⟩
        · obtain ⟨t, ht1, ht2⟩ := hobs
          exact ⟨t, by omega, ht2⟩
        · obtain ⟨t, ht1, ht2⟩ := hobs2
          exact ⟨t, by omega, ht2⟩
        · simp [qt, pt, t7, hv, h2z, hv2, h3z]

/-- An operation that is not an enable-value bitfield write is not an entry
of a run of writes. -/
theorem not_mem_write_ops (regs : List combphy_reg) (rets : List Int) (op : Op)
    (h : ∀ reg ret, op ≠ Op.param_write reg true ret) : op ∉ write_ops regs rets := by
  intro hm
  obtain ⟨reg, ret, he⟩ := mem_write_ops regs rets op hm
  exact h reg ret he

/-- The controller-reset deassert is not among the operations up to the
hook. -/
theorem otg_deassert_not_mem_setup (cfg : rockchip_combphy_cfg) (rets : List Int) (hr : Int) :
    Op.reset_deassert OTG_RSTN ∉ u3_setup_ops cfg rets hr := by
  have nw : Op.reset_deassert OTG_RSTN ∉ write_ops (u3_write_fields cfg.grfcfg) rets :=
    not_mem_write_ops _ _ _ (by intro reg ret; simp)
  have nh : Op.reset_deassert OTG_RSTN ∉ cfg_hook_ops cfg.combphy_cfg hr := by
    cases cfg.combphy_cfg <;> simp [cfg_hook_ops]
  intro hm
  simp only [u3_setup_ops, List.mem_append] at hm
  rcases hm with (hm | hm) | hm
  · revert hm; simp [OTG_RSTN, PHY_POR_RSTN, PHY_APB_RSTN]
  · exact nw hm
  · exact nh hm

/-- C7: in every run of `phy_u3_init` the controller-reset assert is the first
operation added to the trace, before every reset deassertion and every bitfield
write; the controller-reset deassert, if present, is the last operation, comes
directly after a lane-ready poll that returned `0` with the expected value
(which the lane-ready field did show at some time of the run), and occurs in
successful runs only: a run that returns an error never deasserts the controller
reset. -/
theorem u3_controller_reset_order (priv : rockchip_combphy_priv) (w : World) :
    ∃ ops, (phy_u3_init priv w).2.trace = w.trace ++ Op.reset_assert OTG_RSTN :: ops ∧
      (Op.reset_deassert OTG_RSTN ∈ ops →
        (phy_u3_init priv w).1 = 0 ∧
        (∃ pre, ops = pre ++ [Op.poll_is_ready priv.cfg.grfcfg.pipe_status_l0.enable 0,
            Op.reset_deassert OTG_RSTN] ∧ Op.reset_deassert OTG_RSTN ∉ pre) ∧
        ∃ t, w.now ≤ t ∧
          rockchip_combphy_is_ready priv { u3_param_writes priv.cfg.grfcfg w with now := t }
            = priv.cfg.grfcfg.pipe_status_l0.enable) ∧
      ((phy_u3_init priv w).1 ≠ 0 → Op.reset_deassert OTG_RSTN ∉ ops) := by
  obtain ⟨rets, hr, _, h⟩ := phy_u3_init_cases priv w
  have ns := otg_deassert_not_mem_setup priv.cfg rets hr
  have ns0 : Op.reset_deassert 0 ∉ u3_setup_ops priv.cfg rets hr := ns
  rcases h with h | h | h | h
  · obtain ⟨_, _, _, ht⟩ := h
    refine ⟨u3_setup_ops priv.cfg rets hr, by rw [ht]; simp [u3_head_ops], ?_, ?_⟩
    · intro hm; exact absurd hm ns
    · intro _; exact ns
  · obtain ⟨_, v, r, _, _, ht⟩ := h
    have hn : Op.reset_deassert OTG_RSTN ∉ u3_setup_ops priv.cfg rets hr
        ++ [Op.usleep_range 300 350, Op.poll_pll_lock v r] := by
      simp [ns]
    refine ⟨_, by rw [ht]; simp [u3_head_ops]; rfl, ?_, ?_⟩
    · intro hm; exact absurd hm hn
    · intro _; exact hn
  · obtain ⟨_, v, r, _, _, ht⟩ := h
    have hn : Op.reset_deassert OTG_RSTN ∉ u3_setup_ops priv.cfg rets hr
        ++ [Op.usleep_range 300 350,
            Op.poll_pll_lock priv.cfg.grfcfg.pipe_pll_lock.enable 0,
            Op.reset_deassert PHY_PIPE_RSTN, Op.poll_is_ready v r] := by
      simp [ns0, OTG_RSTN, PHY_PIPE_RSTN]
    refine ⟨_, by rw [ht]; simp [u3_head_ops]; rfl, ?_, ?_⟩
    · intro hm; exact absurd hm hn
    · intro _; exact hn
  · obtain ⟨_, hz, _, hobs, ht⟩ := h
    have hn : Op.reset_deassert OTG_RSTN ∉ u3_setup_ops priv.cfg rets hr
        ++ [Op.usleep_range 300 350,
            Op.poll_pll_lock priv.cfg.grfcfg.pipe_pll_lock.enable 0,
            Op.reset_deassert PHY_PIPE_RSTN] := by
      simp [ns0, OTG_RSTN, PHY_PIPE_RSTN]
    refine ⟨u3_setup_ops priv.cfg rets hr
        ++ [Op.usleep_range 300 350,
            Op.poll_pll_lock priv.cfg.grfcfg.pipe_pll_lock.enable 0,
            Op.reset_deassert PHY_PIPE_RSTN]
        ++ [Op.poll_is_ready priv.cfg.grfcfg.pipe_status_l0.enable 0,
            Op.reset_deassert OTG_RSTN], by rw [ht]; simp [u3_head_ops], ?_, ?_⟩
    · intro _
      exact ⟨hz, ⟨_, rfl, hn⟩, hobs⟩
    · intro hne; exact absurd hz hne

/-- C8: `phy_u3_init` issues exactly thirteen bitfield writes, all with the
enable value, directly after the register-bus-reset deassert and its 5 us delay
and directly before the fine-tuning hook, in the order lane-1 set, lane-1
select, tx/rx set, tx/rx select, clock-request set, clock-request select, rate
set, rate select, mode set, mode select, data-width set, data-width select,
USB3 select (so each set write precedes its select write); and `phy_pcie_init`
issues no bitfield write. -/
theorem u3_bitfield_write_order (priv : rockchip_combphy_priv) (w : World) :
    (∃ (rets : List Int) (hr : Int) (rest : List Op), rets.length = 13 ∧
      (phy_u3_init priv w).2.trace
        = w.trace ++ ([Op.reset_assert OTG_RSTN, Op.reset_deassert PHY_POR_RSTN, Op.udelay 5,
            Op.reset_deassert PHY_APB_RSTN, Op.udelay 5]
          ++ write_ops
              [priv.cfg.grfcfg.pipe_l1_set, priv.cfg.grfcfg.pipe_l1_sel,
               priv.cfg.grfcfg.pipe_txrx_set, priv.cfg.grfcfg.pipe_txrx_sel,
               priv.cfg.grfcfg.pipe_clk_set, priv.cfg.grfcfg.pipe_clk_sel,
               priv.cfg.grfcfg.pipe_rate_set, priv.cfg.grfcfg.pipe_rate_sel,
               priv.cfg.grfcfg.pipe_mode_set, priv.cfg.grfcfg.pipe_mode_sel,
               priv.cfg.grfcfg.pipe_width_set, priv.cfg.grfcfg.pipe_width_sel,
               priv.cfg.grfcfg.pipe_usb3_sel] rets
          ++ cfg_hook_ops priv.cfg.combphy_cfg hr ++ rest) ∧
      (∀ reg en ret, Op.param_write reg en ret ∉ rest) ∧
      (∀ r, Op.combphy_cfg r ∉ rest)) ∧
    (∃ ops, (phy_pcie_init priv w).2.trace = w.trace ++ ops ∧
      ∀ reg en ret, Op.param_write reg en ret ∉ ops) := by
  constructor
  · obtain ⟨rets, hr, hl, h⟩ := phy_u3_init_cases priv w
    rcases h with h | h | h | h
    · obtain ⟨_, _, _, ht⟩ := h
      exact ⟨rets, hr, [], hl, by rw [ht]; simp [u3_head_ops, u3_setup_ops, u3_write_fields],
        by simp, by simp⟩
    · obtain ⟨_, v, r, _, _, ht⟩ := h
      exact ⟨rets, hr, _, hl, by rw [ht]; simp [u3_head_ops, u3_setup_ops, u3_write_fields]; rfl,
        by simp, by simp⟩
    · obtain ⟨_, v, r, _, _, ht⟩ := h
      exact ⟨rets, hr, _, hl, by rw [ht]; simp [u3_head_ops, u3_setup_ops, u3_write_fields]; rfl,
        by simp, by simp⟩
    · obtain ⟨_, _, _, _, ht⟩ := h
      exact ⟨rets, hr, _, hl, by rw [ht]; simp [u3_head_ops, u3_setup_ops, u3_write_fields]; rfl,
        by simp, by simp⟩
  · obtain ⟨hr, h | h | h⟩ := phy_pcie_init_cases priv w
    · obtain ⟨_, _, _, ht⟩ := h
      refine ⟨_, ht, ?_⟩
      intro reg en ret
      cases priv.cfg.combphy_cfg <;> simp [cfg_hook_ops]
    · obtain ⟨_, v, r, _, _, ht⟩ := h
      refine ⟨_, ht, ?_⟩
      intro reg en ret
      cases priv.cfg.combphy_cfg <;> simp [cfg_hook_ops]
    · obtain ⟨_, _, v, r, _, ht, _⟩ := h
      refine ⟨_, ht, ?_⟩
      intro reg en ret
      cases priv.cfg.combphy_cfg <;> simp [cfg_hook_ops]

/-! ### C9: propagation of step failures -/

/-- When no examined step fails in `A`, and every failing step of `T` is the
last entry of `T` and gives the result, the same holds for `A ++ T`. -/
theorem aborts_of_split (A T : List Op) (ret : Int)
    (hA : ∀ op r, failing_step op r → op ∉ A)
    (hT : ∀ op r, failing_step op r → op ∈ T → T.getLast? = some op ∧ ret = r) :
    ∀ op r, failing_step op r → op ∈ A ++ T → (A ++ T).getLast? = some op ∧ ret = r := by
  intro op r hf hm
  rcases List.mem_append.mp hm with hm | hm
  · exact absurd hm (hA op r hf)
  · obtain ⟨h1, h2⟩ := hT op r hf hm
    refine ⟨?_, h2⟩
    rw [List.getLast?_append, h1]; simp

/-- No examined step fails among the resets, delays, bitfield writes and a hook
entry with result `0`: the results of the writes are not examined. -/
theorem no_failing_step_setup (cfg : rockchip_combphy_cfg) (rets : List Int) :
    ∀ op r, failing_step op r → op ∉ u3_setup_ops cfg rets 0 := by
  intro op r hf hm
  obtain ⟨hr0, hk⟩ := hf
  simp only [u3_setup_ops, List.mem_append] at hm
  rcases hm with (hm | hm) | hm
  · rcases hk with rfl | rfl | ⟨v, rfl⟩ | ⟨v, rfl⟩ <;> simp at hm
  · obtain ⟨reg, ret, he⟩ := mem_write_ops _ _ _ hm
    rcases hk with rfl | rfl | ⟨v, rfl⟩ | ⟨v, rfl⟩ <;> simp at he
  · cases hc : cfg.combphy_cfg with
    | none => rw [hc] at hm; simp [cfg_hook_ops] at hm
    | some f =>
      rw [hc] at hm
      simp only [cfg_hook_ops, List.mem_singleton] at hm
      subst hm
      rcases hk with h | h | ⟨v, h⟩ | ⟨v, h⟩ <;> simp at h
      exact hr0 h.symm

/-- Same as `no_failing_step_setup`, for the PCIe operations up to a hook entry
with result `0`. -/
theorem no_failing_step_pcie_setup (hook : Option hook_fn) :
    ∀ op r, failing_step op r →
      op ∉ [Op.reset_deassert PHY_POR_RSTN, Op.udelay 5, Op.reset_deassert PHY_APB_RSTN,
        Op.udelay 5] ++ cfg_hook_ops hook 0 := by
  intro op r hf hm
  obtain ⟨hr0, hk⟩ := hf
  rcases List.mem_append.mp hm with hm | hm
  · rcases hk with rfl | rfl | ⟨v, rfl⟩ | ⟨v, rfl⟩ <;> simp at hm
  · cases hook with
    | none => simp [cfg_hook_ops] at hm
    | some f =>
      simp only [cfg_hook_ops, List.mem_singleton] at hm
      subst hm
      rcases hk with h | h | ⟨v, h⟩ | ⟨v, h⟩ <;> simp at h
      exact hr0 h.symm

/-- A run that ends with the hook entry: a failing step is that entry. -/
theorem tail_hook_aborts (hr : Int) :
    ∀ op r, failing_step op r → op ∈ [Op.combphy_cfg hr] →
      [Op.combphy_cfg hr].getLast? = some op ∧ hr = r := by
  intro op r hf hm
  simp only [List.mem_singleton] at hm
  subst hm
  obtain ⟨_, hk⟩ := hf
  rcases hk with h | h | ⟨v, h⟩ | ⟨v, h⟩ <;> cases h
  exact ⟨rfl, rfl⟩

/-- A run that ends with the PLL-lock poll: a failing step is that poll. -/
theorem tail_pll_aborts (v : Nat) (r1 : Int) :
    ∀ op r, failing_step op r → op ∈ [Op.usleep_range 300 350, Op.poll_pll_lock v r1] →
      [Op.usleep_range 300 350, Op.poll_pll_lock v r1].getLast? = some op ∧ r1 = r := by
  intro op r hf hm
  simp only [List.mem_cons, List.mem_singleton, List.not_mem_nil, or_false] at hm
  obtain ⟨_, hk⟩ := hf
  rcases hm with rfl | rfl
  · rcases hk with h | h | ⟨v, h⟩ | ⟨v, h⟩ <;> cases h
  · rcases hk with h | h | ⟨v, h⟩ | ⟨v, h⟩ <;> cases h
    exact ⟨rfl, rfl⟩

/-- A run that ends with the lane-ready poll after a successful PLL-lock poll:
a failing step is the lane-ready poll. -/
theorem tail_rdy_aborts (e v : Nat) (r1 : Int) :
    ∀ op r, failing_step op r →
      op ∈ [Op.usleep_range 300 350, Op.poll_pll_lock e 0,
        Op.reset_deassert PHY_PIPE_RSTN, Op.poll_is_ready v r1] →
      [Op.usleep_range 300 350, Op.poll_pll_lock e 0,
        Op.reset_deassert PHY_PIPE_RSTN, Op.poll_is_ready v r1].getLast? = some op ∧
      r1 = r := by
  intro op r hf hm
  simp only [List.mem_cons, List.mem_singleton, List.not_mem_nil, or_false] at hm
  obtain ⟨hr0, hk⟩ := hf
  rcases hm with rfl | rfl | rfl | rfl
  · rcases hk with h | h | ⟨v, h⟩ | ⟨v, h⟩ <;> cases h
  · rcases hk with h | h | ⟨v, h⟩ | ⟨v, h⟩ <;> cases h
    exact absurd rfl hr0
  · rcases hk with h | h | ⟨v, h⟩ | ⟨v, h⟩ <;> cases h
  · rcases hk with h | h | ⟨v, h⟩ | ⟨v, h⟩ <;> cases h
    exact ⟨rfl, rfl⟩

/-- A run in which both polls succeeded has no failing step after the hook. -/
theorem tail_ok_aborts (e e2 : Nat) :
    ∀ op r, failing_step op r →
      op ∈ [Op.usleep_range 300 350, Op.poll_pll_lock e 0,
        Op.reset_deassert PHY_PIPE_RSTN, Op.poll_is_ready e2 0,
        Op.reset_deassert OTG_RSTN] →
      [Op.usleep_range 300 350, Op.poll_pll_lock e 0,
        Op.reset_deassert PHY_PIPE_RSTN, Op.poll_is_ready e2 0,
        Op.reset_deassert OTG_RSTN].getLast? = some op ∧ (0 : Int) = r := by
  intro op r hf hm
  simp only [List.mem_cons, List.mem_singleton, List.not_mem_nil, or_false] at hm
  obtain ⟨hr0, hk⟩ := hf
  rcases hm with rfl | rfl | rfl | rfl | rfl
  · rcases hk with h | h | ⟨v, h⟩ | ⟨v, h⟩ <;> cases h
  · rcases hk with h | h | ⟨v, h⟩ | ⟨v, h⟩ <;> cases h
    exact absurd rfl hr0
  · rcases hk with h | h | ⟨v, h⟩ | ⟨v, h⟩ <;> cases h
  · rcases hk with h | h | ⟨v, h⟩ | ⟨v, h⟩ <;> cases h
    exact absurd rfl hr0
  · rcases hk with h | h | ⟨v, h⟩ | ⟨v, h⟩ <;> cases h

/-- No examined step is among the PCIe power-up operations. -/
theorem no_failing_step_powerup :
    ∀ op r, failing_step op r →
      op ∉ [Op.reset_deassert PHY_POR_RSTN, Op.udelay 5, Op.reset_deassert PHY_APB_RSTN,
        Op.udelay 5] := by
  intro op r hf hm
  obtain ⟨_, hk⟩ := hf
  rcases hk with rfl | rfl | ⟨v, rfl⟩ | ⟨v, rfl⟩ <;> simp at hm

/-- In `phy_pcie_init` every failing examined step is the last operation and
its result is the function result; and the function result is `0` unless the
last operation is a failing examined step. -/
theorem pcie_failure_aborts (priv : rockchip_combphy_priv) (w : World) :
    ∃ ops, (phy_pcie_init priv w).2.trace = w.trace ++ ops ∧
      (∀ op r, failing_step op r → op ∈ ops →
        ops.getLast? = some op ∧ (phy_pcie_init priv w).1 = r) ∧
      ((phy_pcie_init priv w).1 = 0 ∨
        ∃ op, failing_step op (phy_pcie_init priv w).1 ∧ ops.getLast? = some op) := by
  obtain ⟨hr, h | h | h⟩ := phy_pcie_init_cases priv w
  · obtain ⟨hnz, hsome, hret, ht⟩ := h
    refine ⟨_, ht, ?_, ?_⟩
    · rw [hret]
      cases hc : priv.cfg.combphy_cfg with
      | none => exact absurd hc hsome
      | some f =>
        exact aborts_of_split _ _ _ no_failing_step_powerup (tail_hook_aborts hr)
    · right
      rw [hret]
      cases hc : priv.cfg.combphy_cfg with
      | none => exact absurd hc hsome
      | some f =>
        exact ⟨Op.combphy_cfg hr, ⟨hnz, Or.inr (Or.inl rfl)⟩, by simp [cfg_hook_ops]⟩
  · obtain ⟨hz, v, r1, hnz, hret, ht⟩ := h
    subst hz
    refine ⟨_, ht, ?_, ?_⟩
    · rw [hret]
      exact aborts_of_split _ _ _ (no_failing_step_pcie_setup _) (tail_pll_aborts v r1)
    · right
      rw [hret]
      exact ⟨Op.poll_pll_lock v r1, ⟨hnz, Or.inr (Or.inr (Or.inl ⟨v, rfl⟩))⟩,
        by rw [List.getLast?_append_of_ne_nil _ (List.cons_ne_nil _ _)]; rfl⟩
  · obtain ⟨hz, _, v, r1, hret, ht, _⟩ := h
    subst hz
    refine ⟨_, ht, ?_, ?_⟩
    · rw [hret]
      exact aborts_of_split _ _ _ (no_failing_step_pcie_setup _) (tail_rdy_aborts _ v r1)
    · rw [hret]
      by_cases hz : r1 = 0
      · exact Or.inl hz
      · right
        exact ⟨Op.poll_is_ready v r1, ⟨hz, Or.inr (Or.inr (Or.inr ⟨v, rfl⟩))⟩,
          by rw [List.getLast?_append_of_ne_nil _ (List.cons_ne_nil _ _)]; rfl⟩

/-- No examined step is among the USB3 operations up to the last bitfield
write. -/
theorem no_failing_step_u3_writes (g : rockchip_combphy_grfcfg) (rets : List Int) :
    ∀ op r, failing_step op r →
      op ∉ [Op.reset_deassert PHY_POR_RSTN, Op.udelay 5, Op.reset_deassert PHY_APB_RSTN,
        Op.udelay 5] ++ write_ops (u3_write_fields g) rets := by
  intro op r hf hm
  rcases List.mem_append.mp hm with hm | hm
  · exact no_failing_step_powerup op r hf hm
  · obtain ⟨_, hk⟩ := hf
    obtain ⟨reg, ret, he⟩ := mem_write_ops _ _ _ hm
    rcases hk with rfl | rfl | ⟨v, rfl⟩ | ⟨v, rfl⟩ <;> simp at he

/-- In `phy_u3_init` all thirteen bitfield writes are issued whatever each
returns, and every failing examined step is the last operation and its result
is the function result. -/
theorem u3_failure_aborts (priv : rockchip_combphy_priv) (w : World) :
    ∃ (rets : List Int) (hr : Int) (rest : List Op), rets.length = 13 ∧
      (phy_u3_init priv w).2.trace = w.trace ++ (u3_head_ops priv.cfg rets hr ++ rest) ∧
      ∀ op r, failing_step op r → op ∈ u3_head_ops priv.cfg rets hr ++ rest →
        (u3_head_ops priv.cfg rets hr ++ rest).getLast? = some op ∧
        (phy_u3_init priv w).1 = r := by
  have hassert : ∀ op r, failing_step op r → op ∉ [Op.reset_assert OTG_RSTN] := by
    intro op r hf hm
    obtain ⟨_, hk⟩ := hf
    rcases hk with rfl | rfl | ⟨v, rfl⟩ | ⟨v, rfl⟩ <;> simp at hm
  obtain ⟨rets, hr, hl, h⟩ := phy_u3_init_cases priv w
  rcases h with h | h | h | h
  · obtain ⟨hnz, hsome, hret, ht⟩ := h
    refine ⟨rets, hr, [], hl, by rw [ht]; simp, ?_⟩
    rw [hret]
    cases hc : priv.cfg.combphy_cfg with
    | none => exact absurd hc hsome
    | some f =>
      have e : u3_head_ops priv.cfg rets hr ++ []
          = [Op.reset_assert OTG_RSTN] ++
            (([Op.reset_deassert PHY_POR_RSTN, Op.udelay 5, Op.reset_deassert PHY_APB_RSTN,
              Op.udelay 5] ++ write_ops (u3_write_fields priv.cfg.grfcfg) rets)
              ++ [Op.combphy_cfg hr]) := by
        simp [u3_head_ops, u3_setup_ops, hc, cfg_hook_ops]
      rw [e]
      exact aborts_of_split _ _ _ hassert
        (aborts_of_split _ _ _ (no_failing_step_u3_writes _ rets) (tail_hook_aborts hr))
  · obtain ⟨hz, v, r1, hnz, hret, ht⟩ := h
    subst hz
    refine ⟨rets, 0, _, hl, ht, ?_⟩
    rw [hret]
    have e : u3_head_ops priv.cfg rets 0 ++ [Op.usleep_range 300 350, Op.poll_pll_lock v r1]
        = [Op.reset_assert OTG_RSTN] ++ (u3_setup_ops priv.cfg rets 0
            ++ [Op.usleep_range 300 350, Op.poll_pll_lock v r1]) := by
      simp [u3_head_ops]
    rw [e]
    exact aborts_of_split _ _ _ hassert
      (aborts_of_split _ _ _ (no_failing_step_setup _ rets) (tail_pll_aborts v r1))
  · obtain ⟨hz, v, r1, hnz, hret, ht⟩ := h
    subst hz
    refine ⟨rets, 0, _, hl, ht, ?_⟩
    rw [hret]
    have e : u3_head_ops priv.cfg rets 0 ++ [Op.usleep_range 300 350,
          Op.poll_pll_lock priv.cfg.grfcfg.pipe_pll_lock.enable 0,
          Op.reset_deassert PHY_PIPE_RSTN, Op.poll_is_ready v r1]
        = [Op.reset_assert OTG_RSTN] ++ (u3_setup_ops priv.cfg rets 0
            ++ [Op.usleep_range 300 350,
              Op.poll_pll_lock priv.cfg.grfcfg.pipe_pll_lock.enable 0,
              Op.reset_deassert PHY_PIPE_RSTN, Op.poll_is_ready v r1]) := by
      simp [u3_head_ops]
    rw [e]
    exact aborts_of_split _ _ _ hassert
      (aborts_of_split _ _ _ (no_failing_step_setup _ rets) (tail_rdy_aborts _ v r1))
  · obtain ⟨hz, hret, _, _, ht⟩ := h
    subst hz
    refine ⟨rets, 0, _, hl, ht, ?_⟩
    rw [hret]
    have e : u3_head_ops priv.cfg rets 0 ++ [Op.usleep_range 300 350,
          Op.poll_pll_lock priv.cfg.grfcfg.pipe_pll_lock.enable 0,
          Op.reset_deassert PHY_PIPE_RSTN,
          Op.poll_is_ready priv.cfg.grfcfg.pipe_status_l0.enable 0,
          Op.reset_deassert OTG_RSTN]
        = [Op.reset_assert OTG_RSTN] ++ (u3_setup_ops priv.cfg rets 0
            ++ [Op.usleep_range 300 350,
              Op.poll_pll_lock priv.cfg.grfcfg.pipe_pll_lock.enable 0,
              Op.reset_deassert PHY_PIPE_RSTN,
              Op.poll_is_ready priv.cfg.grfcfg.pipe_status_l0.enable 0,
              Op.reset_deassert OTG_RSTN]) := by
      simp [u3_head_ops]
    rw [e]
    exact aborts_of_split _ _ _ hassert
      (aborts_of_split _ _ _ (no_failing_step_setup _ rets) (tail_ok_aborts _ _))

/-- The result of `phy_u3_init` is `0` unless the last operation of the run is
a failing examined step, whose result it then is: the results of the bitfield
writes play no part in it. -/
theorem u3_result_source (priv : rockchip_combphy_priv) (w : World) :
    ∃ ops, (phy_u3_init priv w).2.trace = w.trace ++ ops ∧
      ((phy_u3_init priv w).1 = 0 ∨
        ∃ op, failing_step op (phy_u3_init priv w).1 ∧ ops.getLast? = some op) := by
  obtain ⟨rets, hr, _, h⟩ := phy_u3_init_cases priv w
  rcases h with h | h | h | h
  · obtain ⟨hnz, hsome, hret, ht⟩ := h
    refine ⟨_, ht, Or.inr ?_⟩
    rw [hret]
    cases hc : priv.cfg.combphy_cfg with
    | none => exact absurd hc hsome
    | some f =>
      refine ⟨Op.combphy_cfg hr, ⟨hnz, Or.inr (Or.inl rfl)⟩, ?_⟩
      have e : u3_head_ops priv.cfg rets hr
          = ([Op.reset_assert OTG_RSTN, Op.reset_deassert PHY_POR_RSTN, Op.udelay 5,
              Op.reset_deassert PHY_APB_RSTN, Op.udelay 5]
              ++ write_ops (u3_write_fields priv.cfg.grfcfg) rets) ++ [Op.combphy_cfg hr] := by
        simp [u3_head_ops, u3_setup_ops, hc, cfg_hook_ops]
      rw [e, List.getLast?_append_of_ne_nil _ (List.cons_ne_nil _ _)]
      rfl
  · obtain ⟨_, v, r1, hnz, hret, ht⟩ := h
    refine ⟨_, ht, Or.inr ?_⟩
    rw [hret]
    exact ⟨Op.poll_pll_lock v r1, ⟨hnz, Or.inr (Or.inr (Or.inl ⟨v, rfl⟩))⟩,
      by rw [List.getLast?_append_of_ne_nil _ (List.cons_ne_nil _ _)]; rfl⟩
  · obtain ⟨_, v, r1, hnz, hret, ht⟩ := h
    refine ⟨_, ht, Or.inr ?_⟩
    rw [hret]
    exact ⟨Op.poll_is_ready v r1, ⟨hnz, Or.inr (Or.inr (Or.inr ⟨v, rfl⟩))⟩,
      by rw [List.getLast?_append_of_ne_nil _ (List.cons_ne_nil _ _)]; rfl⟩
  · obtain ⟨_, hret, _, _, ht⟩ := h
    exact ⟨_, ht, Or.inl hret⟩

/-- C9, as stated, fails: on the simulated rk1808 board whose GRF transport
fails every write with `-5`, the first bitfield write of USB3 bring-up returns
`-5`, yet the twelve later writes, the hook, both polls and both later reset
deassertions are all performed and `init` returns `0`, not `-5`. -/
theorem u3_write_error_ignored_counterexample :
    (param_write sim_world_bus_fault.grf rk1808_grfcfg.pipe_l1_set true).1 = -5 ∧
    (rockchip_combphy_init ⟨PHY_TYPE_USB3, fun _ => true, rk1808_combphy_cfgs⟩
        sim_world_bus_fault).1 = 0 ∧
    (rockchip_combphy_init ⟨PHY_TYPE_USB3, fun _ => true, rk1808_combphy_cfgs⟩
        sim_world_bus_fault).2.trace
      = [Op.clk_prepare_enable 0, Op.reset_assert OTG_RSTN,
          Op.reset_deassert PHY_POR_RSTN, Op.udelay 5,
          Op.reset_deassert PHY_APB_RSTN, Op.udelay 5,
          Op.param_write rk1808_grfcfg.pipe_l1_set true (-5),
          Op.param_write rk1808_grfcfg.pipe_l1_sel true (-5),
          Op.param_write rk1808_grfcfg.pipe_txrx_set true (-5),
          Op.param_write rk1808_grfcfg.pipe_txrx_sel true (-5),
          Op.param_write rk1808_grfcfg.pipe_clk_set true (-5),
          Op.param_write rk1808_grfcfg.pipe_clk_sel true (-5),
          Op.param_write rk1808_grfcfg.pipe_rate_set true (-5),
          Op.param_write rk1808_grfcfg.pipe_rate_sel true (-5),
          Op.param_write rk1808_grfcfg.pipe_mode_set true (-5),
          Op.param_write rk1808_grfcfg.pipe_mode_sel true (-5),
          Op.param_write rk1808_grfcfg.pipe_width_set true (-5),
          Op.param_write rk1808_grfcfg.pipe_width_sel true (-5),
          Op.param_write rk1808_grfcfg.pipe_usb3_sel true (-5),
          Op.combphy_cfg 0, Op.usleep_range 300 350, Op.poll_pll_lock 1 0,
          Op.reset_deassert PHY_PIPE_RSTN, Op.poll_is_ready 0 0,
          Op.reset_deassert OTG_RSTN] := by
  refine ⟨by decide, by decide, by decide⟩

/-- The result and the trace of `rockchip_combphy_init` once the clock is
enabled are those of `rockchip_combphy_set_phy_type`. -/
theorem init_eq_set_phy_type (priv : rockchip_combphy_priv) (w : World)
    (hc : w.clk_enable_ret = 0) :
    (rockchip_combphy_init priv w).1
        = (rockchip_combphy_set_phy_type priv (clk_prepare_enable w).2).1 ∧
    (rockchip_combphy_init priv w).2
        = (rockchip_combphy_set_phy_type priv (clk_prepare_enable w).2).2 := by
  have h1 : (clk_prepare_enable w).1 = 0 := by simp [clk_prepare_enable, hc]
  unfold rockchip_combphy_init
  simp only [h1, ne_eq, not_true_eq_false, if_false]
  by_cases h2 : (rockchip_combphy_set_phy_type priv (clk_prepare_enable w).2).1 = 0
  · simp [h2]
  · simp [h2]

/-- The clock enable adds its own entry to the trace. -/
theorem clk_prepare_enable_trace (w : World) :
    (clk_prepare_enable w).2.trace = w.trace ++ [Op.clk_prepare_enable w.clk_enable_ret] := by
  unfold clk_prepare_enable
  by_cases hc : w.clk_enable_ret = 0 <;> simp [hc]

/-- C9, amended: during `init`, a failure of the clock enable, of the
fine-tuning hook, of the PLL-lock poll or of the lane-ready poll aborts the rest
of the sequence (the failing step is the last operation performed) and its
error is returned as the result of `init`; in USB3 bring-up with the clock
enabled all thirteen bitfield writes are issued whatever each of them returns;
and the error of a write is never propagated: the result of `init` is `0`, or
the error of the failing examined step that ended the run, or `-EINVAL` because
the recorded type is neither PCIe nor USB3. -/
theorem init_failure_aborts (priv : rockchip_combphy_priv) (w : World) :
    ∃ ops, (rockchip_combphy_init priv w).2.trace = w.trace ++ ops ∧
      (∀ op r, failing_step op r → op ∈ ops →
        ops.getLast? = some op ∧ (rockchip_combphy_init priv w).1 = r) ∧
      (priv.phy_type = PHY_TYPE_USB3 → w.clk_enable_ret = 0 →
        ∃ (rets : List Int) (hr : Int) (rest : List Op), rets.length = 13 ∧
          ops = Op.clk_prepare_enable 0 :: (u3_head_ops priv.cfg rets hr ++ rest)) ∧
      ((rockchip_combphy_init priv w).1 = 0 ∨
        (∃ op, failing_step op (rockchip_combphy_init priv w).1 ∧ ops.getLast? = some op) ∨
        (¬ (priv.phy_type = PHY_TYPE_PCIE ∨ priv.phy_type = PHY_TYPE_USB3) ∧
          w.clk_enable_ret = 0 ∧ (rockchip_combphy_init priv w).1 = -EINVAL)) := by
  by_cases hc : w.clk_enable_ret = 0
  · obtain ⟨e1, e2⟩ := init_eq_set_phy_type priv w hc
    have tc := clk_prepare_enable_trace w
    rw [hc] at tc
    have hclk : ∀ op r, failing_step op r → op ∉ [Op.clk_prepare_enable 0] := by
      intro op r hf hm
      obtain ⟨hr0, hk⟩ := hf
      simp only [List.mem_singleton] at hm
      subst hm
      rcases hk with h | h | ⟨v, h⟩ | ⟨v, h⟩ <;> cases h
      exact hr0 rfl
    have hlast : ∀ (l : List Op) (op : Op), l.getLast? = some op →
        ([Op.clk_prepare_enable 0] ++ l).getLast? = some op := by
      intro l op h
      rw [List.getLast?_append, h]; simp
    rw [e1, e2]
    by_cases hp : priv.phy_type = PHY_TYPE_PCIE
    · have e3 : rockchip_combphy_set_phy_type priv (clk_prepare_enable w).2
          = phy_pcie_init priv (clk_prepare_enable w).2 := by
        simp [rockchip_combphy_set_phy_type, hp]
      obtain ⟨ops, ht, ha, hs⟩ := pcie_failure_aborts priv (clk_prepare_enable w).2
      rw [e3]
      refine ⟨[Op.clk_prepare_enable 0] ++ ops, by rw [ht, tc]; simp, ?_, ?_, ?_⟩
      · exact aborts_of_split _ _ _ hclk ha
      · intro hu
        rw [hp] at hu
        exact absurd hu (by decide)
      · rcases hs with hs | ⟨op, hf, hl⟩
        · exact Or.inl hs
        · exact Or.inr (Or.inl ⟨op, hf, hlast ops op hl⟩)
    · by_cases hu : priv.phy_type = PHY_TYPE_USB3
      · have e3 : rockchip_combphy_set_phy_type priv (clk_prepare_enable w).2
            = phy_u3_init priv (clk_prepare_enable w).2 := by
          unfold rockchip_combphy_set_phy_type
          rw [if_neg hp, if_pos hu]
        obtain ⟨rets, hr, rest, hl, ht, ha⟩ := u3_failure_aborts priv (clk_prepare_enable w).2
        obtain ⟨ops2, ht2, hs⟩ := u3_result_source priv (clk_prepare_enable w).2
        have hops : ops2 = u3_head_ops priv.cfg rets hr ++ rest :=
          List.append_cancel_left (ht2.symm.trans ht)
        rw [hops] at hs
        rw [e3]
        refine ⟨[Op.clk_prepare_enable 0] ++ (u3_head_ops priv.cfg rets hr ++ rest),
          by rw [ht, tc]; simp, ?_, ?_, ?_⟩
        · exact aborts_of_split _ _ _ hclk ha
        · intro _ _
          exact ⟨rets, hr, rest, hl, rfl⟩
        · rcases hs with hs | ⟨op, hf, hl2⟩
          · exact Or.inl hs
          · exact Or.inr (Or.inl ⟨op, hf, hlast _ op hl2⟩)
      · have e3 : rockchip_combphy_set_phy_type priv (clk_prepare_enable w).2
            = (-EINVAL, (clk_prepare_enable w).2) := by
          simp [rockchip_combphy_set_phy_type, hp, hu]
        rw [e3]
        refine ⟨[Op.clk_prepare_enable 0], tc, ?_, ?_, ?_⟩
        · intro op r hf hm
          exact absurd hm (hclk op r hf)
        · intro h; exact absurd h hu
        · exact Or.inr (Or.inr ⟨by tauto, hc, rfl⟩)
  · have e : rockchip_combphy_init priv w = clk_prepare_enable w := by
      have h1 : (clk_prepare_enable w).1 = w.clk_enable_ret := by
        simp [clk_prepare_enable, hc]
      unfold rockchip_combphy_init
      simp [h1, hc]
    have h1 : (clk_prepare_enable w).1 = w.clk_enable_ret := by
      simp [clk_prepare_enable, hc]
    rw [e]
    refine ⟨[Op.clk_prepare_enable w.clk_enable_ret], clk_prepare_enable_trace w, ?_, ?_, ?_⟩
    · intro op r hf hm
      obtain ⟨hr0, hk⟩ := hf
      simp only [List.mem_singleton] at hm
      subst hm
      rw [h1]
      rcases hk with h | h | ⟨v, h⟩ | ⟨v, h⟩ <;> cases h
      exact ⟨rfl, rfl⟩
    · intro _ h; exact absurd h hc
    · rw [h1]
      exact Or.inr (Or.inl ⟨Op.clk_prepare_enable w.clk_enable_ret, ⟨hc, Or.inl rfl⟩, rfl⟩)

/-! ### C10: the compliance-test operation -/

/-- C10, as stated, fails: for a variant with no compliance-test hook (the
rk1808 table with that hook left out) and an unassigned instance,
`rockchip_combphy_u3_cp_test` returns `0`, that is, it succeeds. -/
theorem cp_test_without_hook_counterexample :
    (rockchip_combphy_u3_cp_test
        ⟨PHY_NONE, fun _ => true, { rk1808_combphy_cfgs with combphy_u3_cp_test := none }⟩
        (sim_world 24000000 fun _ => 0)).1 = 0 := by
  decide

/-- C10, amended: for a variant configured with the rk1808 compliance-test
hook, `rockchip_combphy_u3_cp_test` fails with `-EINVAL` and writes no register
(neither PHY MMIO nor GRF) when the type is not USB3, in particular when it is
unassigned or PCIe, and succeeds when the type is USB3; for a variant without a
compliance-test hook it succeeds for every type and changes nothing. -/
theorem cp_test_type_check (priv : rockchip_combphy_priv) (w : World) :
    (priv.cfg.combphy_u3_cp_test = some rk1808_combphy_u3_cp_test →
      (priv.phy_type ≠ PHY_TYPE_USB3 →
        (rockchip_combphy_u3_cp_test priv w).1 = -EINVAL ∧
        (rockchip_combphy_u3_cp_test priv w).2.mmio = w.mmio ∧
        (rockchip_combphy_u3_cp_test priv w).2.grf = w.grf) ∧
      (priv.phy_type = PHY_TYPE_USB3 → (rockchip_combphy_u3_cp_test priv w).1 = 0)) ∧
    (priv.cfg.combphy_u3_cp_test = none → rockchip_combphy_u3_cp_test priv w = (0, w)) := by
  constructor
  · intro hk
    constructor
    · intro ht
      simp [rockchip_combphy_u3_cp_test, hk, rk1808_combphy_u3_cp_test, ht, log]
    · intro ht
      simp [rockchip_combphy_u3_cp_test, hk, rk1808_combphy_u3_cp_test, ht]
  · intro hk
    simp [rockchip_combphy_u3_cp_test, hk]

/-- Witness for `cp_test_type_check`: on the rk1808 variant a PCIe instance is
refused without any PHY register write, a USB3 instance is accepted. -/
theorem cp_test_type_check_witness :
    ((rockchip_combphy_u3_cp_test ⟨PHY_TYPE_PCIE, fun _ => true, rk1808_combphy_cfgs⟩
        (sim_world 24000000 fun _ => 0)).1 = -EINVAL ∧
      (rockchip_combphy_u3_cp_test ⟨PHY_TYPE_PCIE, fun _ => true, rk1808_combphy_cfgs⟩
        (sim_world 24000000 fun _ => 0)).2.mmio = (sim_world 24000000 fun _ => 0).mmio) ∧
    (rockchip_combphy_u3_cp_test ⟨PHY_TYPE_USB3, fun _ => true, rk1808_combphy_cfgs⟩
        (sim_world 24000000 fun _ => 0)).1 = 0 :=
  ⟨⟨(((cp_test_type_check ⟨PHY_TYPE_PCIE, fun _ => true, rk1808_combphy_cfgs⟩
        (sim_world 24000000 fun _ => 0)).1 rfl).1 (by decide)).1,
    (((cp_test_type_check ⟨PHY_TYPE_PCIE, fun _ => true, rk1808_combphy_cfgs⟩
        (sim_world 24000000 fun _ => 0)).1 rfl).1 (by decide)).2.1⟩,
   ((cp_test_type_check ⟨PHY_TYPE_USB3, fun _ => true, rk1808_combphy_cfgs⟩
        (sim_world 24000000 fun _ => 0)).1 rfl).2 rfl⟩

/-! ### C11: register effect of the compliance-test operation -/

/-- C11: `rockchip_combphy_u3_cp_test` makes at most one register write. With
the rk1808 hook and type USB3 it returns `0` and performs exactly one MMIO
write, of `0x0c` to PHY offset `0x4008`, and no read; with the rk1808 hook and
any other type it leaves the PHY window untouched; with no hook configured it
returns `0` and leaves the PHY window untouched; and in every case, whatever the
hook, the reset lines, the clock (enable count and rate) and the GRF are
unchanged. -/
theorem cp_test_register_effect (priv : rockchip_combphy_priv) (w : World) :
    ((rockchip_combphy_u3_cp_test priv w).2.rst_asserted = w.rst_asserted ∧
      (rockchip_combphy_u3_cp_test priv w).2.clk_enable_count = w.clk_enable_count ∧
      (rockchip_combphy_u3_cp_test priv w).2.clk_rate = w.clk_rate ∧
      (rockchip_combphy_u3_cp_test priv w).2.grf = w.grf) ∧
    (priv.cfg.combphy_u3_cp_test = some rk1808_combphy_u3_cp_test →
      (priv.phy_type = PHY_TYPE_USB3 →
        (rockchip_combphy_u3_cp_test priv w).1 = 0 ∧
        (rockchip_combphy_u3_cp_test priv w).2.mmio.writes
          = w.mmio.writes ++ [(0x4008, 0x0c)] ∧
        (rockchip_combphy_u3_cp_test priv w).2.mmio.reads = w.mmio.reads) ∧
      (priv.phy_type ≠ PHY_TYPE_USB3 →
        (rockchip_combphy_u3_cp_test priv w).2.mmio = w.mmio)) ∧
    (priv.cfg.combphy_u3_cp_test = none →
      (rockchip_combphy_u3_cp_test priv w).1 = 0 ∧
      (rockchip_combphy_u3_cp_test priv w).2.mmio = w.mmio) := by
  refine ⟨?_, ?_, ?_⟩
  · unfold rockchip_combphy_u3_cp_test
    split <;> exact ⟨rfl, rfl, rfl, rfl⟩
  · intro hk
    constructor
    · intro ht
      simp [rockchip_combphy_u3_cp_test, hk, rk1808_combphy_u3_cp_test, ht, log, writel, u32]
    · intro ht
      simp [rockchip_combphy_u3_cp_test, hk, rk1808_combphy_u3_cp_test, ht, log]
  · intro hk
    simp [rockchip_combphy_u3_cp_test, hk]

/-- Witness for `cp_test_register_effect`: the rk1808 variant with a USB3
instance on the simulated board makes the single write `(0x4008, 0x0c)`. -/
theorem cp_test_register_effect_witness :
    (rockchip_combphy_u3_cp_test ⟨PHY_TYPE_USB3, fun _ => true, rk1808_combphy_cfgs⟩
        (sim_world 24000000 fun _ => 0)).1 = 0 ∧
    (rockchip_combphy_u3_cp_test ⟨PHY_TYPE_USB3, fun _ => true, rk1808_combphy_cfgs⟩
        (sim_world 24000000 fun _ => 0)).2.mmio.writes = [] ++ [(0x4008, 0x0c)] ∧
    (rockchip_combphy_u3_cp_test ⟨PHY_TYPE_USB3, fun _ => true, rk1808_combphy_cfgs⟩
        (sim_world 24000000 fun _ => 0)).2.mmio.reads = [] :=
  ((cp_test_register_effect ⟨PHY_TYPE_USB3, fun _ => true, rk1808_combphy_cfgs⟩
    (sim_world 24000000 fun _ => 0)).2.1 rfl).1 rfl

/-! ### Frame facts: what each primitive leaves untouched -/

@[simp] theorem log_mmio (op : Op) (w : World) :
    (log op w).mmio = w.mmio := rfl

@[simp] theorem log_rst_asserted (op : Op) (w : World) :
    (log op w).rst_asserted = w.rst_asserted := rfl

@[simp] theorem log_clk_rate (op : Op) (w : World) :
    (log op w).clk_rate = w.clk_rate := rfl

@[simp] theorem log_clk_enable_ret (op : Op) (w : World) :
    (log op w).clk_enable_ret = w.clk_enable_ret := rfl

@[simp] theorem log_clk_enable_count (op : Op) (w : World) :
    (log op w).clk_enable_count = w.clk_enable_count := rfl

@[simp] theorem log_sched_slack (op : Op) (w : World) :
    (log op w).sched_slack = w.sched_slack := rfl

@[simp] theorem udelay_mmio (us : Nat) (w : World) :
    (udelay us w).mmio = w.mmio := rfl

@[simp] theorem udelay_rst_asserted (us : Nat) (w : World) :
    (udelay us w).rst_asserted = w.rst_asserted := rfl

@[simp] theorem udelay_clk_rate (us : Nat) (w : World) :
    (udelay us w).clk_rate = w.clk_rate := rfl

@[simp] theorem udelay_clk_enable_ret (us : Nat) (w : World) :
    (udelay us w).clk_enable_ret = w.clk_enable_ret := rfl

@[simp] theorem udelay_clk_enable_count (us : Nat) (w : World) :
    (udelay us w).clk_enable_count = w.clk_enable_count := rfl

@[simp] theorem udelay_sched_slack (us : Nat) (w : World) :
    (udelay us w).sched_slack = w.sched_slack := rfl

@[simp] theorem usleep_range_mmio (lo hi : Nat) (w : World) :
    (usleep_range lo hi w).mmio = w.mmio := rfl

@[simp] theorem usleep_range_rst_asserted (lo hi : Nat) (w : World) :
    (usleep_range lo hi w).rst_asserted = w.rst_asserted := rfl

@[simp] theorem usleep_range_clk_rate (lo hi : Nat) (w : World) :
    (usleep_range lo hi w).clk_rate = w.clk_rate := rfl

@[simp] theorem usleep_range_clk_enable_ret (lo hi : Nat) (w : World) :
    (usleep_range lo hi w).clk_enable_ret = w.clk_enable_ret := rfl

@[simp] theorem usleep_range_clk_enable_count (lo hi : Nat) (w : World) :
    (usleep_range lo hi w).clk_enable_count = w.clk_enable_count := rfl

@[simp] theorem usleep_range_sched_slack (lo hi : Nat) (w : World) :
    (usleep_range lo hi w).sched_slack = w.sched_slack := rfl

@[simp] theorem reset_control_assert_mmio (priv : rockchip_combphy_priv) (l : Nat) (w : World) :
    (reset_control_assert priv l w).mmio = w.mmio := by
  unfold reset_control_assert; split <;> rfl

@[simp] theorem reset_control_assert_clk_rate (priv : rockchip_combphy_priv) (l : Nat) (w : World) :
    (reset_control_assert priv l w).clk_rate = w.clk_rate := by
  unfold reset_control_assert; split <;> rfl

@[simp] theorem reset_control_assert_clk_enable_ret (priv : rockchip_combphy_priv) (l : Nat) (w : World) :
    (reset_control_assert priv l w).clk_enable_ret = w.clk_enable_ret := by
  unfold reset_control_assert; split <;> rfl

@[simp] theorem reset_control_assert_clk_enable_count (priv : rockchip_combphy_priv) (l : Nat) (w : World) :
    (reset_control_assert priv l w).clk_enable_count = w.clk_enable_count := by
  unfold reset_control_assert; split <;> rfl

@[simp] theorem reset_control_assert_sched_slack (priv : rockchip_combphy_priv) (l : Nat) (w : World) :
    (reset_control_assert priv l w).sched_slack = w.sched_slack := by
  unfold reset_control_assert; split <;> rfl

@[simp] theorem reset_control_deassert_mmio (priv : rockchip_combphy_priv) (l : Nat) (w : World) :
    (reset_control_deassert priv l w).mmio = w.mmio := by
  unfold reset_control_deassert; split <;> rfl

@[simp] theorem reset_control_deassert_clk_rate (priv : rockchip_combphy_priv) (l : Nat) (w : World) :
    (reset_control_deassert priv l w).clk_rate = w.clk_rate := by
  unfold reset_control_deassert; split <;> rfl

@[simp] theorem reset_control_deassert_clk_enable_ret (priv : rockchip_combphy_priv) (l : Nat) (w : World) :
    (reset_control_deassert priv l w).clk_enable_ret = w.clk_enable_ret := by
  unfold reset_control_deassert; split <;> rfl

@[simp] theorem reset_control_deassert_clk_enable_count (priv : rockchip_combphy_priv) (l : Nat) (w : World) :
    (reset_control_deassert priv l w).clk_enable_count = w.clk_enable_count := by
  unfold reset_control_deassert; split <;> rfl

@[simp] theorem reset_control_deassert_sched_slack (priv : rockchip_combphy_priv) (l : Nat) (w : World) :
    (reset_control_deassert priv l w).sched_slack = w.sched_slack := by
  unfold reset_control_deassert; split <;> rfl

@[simp] theorem call_combphy_cfg_rst_asserted (priv : rockchip_combphy_priv) (w : World) :
    ((call_combphy_cfg priv w).2).rst_asserted = w.rst_asserted := by
  unfold call_combphy_cfg; split <;> rfl

@[simp] theorem call_combphy_cfg_clk_rate (priv : rockchip_combphy_priv) (w : World) :
    ((call_combphy_cfg priv w).2).clk_rate = w.clk_rate := by
  unfold call_combphy_cfg; split <;> rfl

@[simp] theorem call_combphy_cfg_clk_enable_ret (priv : rockchip_combphy_priv) (w : World) :
    ((call_combphy_cfg priv w).2).clk_enable_ret = w.clk_enable_ret := by
  unfold call_combphy_cfg; split <;> rfl

@[simp] theorem call_combphy_cfg_clk_enable_count (priv : rockchip_combphy_priv) (w : World) :
    ((call_combphy_cfg priv w).2).clk_enable_count = w.clk_enable_count := by
  unfold call_combphy_cfg; split <;> rfl

@[simp] theorem call_combphy_cfg_sched_slack (priv : rockchip_combphy_priv) (w : World) :
    ((call_combphy_cfg priv w).2).sched_slack = w.sched_slack := by
  unfold call_combphy_cfg; split <;> rfl

@[simp] theorem grf_param_write_mmio (reg : combphy_reg) (en : Bool) (w : World) :
    ((grf_param_write reg en w).2).mmio = w.mmio := rfl

@[simp] theorem grf_param_write_rst_asserted (reg : combphy_reg) (en : Bool) (w : World) :
    ((grf_param_write reg en w).2).rst_asserted = w.rst_asserted := rfl

@[simp] theorem grf_param_write_clk_rate (reg : combphy_reg) (en : Bool) (w : World) :
    ((grf_param_write reg en w).2).clk_rate = w.clk_rate := rfl

@[simp] theorem grf_param_write_clk_enable_ret (reg : combphy_reg) (en : Bool) (w : World) :
    ((grf_param_write reg en w).2).clk_enable_ret = w.clk_enable_ret := rfl

@[simp] theorem grf_param_write_clk_enable_count (reg : combphy_reg) (en : Bool) (w : World) :
    ((grf_param_write reg en w).2).clk_enable_count = w.clk_enable_count := rfl

@[simp] theorem grf_param_write_sched_slack (reg : combphy_reg) (en : Bool) (w : World) :
    ((grf_param_write reg en w).2).sched_slack = w.sched_slack := rfl

@[simp] theorem wait_pll_lock_grf (priv : rockchip_combphy_priv) (w : World) :
    ((wait_pll_lock priv w).2).grf = w.grf := by
  obtain ⟨t, _, _, h3⟩ := wait_pll_lock_spec priv w
  rw [h3]; rfl

@[simp] theorem wait_pll_lock_grf_hw (priv : rockchip_combphy_priv) (w : World) :
    ((wait_pll_lock priv w).2).grf_hw = w.grf_hw := by
  obtain ⟨t, _, _, h3⟩ := wait_pll_lock_spec priv w
  rw [h3]; rfl

@[simp] theorem wait_pll_lock_mmio (priv : rockchip_combphy_priv) (w : World) :
    ((wait_pll_lock priv w).2).mmio = w.mmio := by
  obtain ⟨t, _, _, h3⟩ := wait_pll_lock_spec priv w
  rw [h3]; rfl

@[simp] theorem wait_pll_lock_rst_asserted (priv : rockchip_combphy_priv) (w : World) :
    ((wait_pll_lock priv w).2).rst_asserted = w.rst_asserted := by
  obtain ⟨t, _, _, h3⟩ := wait_pll_lock_spec priv w
  rw [h3]; rfl

@[simp] theorem wait_pll_lock_clk_rate (priv : rockchip_combphy_priv) (w : World) :
    ((wait_pll_lock priv w).2).clk_rate = w.clk_rate := by
  obtain ⟨t, _, _, h3⟩ := wait_pll_lock_spec priv w
  rw [h3]; rfl

@[simp] theorem wait_pll_lock_clk_enable_ret (priv : rockchip_combphy_priv) (w : World) :
    ((wait_pll_lock priv w).2).clk_enable_ret = w.clk_enable_ret := by
  obtain ⟨t, _, _, h3⟩ := wait_pll_lock_spec priv w
  rw [h3]; rfl

@[simp] theorem wait_pll_lock_clk_enable_count (priv : rockchip_combphy_priv) (w : World) :
    ((wait_pll_lock priv w).2).clk_enable_count = w.clk_enable_count := by
  obtain ⟨t, _, _, h3⟩ := wait_pll_lock_spec priv w
  rw [h3]; rfl

@[simp] theorem wait_pll_lock_sched_slack (priv : rockchip_combphy_priv) (w : World) :
    ((wait_pll_lock priv w).2).sched_slack = w.sched_slack := by
  obtain ⟨t, _, _, h3⟩ := wait_pll_lock_spec priv w
  rw [h3]; rfl

@[simp] theorem wait_is_ready_grf (priv : rockchip_combphy_priv) (w : World) :
    ((wait_is_ready priv w).2).grf = w.grf := by
  obtain ⟨t, _, _, h3⟩ := wait_is_ready_spec priv w
  rw [h3]; rfl

@[simp] theorem wait_is_ready_grf_hw (priv : rockchip_combphy_priv) (w : World) :
    ((wait_is_ready priv w).2).grf_hw = w.grf_hw := by
  obtain ⟨t, _, _, h3⟩ := wait_is_ready_spec priv w
  rw [h3]; rfl

@[simp] theorem wait_is_ready_mmio (priv : rockchip_combphy_priv) (w : World) :
    ((wait_is_ready priv w).2).mmio = w.mmio := by
  obtain ⟨t, _, _, h3⟩ := wait_is_ready_spec priv w
  rw [h3]; rfl

@[simp] theorem wait_is_ready_rst_asserted (priv : rockchip_combphy_priv) (w : World) :
    ((wait_is_ready priv w).2).rst_asserted = w.rst_asserted := by
  obtain ⟨t, _, _, h3⟩ := wait_is_ready_spec priv w
  rw [h3]; rfl

@[simp] theorem wait_is_ready_clk_rate (priv : rockchip_combphy_priv) (w : World) :
    ((wait_is_ready priv w).2).clk_rate = w.clk_rate := by
  obtain ⟨t, _, _, h3⟩ := wait_is_ready_spec priv w
  rw [h3]; rfl

@[simp] theorem wait_is_ready_clk_enable_ret (priv : rockchip_combphy_priv) (w : World) :
    ((wait_is_ready priv w).2).clk_enable_ret = w.clk_enable_ret := by
  obtain ⟨t, _, _, h3⟩ := wait_is_ready_spec priv w
  rw [h3]; rfl

@[simp] theorem wait_is_ready_clk_enable_count (priv : rockchip_combphy_priv) (w : World) :
    ((wait_is_ready priv w).2).clk_enable_count = w.clk_enable_count := by
  obtain ⟨t, _, _, h3⟩ := wait_is_ready_spec priv w
  rw [h3]; rfl

@[simp] theorem wait_is_ready_sched_slack (priv : rockchip_combphy_priv) (w : World) :
    ((wait_is_ready priv w).2).sched_slack = w.sched_slack := by
  obtain ⟨t, _, _, h3⟩ := wait_is_ready_spec priv w
  rw [h3]; rfl

@[simp] theorem clk_prepare_enable_now (w : World) :
    ((clk_prepare_enable w).2).now = w.now := by
  unfold clk_prepare_enable; split <;> rfl

@[simp] theorem clk_prepare_enable_grf (w : World) :
    ((clk_prepare_enable w).2).grf = w.grf := by
  unfold clk_prepare_enable; split <;> rfl

@[simp] theorem clk_prepare_enable_grf_hw (w : World) :
    ((clk_prepare_enable w).2).grf_hw = w.grf_hw := by
  unfold clk_prepare_enable; split <;> rfl

@[simp] theorem clk_prepare_enable_mmio (w : World) :
    ((clk_prepare_enable w).2).mmio = w.mmio := by
  unfold clk_prepare_enable; split <;> rfl

@[simp] theorem clk_prepare_enable_rst_asserted (w : World) :
    ((clk_prepare_enable w).2).rst_asserted = w.rst_asserted := by
  unfold clk_prepare_enable; split <;> rfl

@[simp] theorem clk_prepare_enable_clk_rate (w : World) :
    ((clk_prepare_enable w).2).clk_rate = w.clk_rate := by
  unfold clk_prepare_enable; split <;> rfl

@[simp] theorem clk_prepare_enable_clk_enable_ret (w : World) :
    ((clk_prepare_enable w).2).clk_enable_ret = w.clk_enable_ret := by
  unfold clk_prepare_enable; split <;> rfl

@[simp] theorem clk_prepare_enable_sched_slack (w : World) :
    ((clk_prepare_enable w).2).sched_slack = w.sched_slack := by
  unfold clk_prepare_enable; split <;> rfl

@[simp] theorem clk_disable_unprepare_now (w : World) :
    (clk_disable_unprepare w).now = w.now := rfl

@[simp] theorem clk_disable_unprepare_grf (w : World) :
    (clk_disable_unprepare w).grf = w.grf := rfl

@[simp] theorem clk_disable_unprepare_grf_hw (w : World) :
    (clk_disable_unprepare w).grf_hw = w.grf_hw := rfl

@[simp] theorem clk_disable_unprepare_mmio (w : World) :
    (clk_disable_unprepare w).mmio = w.mmio := rfl

@[simp] theorem clk_disable_unprepare_rst_asserted (w : World) :
    (clk_disable_unprepare w).rst_asserted = w.rst_asserted := rfl

@[simp] theorem clk_disable_unprepare_clk_rate (w : World) :
    (clk_disable_unprepare w).clk_rate = w.clk_rate := rfl

@[simp] theorem clk_disable_unprepare_clk_enable_ret (w : World) :
    (clk_disable_unprepare w).clk_enable_ret = w.clk_enable_ret := rfl

@[simp] theorem clk_disable_unprepare_sched_slack (w : World) :
    (clk_disable_unprepare w).sched_slack = w.sched_slack := rfl


/-- State of a reset line after `reset_control_assert`: asserted if it is the
addressed line and that line is present, unchanged otherwise. -/
theorem reset_control_assert_line (priv : rockchip_combphy_priv) (l k : Nat) (w : World) :
    (reset_control_assert priv l w).rst_asserted k
      = if k = l ∧ priv.rsts l = true then true else w.rst_asserted k := by
  unfold reset_control_assert
  by_cases hp : priv.rsts l = true <;> by_cases hk : k = l <;> simp [hp, hk, log]

/-- State of a reset line after `reset_control_deassert`: deasserted if it is
the addressed line and that line is present, unchanged otherwise. -/
theorem reset_control_deassert_line (priv : rockchip_combphy_priv) (l k : Nat) (w : World) :
    (reset_control_deassert priv l w).rst_asserted k
      = if k = l ∧ priv.rsts l = true then false else w.rst_asserted k := by
  unfold reset_control_deassert
  by_cases hp : priv.rsts l = true <;> by_cases hk : k = l <;> simp [hp, hk, log]

/-- The clock enable count after `clk_prepare_enable`. -/
theorem clk_prepare_enable_count (w : World) :
    (clk_prepare_enable w).2.clk_enable_count
      = if w.clk_enable_ret = 0 then w.clk_enable_count + 1 else w.clk_enable_count := by
  unfold clk_prepare_enable
  by_cases hc : w.clk_enable_ret = 0 <;> simp [hc, log]

/-- The result of `clk_prepare_enable` is the result the clock gives. -/
theorem clk_prepare_enable_ret (w : World) :
    (clk_prepare_enable w).1 = w.clk_enable_ret := by
  unfold clk_prepare_enable
  by_cases hc : w.clk_enable_ret = 0 <;> simp [hc]

/-- A run of bitfield writes touches only the GRF and the trace. -/
theorem param_writes_frame (regs : List combphy_reg) :
    ∀ w : World,
      (param_writes regs w).mmio = w.mmio ∧
      (param_writes regs w).rst_asserted = w.rst_asserted ∧
      (param_writes regs w).clk_rate = w.clk_rate ∧
      (param_writes regs w).clk_enable_ret = w.clk_enable_ret ∧
      (param_writes regs w).clk_enable_count = w.clk_enable_count ∧
      (param_writes regs w).sched_slack = w.sched_slack := by
  induction regs with
  | nil => intro w; exact ⟨rfl, rfl, rfl, rfl, rfl, rfl⟩
  | cons reg regs ih =>
    intro w
    exact ih (grf_param_write reg true w).2


@[simp] theorem u3_param_writes_mmio (g : rockchip_combphy_grfcfg) (w : World) :
    (u3_param_writes g w).mmio = w.mmio :=
  (param_writes_frame (u3_write_fields g) w).1

@[simp] theorem u3_param_writes_rst_asserted (g : rockchip_combphy_grfcfg) (w : World) :
    (u3_param_writes g w).rst_asserted = w.rst_asserted :=
  (param_writes_frame (u3_write_fields g) w).2.1

@[simp] theorem u3_param_writes_clk_rate (g : rockchip_combphy_grfcfg) (w : World) :
    (u3_param_writes g w).clk_rate = w.clk_rate :=
  (param_writes_frame (u3_write_fields g) w).2.2.1

@[simp] theorem u3_param_writes_clk_enable_ret (g : rockchip_combphy_grfcfg) (w : World) :
    (u3_param_writes g w).clk_enable_ret = w.clk_enable_ret :=
  (param_writes_frame (u3_write_fields g) w).2.2.2.1

@[simp] theorem u3_param_writes_clk_enable_count (g : rockchip_combphy_grfcfg) (w : World) :
    (u3_param_writes g w).clk_enable_count = w.clk_enable_count :=
  (param_writes_frame (u3_write_fields g) w).2.2.2.2.1

@[simp] theorem u3_param_writes_sched_slack (g : rockchip_combphy_grfcfg) (w : World) :
    (u3_param_writes g w).sched_slack = w.sched_slack :=
  (param_writes_frame (u3_write_fields g) w).2.2.2.2.2

@[simp] theorem u3_param_writes_now (g : rockchip_combphy_grfcfg) (w : World) :
    (u3_param_writes g w).now = w.now := by
  obtain ⟨_, _, _, hn, _⟩ := param_writes_spec (u3_write_fields g) w
  exact hn

@[simp] theorem u3_param_writes_grf_hw (g : rockchip_combphy_grfcfg) (w : World) :
    (u3_param_writes g w).grf_hw = w.grf_hw := by
  obtain ⟨_, _, _, _, hh⟩ := param_writes_spec (u3_write_fields g) w
  exact hh

/-! ### C12: exit -/

/-- PCIe bring-up changes neither the clock enable count nor the controller
reset. -/
theorem phy_pcie_init_frame (priv : rockchip_combphy_priv) (w : World) :
    (phy_pcie_init priv w).2.clk_enable_count = w.clk_enable_count ∧
    (phy_pcie_init priv w).2.rst_asserted OTG_RSTN = w.rst_asserted OTG_RSTN := by
  unfold phy_pcie_init
  simp only []
  split_ifs <;>
    simp [reset_control_deassert_line, OTG_RSTN, PHY_POR_RSTN, PHY_APB_RSTN, PHY_PIPE_RSTN]

/-- USB3 bring-up does not change the clock enable count, and a failing run
leaves a present controller reset asserted. -/
theorem phy_u3_init_frame (priv : rockchip_combphy_priv) (w : World) :
    (phy_u3_init priv w).2.clk_enable_count = w.clk_enable_count ∧
    ((phy_u3_init priv w).1 ≠ 0 → priv.rsts OTG_RSTN = true →
      (phy_u3_init priv w).2.rst_asserted OTG_RSTN = true) := by
  unfold phy_u3_init
  simp only []
  split_ifs with h1 h2 h3
  · refine ⟨by simp, ?_⟩
    intro _ hp
    simp [reset_control_deassert_line, reset_control_assert_line, OTG_RSTN, PHY_POR_RSTN,
      PHY_APB_RSTN, PHY_PIPE_RSTN] at hp ⊢
    exact Or.inl hp
  · refine ⟨by simp, ?_⟩
    intro _ hp
    simp [reset_control_deassert_line, reset_control_assert_line, OTG_RSTN, PHY_POR_RSTN,
      PHY_APB_RSTN, PHY_PIPE_RSTN] at hp ⊢
    exact Or.inl hp
  · refine ⟨by simp, ?_⟩
    intro _ hp
    simp [reset_control_deassert_line, reset_control_assert_line, OTG_RSTN, PHY_POR_RSTN,
      PHY_APB_RSTN, PHY_PIPE_RSTN] at hp ⊢
    exact Or.inl hp
  · refine ⟨by simp, ?_⟩
    intro hne
    exact absurd (by simpa using h3) hne

/-- Bring-up as dispatched by `rockchip_combphy_set_phy_type` does not change
the clock enable count; it leaves the controller reset as it was unless the
type is USB3, and a failing USB3 run leaves a present controller reset
asserted. -/
theorem set_phy_type_frame (priv : rockchip_combphy_priv) (w : World) :
    (rockchip_combphy_set_phy_type priv w).2.clk_enable_count = w.clk_enable_count ∧
    (priv.phy_type ≠ PHY_TYPE_USB3 →
      (rockchip_combphy_set_phy_type priv w).2.rst_asserted OTG_RSTN
        = w.rst_asserted OTG_RSTN) ∧
    (priv.phy_type = PHY_TYPE_USB3 → (rockchip_combphy_set_phy_type priv w).1 ≠ 0 →
      priv.rsts OTG_RSTN = true →
      (rockchip_combphy_set_phy_type priv w).2.rst_asserted OTG_RSTN = true) := by
  unfold rockchip_combphy_set_phy_type
  by_cases hp : priv.phy_type = PHY_TYPE_PCIE
  · rw [if_pos hp]
    refine ⟨(phy_pcie_init_frame priv w).1, fun _ => (phy_pcie_init_frame priv w).2, ?_⟩
    intro hu
    rw [hp] at hu
    exact absurd hu (by decide)
  · rw [if_neg hp]
    by_cases hu : priv.phy_type = PHY_TYPE_USB3
    · rw [if_pos hu]
      exact ⟨(phy_u3_init_frame priv w).1, fun h => absurd hu h,
        fun _ => (phy_u3_init_frame priv w).2⟩
    · rw [if_neg hu]
      exact ⟨rfl, fun _ => rfl, fun h => absurd h hu⟩

/-- Effect of `rockchip_combphy_exit` in any state: it returns `0`, asserts the
three PHY resets that are present, leaves the controller reset as it was and
drops one clock enable. -/
theorem exit_effect (priv : rockchip_combphy_priv) (w : World) :
    (rockchip_combphy_exit priv w).1 = 0 ∧
    (∀ l, l = PHY_POR_RSTN ∨ l = PHY_APB_RSTN ∨ l = PHY_PIPE_RSTN →
      priv.rsts l = true → (rockchip_combphy_exit priv w).2.rst_asserted l = true) ∧
    (rockchip_combphy_exit priv w).2.rst_asserted OTG_RSTN = w.rst_asserted OTG_RSTN ∧
    (rockchip_combphy_exit priv w).2.clk_enable_count = w.clk_enable_count - 1 := by
  refine ⟨rfl, ?_, ?_, ?_⟩
  · intro l hl hp
    simp only [rockchip_combphy_exit, clk_disable_unprepare_rst_asserted,
      reset_control_assert_line]
    rcases hl with rfl | rfl | rfl <;>
      simp [hp, PHY_POR_RSTN, PHY_APB_RSTN, PHY_PIPE_RSTN] <;> exact Or.inl hp
  · simp [rockchip_combphy_exit, reset_control_assert_line, OTG_RSTN, PHY_POR_RSTN,
      PHY_APB_RSTN, PHY_PIPE_RSTN]
  · simp [rockchip_combphy_exit, clk_disable_unprepare, log]

/-- Construction touches neither the clock nor the controller reset. -/
theorem probe_frame (phy_cfg : rockchip_combphy_cfg) (rsts : Nat → Bool) (w : World) :
    (rockchip_combphy_probe phy_cfg rsts w).2.clk_enable_count = w.clk_enable_count ∧
    (rockchip_combphy_probe phy_cfg rsts w).2.clk_enable_ret = w.clk_enable_ret ∧
    (rockchip_combphy_probe phy_cfg rsts w).2.rst_asserted OTG_RSTN
      = w.rst_asserted OTG_RSTN := by
  simp [rockchip_combphy_probe, reset_control_assert_line, OTG_RSTN, PHY_POR_RSTN,
    PHY_APB_RSTN, PHY_PIPE_RSTN]

/-- What `rockchip_combphy_init` does to the clock enable count and to the
controller reset. -/
theorem init_frame (priv : rockchip_combphy_priv) (w : World) :
    (rockchip_combphy_init priv w).2.clk_enable_count
      = (if w.clk_enable_ret = 0 then w.clk_enable_count + 1 else w.clk_enable_count) ∧
    (priv.phy_type ≠ PHY_TYPE_USB3 →
      (rockchip_combphy_init priv w).2.rst_asserted OTG_RSTN = w.rst_asserted OTG_RSTN) ∧
    (priv.phy_type = PHY_TYPE_USB3 → w.clk_enable_ret = 0 →
      (rockchip_combphy_init priv w).1 ≠ 0 → priv.rsts OTG_RSTN = true →
      (rockchip_combphy_init priv w).2.rst_asserted OTG_RSTN = true) := by
  by_cases hc : w.clk_enable_ret = 0
  · obtain ⟨e1, e2⟩ := init_eq_set_phy_type priv w hc
    obtain ⟨f1, f2, f3⟩ := set_phy_type_frame priv (clk_prepare_enable w).2
    rw [e1, e2, if_pos hc]
    refine ⟨?_, ?_, ?_⟩
    · rw [f1, clk_prepare_enable_count, if_pos hc]
    · intro hu
      rw [f2 hu]; simp
    · intro hu _ hne hp
      exact f3 hu hne hp
  · have e : rockchip_combphy_init priv w = clk_prepare_enable w := by
      unfold rockchip_combphy_init
      simp [clk_prepare_enable_ret, hc]
    rw [e, if_neg hc]
    refine ⟨?_, ?_, ?_⟩
    · rw [clk_prepare_enable_count, if_neg hc]
    · intro _; simp
    · intro _ h; exact absurd h hc

/-- C12, as stated, fails: on the simulated board whose reset lines are all
deasserted before the driver binds, with all four reset handles present, `exit`
called directly after construction returns `0` but leaves the controller reset
deasserted: `rockchip_combphy_exit` asserts the three PHY resets only. -/
theorem exit_leaves_controller_reset_counterexample :
    (rockchip_combphy_probe rk1808_combphy_cfgs (fun _ => true) sim_world_released).1.rsts
        OTG_RSTN = true ∧
    (rockchip_combphy_exit
        (rockchip_combphy_probe rk1808_combphy_cfgs (fun _ => true) sim_world_released).1
        (rockchip_combphy_probe rk1808_combphy_cfgs (fun _ => true) sim_world_released).2).1
      = 0 ∧
    (rockchip_combphy_exit
        (rockchip_combphy_probe rk1808_combphy_cfgs (fun _ => true) sim_world_released).1
        (rockchip_combphy_probe rk1808_combphy_cfgs (fun _ => true)
          sim_world_released).2).2.rst_asserted OTG_RSTN = false := by
  refine ⟨by decide, by decide, by decide⟩

/-- C12, amended: `rockchip_combphy_exit` returns `0` in every state; and for an
instance constructed on hardware whose reference clock is not enabled, when
`exit` is called directly after construction, or after an `init` that failed
(whatever the recorded type and the failing step), then afterwards every
present reset line among power-on-reset, register-bus-reset and data-path-reset
is asserted and the reference clock is disabled. `exit` does not touch the
controller reset: it is asserted afterwards when the failed `init` was a USB3
bring-up (which asserts it first and deasserts it on success only), and is as it
was before construction when `exit` follows construction directly or a failed
`init` of another type. -/
theorem exit_tears_down (phy_cfg : rockchip_combphy_cfg) (rsts : Nat → Bool) (w0 : World)
    (t : Nat) (h0 : w0.clk_enable_count = 0) :
    (∀ (priv : rockchip_combphy_priv) (w : World), (rockchip_combphy_exit priv w).1 = 0) ∧
    (phy_torn_down (rockchip_combphy_probe phy_cfg rsts w0).1
        (rockchip_combphy_exit (rockchip_combphy_probe phy_cfg rsts w0).1
          (rockchip_combphy_probe phy_cfg rsts w0).2).2 ∧
      (rockchip_combphy_exit (rockchip_combphy_probe phy_cfg rsts w0).1
          (rockchip_combphy_probe phy_cfg rsts w0).2).2.rst_asserted OTG_RSTN
        = w0.rst_asserted OTG_RSTN) ∧
    ((rockchip_combphy_init { (rockchip_combphy_probe phy_cfg rsts w0).1 with phy_type := t }
        (rockchip_combphy_probe phy_cfg rsts w0).2).1 ≠ 0 →
      phy_torn_down { (rockchip_combphy_probe phy_cfg rsts w0).1 with phy_type := t }
        (rockchip_combphy_exit
          { (rockchip_combphy_probe phy_cfg rsts w0).1 with phy_type := t }
          (rockchip_combphy_init
            { (rockchip_combphy_probe phy_cfg rsts w0).1 with phy_type := t }
            (rockchip_combphy_probe phy_cfg rsts w0).2).2).2 ∧
      (t = PHY_TYPE_USB3 → w0.clk_enable_ret = 0 → rsts OTG_RSTN = true →
        (rockchip_combphy_exit
          { (rockchip_combphy_probe phy_cfg rsts w0).1 with phy_type := t }
          (rockchip_combphy_init
            { (rockchip_combphy_probe phy_cfg rsts w0).1 with phy_type := t }
            (rockchip_combphy_probe phy_cfg rsts w0).2).2).2.rst_asserted OTG_RSTN = true) ∧
      (t ≠ PHY_TYPE_USB3 →
        (rockchip_combphy_exit
          { (rockchip_combphy_probe phy_cfg rsts w0).1 with phy_type := t }
          (rockchip_combphy_init
            { (rockchip_combphy_probe phy_cfg rsts w0).1 with phy_type := t }
            (rockchip_combphy_probe phy_cfg rsts w0).2).2).2.rst_asserted OTG_RSTN
          = w0.rst_asserted OTG_RSTN)) := by
  obtain ⟨pc, pr, po⟩ := probe_frame phy_cfg rsts w0
  refine ⟨fun priv w => (exit_effect priv w).1, ?_, ?_⟩
  · obtain ⟨_, e2, e3, e4⟩ := exit_effect (rockchip_combphy_probe phy_cfg rsts w0).1
      (rockchip_combphy_probe phy_cfg rsts w0).2
    refine ⟨⟨e2, ?_⟩, ?_⟩
    · rw [e4, pc, h0]
    · rw [e3, po]
  · intro hfail
    generalize hp : ({ (rockchip_combphy_probe phy_cfg rsts w0).1 with phy_type := t } :
      rockchip_combphy_priv) = priv at hfail ⊢
    have hty : priv.phy_type = t := by rw [← hp]
    have hrs : priv.rsts = rsts := by rw [← hp]; rfl
    obtain ⟨i1, i2, i3⟩ := init_frame priv (rockchip_combphy_probe phy_cfg rsts w0).2
    obtain ⟨_, e2, e3, e4⟩ := exit_effect priv
      (rockchip_combphy_init priv (rockchip_combphy_probe phy_cfg rsts w0).2).2
    refine ⟨⟨e2, ?_⟩, ?_, ?_⟩
    · rw [e4, i1, pc, h0]
      split <;> rfl
    · intro hu hclk hotg
      rw [e3]
      exact i3 (by rw [hty]; exact hu) (by rw [pr]; exact hclk) hfail (by rw [hrs]; exact hotg)
    · intro hu
      rw [e3, i2 (by rw [hty]; exact hu), po]

/-- Witness for `exit_tears_down`: the rk1808 variant with all reset handles on
the simulated board, `exit` directly after construction. -/
theorem exit_tears_down_witness :
    phy_torn_down (rockchip_combphy_probe rk1808_combphy_cfgs (fun _ => true)
        (sim_world 24000000 fun _ => 0)).1
      (rockchip_combphy_exit
        (rockchip_combphy_probe rk1808_combphy_cfgs (fun _ => true)
          (sim_world 24000000 fun _ => 0)).1
        (rockchip_combphy_probe rk1808_combphy_cfgs (fun _ => true)
          (sim_world 24000000 fun _ => 0)).2).2 :=
  (exit_tears_down rk1808_combphy_cfgs (fun _ => true) (sim_world 24000000 fun _ => 0)
    PHY_TYPE_USB3 rfl).2.1.1

/-! ### C13: unsupported reference-clock rate -/

/-- The rk1808 fine-tuning hook on a rate other than 24, 25 and 50 MHz: it
returns `-EINVAL` and hands the PHY window back as it got it. -/
theorem rk1808_combphy_cfg_bad_rate (t rate : Nat) (mmio : mmio_space)
    (h24 : rate ≠ 24000000) (h25 : rate ≠ 25000000) (h50 : rate ≠ 50000000) :
    rk1808_combphy_cfg t rate mmio = (-EINVAL, mmio) := by
  simp [rk1808_combphy_cfg, rk1808_refclk_cfg, h24, h25, h50]

/-- The guarded hook call with the rk1808 hook on an unsupported rate. -/
theorem call_combphy_cfg_bad_rate (priv : rockchip_combphy_priv) (w : World)
    (hk : priv.cfg.combphy_cfg = some rk1808_combphy_cfg)
    (h24 : w.clk_rate ≠ 24000000) (h25 : w.clk_rate ≠ 25000000)
    (h50 : w.clk_rate ≠ 50000000) :
    call_combphy_cfg priv w = (-EINVAL, log (Op.combphy_cfg (-EINVAL)) w) := by
  unfold call_combphy_cfg
  rw [hk]
  simp only [rk1808_combphy_cfg_bad_rate priv.phy_type w.clk_rate w.mmio h24 h25 h50]

/-- PCIe bring-up stops at a failing hook. -/
theorem phy_pcie_init_hook_fail (priv : rockchip_combphy_priv) (w : World)
    (h : (call_combphy_cfg priv (udelay 5 (reset_control_deassert priv PHY_APB_RSTN
      (udelay 5 (reset_control_deassert priv PHY_POR_RSTN w))))).1 ≠ 0) :
    phy_pcie_init priv w = call_combphy_cfg priv (udelay 5
      (reset_control_deassert priv PHY_APB_RSTN
        (udelay 5 (reset_control_deassert priv PHY_POR_RSTN w)))) := by
  unfold phy_pcie_init
  simp only []
  rw [if_pos h]

/-- USB3 bring-up stops at a failing hook. -/
theorem phy_u3_init_hook_fail (priv : rockchip_combphy_priv) (w : World)
    (h : (call_combphy_cfg priv (u3_param_writes priv.cfg.grfcfg
      (udelay 5 (reset_control_deassert priv PHY_APB_RSTN
        (udelay 5 (reset_control_deassert priv PHY_POR_RSTN
          (reset_control_assert priv OTG_RSTN w))))))).1 ≠ 0) :
    phy_u3_init priv w = call_combphy_cfg priv (u3_param_writes priv.cfg.grfcfg
      (udelay 5 (reset_control_deassert priv PHY_APB_RSTN
        (udelay 5 (reset_control_deassert priv PHY_POR_RSTN
          (reset_control_assert priv OTG_RSTN w)))))) := by
  unfold phy_u3_init
  simp only []
  rw [if_pos h]

/-- Bring-up of either type with the rk1808 hook on an unsupported rate:
result, PHY window, data-path reset, and the operations added to the trace. -/
theorem set_phy_type_bad_rate (priv : rockchip_combphy_priv) (w : World)
    (hk : priv.cfg.combphy_cfg = some rk1808_combphy_cfg)
    (ht : priv.phy_type = PHY_TYPE_PCIE ∨ priv.phy_type = PHY_TYPE_USB3)
    (h24 : w.clk_rate ≠ 24000000) (h25 : w.clk_rate ≠ 25000000)
    (h50 : w.clk_rate ≠ 50000000) :
    (rockchip_combphy_set_phy_type priv w).1 = -EINVAL ∧
    (rockchip_combphy_set_phy_type priv w).2.mmio = w.mmio ∧
    (rockchip_combphy_set_phy_type priv w).2.rst_asserted PHY_PIPE_RSTN
      = w.rst_asserted PHY_PIPE_RSTN ∧
    ∃ ops, (rockchip_combphy_set_phy_type priv w).2.trace = w.trace ++ ops ∧
      Op.combphy_cfg (-EINVAL) ∈ ops ∧
      (∀ v r, Op.poll_pll_lock v r ∉ ops) ∧ (∀ v r, Op.poll_is_ready v r ∉ ops) ∧
      Op.reset_deassert PHY_PIPE_RSTN ∉ ops := by
  have hne : (-EINVAL : Int) ≠ 0 := by decide
  rcases ht with ht | ht
  · have e0 : rockchip_combphy_set_phy_type priv w = phy_pcie_init priv w := by
      unfold rockchip_combphy_set_phy_type; rw [if_pos ht]
    have e1 := call_combphy_cfg_bad_rate priv (udelay 5 (reset_control_deassert priv
      PHY_APB_RSTN (udelay 5 (reset_control_deassert priv PHY_POR_RSTN w)))) hk
      (by simpa using h24) (by simpa using h25) (by simpa using h50)
    have e2 := phy_pcie_init_hook_fail priv w (by rw [e1]; exact hne)
    rw [e0, e2, e1]
    refine ⟨rfl, by simp, ?_, ?_⟩
    · simp [reset_control_deassert_line, PHY_POR_RSTN, PHY_APB_RSTN, PHY_PIPE_RSTN]
    · refine ⟨[Op.reset_deassert PHY_POR_RSTN, Op.udelay 5, Op.reset_deassert PHY_APB_RSTN,
        Op.udelay 5, Op.combphy_cfg (-EINVAL)], by simp, by simp, by simp, by simp, ?_⟩
      simp [PHY_POR_RSTN, PHY_APB_RSTN, PHY_PIPE_RSTN]
  · have hnp : ¬ priv.phy_type = PHY_TYPE_PCIE := by rw [ht]; decide
    have e0 : rockchip_combphy_set_phy_type priv w = phy_u3_init priv w := by
      unfold rockchip_combphy_set_phy_type; rw [if_neg hnp, if_pos ht]
    have e1 := call_combphy_cfg_bad_rate priv (u3_param_writes priv.cfg.grfcfg
      (udelay 5 (reset_control_deassert priv PHY_APB_RSTN
        (udelay 5 (reset_control_deassert priv PHY_POR_RSTN
          (reset_control_assert priv OTG_RSTN w)))))) hk
      (by simpa using h24) (by simpa using h25) (by simpa using h50)
    have e2 := phy_u3_init_hook_fail priv w (by rw [e1]; exact hne)
    obtain ⟨rets, _, ht6, _, _⟩ := param_writes_spec (u3_write_fields priv.cfg.grfcfg)
      (udelay 5 (reset_control_deassert priv PHY_APB_RSTN
        (udelay 5 (reset_control_deassert priv PHY_POR_RSTN
          (reset_control_assert priv OTG_RSTN w)))))
    rw [← u3_param_writes_eq] at ht6
    rw [e0, e2, e1]
    refine ⟨rfl, by simp, ?_, ?_⟩
    · simp [reset_control_deassert_line, reset_control_assert_line, OTG_RSTN, PHY_POR_RSTN,
        PHY_APB_RSTN, PHY_PIPE_RSTN]
    · have nw1 : ∀ v r, Op.poll_pll_lock v r ∉
          write_ops (u3_write_fields priv.cfg.grfcfg) rets :=
        fun v r => not_mem_write_ops _ _ _ (by intro reg ret; simp)
      have nw2 : ∀ v r, Op.poll_is_ready v r ∉
          write_ops (u3_write_fields priv.cfg.grfcfg) rets :=
        fun v r => not_mem_write_ops _ _ _ (by intro reg ret; simp)
      have nw3 : Op.reset_deassert 3 ∉
          write_ops (u3_write_fields priv.cfg.grfcfg) rets :=
        not_mem_write_ops _ _ _ (by intro reg ret; simp)
      refine ⟨[Op.reset_assert OTG_RSTN, Op.reset_deassert PHY_POR_RSTN, Op.udelay 5,
        Op.reset_deassert PHY_APB_RSTN, Op.udelay 5]
        ++ write_ops (u3_write_fields priv.cfg.grfcfg) rets ++ [Op.combphy_cfg (-EINVAL)],
        by simp [ht6], by simp, ?_, ?_, ?_⟩
      · intro v r; simp [nw1]
      · intro v r; simp [nw2]
      · simp [nw3, PHY_POR_RSTN, PHY_APB_RSTN, PHY_PIPE_RSTN]

/-- C13: for every reference-clock rate other than 24 MHz, 25 MHz and 50 MHz
and for both protocol types, `rk1808_combphy_cfg` returns `-EINVAL` with the PHY
window exactly as it was (no `writel`, no `readl`); and `init` on the rk1808
hook with the clock enabled returns that same `-EINVAL`, with the hook entry in
its trace but no PLL-lock poll, no lane-ready poll and no data-path-reset
deassert, the data-path reset line and the PHY window being as before. -/
theorem unsupported_rate_fails (rate t : Nat)
    (h24 : rate ≠ 24000000) (h25 : rate ≠ 25000000) (h50 : rate ≠ 50000000)
    (ht : t = PHY_TYPE_PCIE ∨ t = PHY_TYPE_USB3) :
    (∀ mmio : mmio_space,
      (rk1808_combphy_cfg t rate mmio).1 = -EINVAL ∧
      (rk1808_combphy_cfg t rate mmio).2.writes = mmio.writes ∧
      (rk1808_combphy_cfg t rate mmio).2.reads = mmio.reads ∧
      (rk1808_combphy_cfg t rate mmio).2.regs = mmio.regs) ∧
    ∀ (priv : rockchip_combphy_priv) (w : World),
      priv.cfg.combphy_cfg = some rk1808_combphy_cfg → priv.phy_type = t →
      w.clk_rate = rate → w.clk_enable_ret = 0 →
      (rockchip_combphy_init priv w).1 = (rk1808_combphy_cfg t rate w.mmio).1 ∧
      (rockchip_combphy_init priv w).2.mmio = w.mmio ∧
      (rockchip_combphy_init priv w).2.rst_asserted PHY_PIPE_RSTN
        = w.rst_asserted PHY_PIPE_RSTN ∧
      ∃ ops, (rockchip_combphy_init priv w).2.trace = w.trace ++ ops ∧
        Op.combphy_cfg (-EINVAL) ∈ ops ∧
        (∀ v r, Op.poll_pll_lock v r ∉ ops) ∧ (∀ v r, Op.poll_is_ready v r ∉ ops) ∧
        Op.reset_deassert PHY_PIPE_RSTN ∉ ops := by
  constructor
  · intro mmio
    rw [rk1808_combphy_cfg_bad_rate t rate mmio h24 h25 h50]
    exact ⟨rfl, rfl, rfl, rfl⟩
  · intro priv w hk hty hrate hclk
    obtain ⟨e1, e2⟩ := init_eq_set_phy_type priv w hclk
    obtain ⟨s1, s2, s3, ops, s4, s5, s6, s7, s8⟩ := set_phy_type_bad_rate priv
      (clk_prepare_enable w).2 hk (by rw [hty]; exact ht)
      (by simpa [hrate] using h24) (by simpa [hrate] using h25) (by simpa [hrate] using h50)
    rw [e1, e2, rk1808_combphy_cfg_bad_rate t rate w.mmio h24 h25 h50]
    refine ⟨s1, by rw [s2]; simp, by rw [s3]; simp, ?_⟩
    refine ⟨Op.clk_prepare_enable 0 :: ops, ?_, ?_, ?_, ?_, ?_⟩
    · rw [s4, clk_prepare_enable_trace, hclk]; simp
    · exact List.mem_cons_of_mem _ s5
    · intro v r; simp [s6]
    · intro v r; simp [s7]
    · simp [s8]

/-- Witness for `unsupported_rate_fails`: 13 MHz and USB3. -/
theorem unsupported_rate_fails_witness :
    (rk1808_combphy_cfg PHY_TYPE_USB3 13000000 ⟨fun _ => 0, [], []⟩).1 = -EINVAL ∧
    (rockchip_combphy_init ⟨PHY_TYPE_USB3, fun _ => true, rk1808_combphy_cfgs⟩
        (sim_world 13000000 fun _ => 0x4000)).1
      = (rk1808_combphy_cfg PHY_TYPE_USB3 13000000 (sim_world 13000000 fun _ => 0x4000).mmio).1 :=
  ⟨((unsupported_rate_fails 13000000 PHY_TYPE_USB3 (by decide) (by decide) (by decide)
      (Or.inr rfl)).1 ⟨fun _ => 0, [], []⟩).1,
   ((unsupported_rate_fails 13000000 PHY_TYPE_USB3 (by decide) (by decide) (by decide)
      (Or.inr rfl)).2 ⟨PHY_TYPE_USB3, fun _ => true, rk1808_combphy_cfgs⟩
      (sim_world 13000000 fun _ => 0x4000) rfl rfl rfl rfl).1⟩

/-! ### C14: the result of init -/

/-- Two delays in a row are one delay. -/
theorem advance_advance (a b : Nat) (w : World) :
    advance a (advance b w) = advance (b + a) w := by
  simp [advance, Nat.add_assoc]

/-- The poll loop with the driver's parameters, started `10 * k` us into the
poll with exactly the fuel left for the reads `k, ..., 101`: it stops at the
first of these reads that meets the condition, else at the read at 1010 us. -/
theorem poll_loop_eq_find_aux (op : World → Nat) (cond : Nat → Bool) (w : World) :
    ∀ (f k : Nat), k + f = 102 → 1 ≤ f →
      poll_loop op cond 10 1000 (w.now + 1000) f (advance (10 * k) w)
        = ((List.range' k f).find? fun j => cond (op (advance (10 * j) w))).elim
            (op (advance 1010 w), advance 1010 w)
            (fun j => (op (advance (10 * j) w), advance (10 * j) w)) := by
  intro f
  induction f with
  | zero => intro k _ h; omega
  | succ n ih =>
    intro k hk _
    have unfold_succ : ∀ (m : Nat) (v : World), poll_loop op cond 10 1000 (w.now + 1000) (m + 1) v
        = if cond (op v) then (op v, v)
          else if 1000 ≠ 0 ∧ v.now > w.now + 1000 then (op v, v)
          else poll_loop op cond 10 1000 (w.now + 1000) m (if 10 ≠ 0 then advance 10 v else v) :=
      fun _ _ => rfl
    rw [unfold_succ, List.range'_succ]
    by_cases hc : cond (op (advance (10 * k) w)) = true
    · rw [if_pos hc, List.find?_cons_of_pos (p := fun j => cond (op (advance (10 * j) w)))
        (a := k) _ hc]
      rfl
    · rw [if_neg hc, List.find?_cons_of_neg (p := fun j => cond (op (advance (10 * j) w)))
        (a := k) _ hc]
      have hnow : (advance (10 * k) w).now = w.now + 10 * k := rfl
      by_cases hn : n = 0
      · subst hn
        have hk101 : k = 101 := by omega
        subst hk101
        rw [if_pos ⟨by decide, by rw [hnow]; omega⟩]
        rfl
      · rw [if_neg (by rw [hnow]; intro h; omega), if_pos (by decide)]
        rw [advance_advance, show 10 * k + 10 = 10 * (k + 1) by omega]
        exact ih (k + 1) (by omega) (by omega)

/-- The poll loop with the driver's parameters and fuel is the search for the
first read, among those at `0, 10, ..., 1010` us, that meets the condition. -/
theorem poll_loop_eq_find (op : World → Nat) (cond : Nat → Bool) (w : World) :
    poll_loop op cond 10 1000 (w.now + 1000) (1000 / 10 + 2) w
      = ((List.range 102).find? fun j => cond (op (advance (10 * j) w))).elim
          (op (advance 1010 w), advance 1010 w)
          (fun j => (op (advance (10 * j) w), advance (10 * j) w)) := by
  have h := poll_loop_eq_find_aux op cond w 102 0 (by omega) (by omega)
  rw [List.range_eq_range']
  exact h

/-- The PLL-lock poll started in `w0`, in terms of what the hardware shows:
it times out when none of its reads shows the expected value, and otherwise
returns `0` at the time of the first read that does. -/
theorem wait_pll_lock_hit (priv : rockchip_combphy_priv) (w0 wg : World)
    (hg : w0.grf = wg.grf) (hh : w0.grf_hw = wg.grf_hw) :
    (first_hit (fun t => rockchip_combphy_pll_lock priv { wg with now := t })
        priv.cfg.grfcfg.pipe_pll_lock.enable w0.now = none →
      (wait_pll_lock priv w0).1 = -ETIMEDOUT) ∧
    (∀ k, first_hit (fun t => rockchip_combphy_pll_lock priv { wg with now := t })
        priv.cfg.grfcfg.pipe_pll_lock.enable w0.now = some k →
      (wait_pll_lock priv w0).1 = 0 ∧ (wait_pll_lock priv w0).2.now = w0.now + 10 * k) := by
  have hp : (fun j => rockchip_combphy_pll_lock priv (advance (10 * j) w0)
        == priv.cfg.grfcfg.pipe_pll_lock.enable)
      = (fun k => (fun t => rockchip_combphy_pll_lock priv { wg with now := t })
          (w0.now + 10 * k) == priv.cfg.grfcfg.pipe_pll_lock.enable) := by
    funext j
    rw [pll_lock_congr priv (advance (10 * j) w0) { wg with now := w0.now + 10 * j } rfl hg hh]
  have hl := poll_loop_eq_find (rockchip_combphy_pll_lock priv)
    (fun val => val == priv.cfg.grfcfg.pipe_pll_lock.enable) w0
  simp only [hp] at hl
  constructor
  · intro hnone
    unfold first_hit at hnone
    rw [hnone] at hl
    have hc0 := (List.find?_eq_none.mp hnone) 101 (by simp)
    have hc := (congrFun hp 101) ▸ hc0
    simp only [Option.elim] at hl
    simp only [wait_pll_lock, readx_poll_timeout_atomic, hl]
    have e1010 : advance (10 * 101) w0 = advance 1010 w0 := rfl
    rw [e1010] at hc
    rw [if_neg hc]
  · intro k hsome
    unfold first_hit at hsome
    rw [hsome] at hl
    have hc0 := List.find?_some hsome
    have hc := (congrFun hp k) ▸ hc0
    simp only [Option.elim] at hl
    simp only [wait_pll_lock, readx_poll_timeout_atomic, hl]
    rw [if_pos hc]
    exact ⟨rfl, rfl⟩

/-- The lane-ready poll started in `w0`, in terms of what the hardware shows,
as `wait_pll_lock_hit`. -/
theorem wait_is_ready_hit (priv : rockchip_combphy_priv) (w0 wg : World)
    (hg : w0.grf = wg.grf) (hh : w0.grf_hw = wg.grf_hw) :
    (first_hit (fun t => rockchip_combphy_is_ready priv { wg with now := t })
        priv.cfg.grfcfg.pipe_status_l0.enable w0.now = none →
      (wait_is_ready priv w0).1 = -ETIMEDOUT) ∧
    (∀ k, first_hit (fun t => rockchip_combphy_is_ready priv { wg with now := t })
        priv.cfg.grfcfg.pipe_status_l0.enable w0.now = some k →
      (wait_is_ready priv w0).1 = 0 ∧ (wait_is_ready priv w0).2.now = w0.now + 10 * k) := by
  have hp : (fun j => rockchip_combphy_is_ready priv (advance (10 * j) w0)
        == priv.cfg.grfcfg.pipe_status_l0.enable)
      = (fun k => (fun t => rockchip_combphy_is_ready priv { wg with now := t })
          (w0.now + 10 * k) == priv.cfg.grfcfg.pipe_status_l0.enable) := by
    funext j
    rw [is_ready_congr priv (advance (10 * j) w0) { wg with now := w0.now + 10 * j } rfl hg hh]
  have hl := poll_loop_eq_find (rockchip_combphy_is_ready priv)
    (fun val => val == priv.cfg.grfcfg.pipe_status_l0.enable) w0
  simp only [hp] at hl
  constructor
  · intro hnone
    unfold first_hit at hnone
    rw [hnone] at hl
    have hc0 := (List.find?_eq_none.mp hnone) 101 (by simp)
    have hc := (congrFun hp 101) ▸ hc0
    simp only [Option.elim] at hl
    simp only [wait_is_ready, readx_poll_timeout_atomic, hl]
    have e1010 : advance (10 * 101) w0 = advance 1010 w0 := rfl
    rw [e1010] at hc
    rw [if_neg hc]
  · intro k hsome
    unfold first_hit at hsome
    rw [hsome] at hl
    have hc0 := List.find?_some hsome
    have hc := (congrFun hp k) ▸ hc0
    simp only [Option.elim] at hl
    simp only [wait_is_ready, readx_poll_timeout_atomic, hl]
    rw [if_pos hc]
    exact ⟨rfl, rfl⟩

/-- The result of the guarded hook call is `hook_ret`. -/
theorem call_combphy_cfg_ret (priv : rockchip_combphy_priv) (w : World) :
    (call_combphy_cfg priv w).1 = hook_ret priv w := by
  unfold call_combphy_cfg hook_ret
  split <;> rfl

/-- The hook result depends on the clock rate and the PHY window only. -/
theorem hook_ret_congr (priv : rockchip_combphy_priv) (w1 w2 : World)
    (hm : w1.mmio = w2.mmio) (hr : w1.clk_rate = w2.clk_rate) :
    hook_ret priv w1 = hook_ret priv w2 := by
  unfold hook_ret
  rw [hm, hr]

/-- The part of bring-up after the hook (settle sleep, PLL-lock poll,
data-path-reset deassert, lane-ready poll) started in `W`, in terms of what the
hardware `wg` shows: the result is a timeout error unless both polls observe
their expected value. -/
theorem bringup_tail_ret (priv : rockchip_combphy_priv) (W wg : World)
    (hg : W.grf = wg.grf) (hh : W.grf_hw = wg.grf_hw) :
    (if (wait_pll_lock priv (usleep_range 300 350 W)).1 ≠ 0
      then (wait_pll_lock priv (usleep_range 300 350 W)).1
      else (wait_is_ready priv (reset_control_deassert priv PHY_PIPE_RSTN
        (wait_pll_lock priv (usleep_range 300 350 W)).2)).1)
    = match first_hit (fun t => rockchip_combphy_pll_lock priv { wg with now := t })
          priv.cfg.grfcfg.pipe_pll_lock.enable (usleep_range 300 350 W).now with
      | none => -ETIMEDOUT
      | some k =>
        match first_hit (fun t => rockchip_combphy_is_ready priv { wg with now := t })
            priv.cfg.grfcfg.pipe_status_l0.enable ((usleep_range 300 350 W).now + 10 * k) with
        | none => -ETIMEDOUT
        | some _ => 0 := by
  have hne : (-ETIMEDOUT : Int) ≠ 0 := by decide
  obtain ⟨p1, p2⟩ := wait_pll_lock_hit priv (usleep_range 300 350 W) wg
    (by simpa using hg) (by simpa using hh)
  cases h : first_hit (fun t => rockchip_combphy_pll_lock priv { wg with now := t })
      priv.cfg.grfcfg.pipe_pll_lock.enable (usleep_range 300 350 W).now with
  | none =>
    rw [p1 h, if_pos hne]
  | some k =>
    obtain ⟨e1, e2⟩ := p2 k h
    rw [e1, if_neg (by decide)]
    obtain ⟨q1, q2⟩ := wait_is_ready_hit priv (reset_control_deassert priv PHY_PIPE_RSTN
      (wait_pll_lock priv (usleep_range 300 350 W)).2) wg
      (by simpa using hg) (by simpa using hh)
    rw [reset_control_deassert_now, e2] at q1 q2
    cases h2 : first_hit (fun t => rockchip_combphy_is_ready priv { wg with now := t })
        priv.cfg.grfcfg.pipe_status_l0.enable ((usleep_range 300 350 W).now + 10 * k) with
    | none => simp only [h2]; exact q1 h2
    | some j => simp only [h2]; exact (q2 j h2).1

/-- The result of PCIe bring-up is the result the spec describes. -/
theorem phy_pcie_init_ret (priv : rockchip_combphy_priv) (w : World)
    (ht : priv.phy_type ≠ PHY_TYPE_USB3) :
    (phy_pcie_init priv w).1 = bringup_ret priv w := by
  generalize hw4 : udelay 5 (reset_control_deassert priv PHY_APB_RSTN
    (udelay 5 (reset_control_deassert priv PHY_POR_RSTN w))) = w4
  have hm : w4.mmio = w.mmio := by subst hw4; simp
  have hr : w4.clk_rate = w.clk_rate := by subst hw4; simp
  have hg : (call_combphy_cfg priv w4).2.grf = (bringup_grf priv w).grf := by
    subst hw4; simp [bringup_grf, ht]
  have hh : (call_combphy_cfg priv w4).2.grf_hw = (bringup_grf priv w).grf_hw := by
    subst hw4; simp [bringup_grf, ht]
  have hn : (usleep_range 300 350 (call_combphy_cfg priv w4).2).now = settle_end w := by
    subst hw4; simp [settle_end]
  have e : (phy_pcie_init priv w).1
      = if (call_combphy_cfg priv w4).1 ≠ 0 then (call_combphy_cfg priv w4).1
        else if (wait_pll_lock priv (usleep_range 300 350 (call_combphy_cfg priv w4).2)).1 ≠ 0
          then (wait_pll_lock priv (usleep_range 300 350 (call_combphy_cfg priv w4).2)).1
          else (wait_is_ready priv (reset_control_deassert priv PHY_PIPE_RSTN
            (wait_pll_lock priv (usleep_range 300 350 (call_combphy_cfg priv w4).2)).2)).1 := by
    subst hw4
    unfold phy_pcie_init
    simp only []
    split_ifs <;> rfl
  rw [e, bringup_tail_ret priv (call_combphy_cfg priv w4).2 (bringup_grf priv w) hg hh, hn,
    call_combphy_cfg_ret, hook_ret_congr priv w4 w hm hr]
  rfl

/-- The result of USB3 bring-up is the result the spec describes. -/
theorem phy_u3_init_ret (priv : rockchip_combphy_priv) (w : World)
    (ht : priv.phy_type = PHY_TYPE_USB3) :
    (phy_u3_init priv w).1 = bringup_ret priv w := by
  generalize hw6 : u3_param_writes priv.cfg.grfcfg (udelay 5
    (reset_control_deassert priv PHY_APB_RSTN
      (udelay 5 (reset_control_deassert priv PHY_POR_RSTN
        (reset_control_assert priv OTG_RSTN w))))) = w6
  have hm : w6.mmio = w.mmio := by subst hw6; simp
  have hr : w6.clk_rate = w.clk_rate := by subst hw6; simp
  have hg : (call_combphy_cfg priv w6).2.grf = (bringup_grf priv w).grf := by
    subst hw6
    simp only [bringup_grf, ht, if_true, call_combphy_cfg_grf, u3_param_writes_eq]
    apply param_writes_grf_congr
    simp
  have hh : (call_combphy_cfg priv w6).2.grf_hw = (bringup_grf priv w).grf_hw := by
    subst hw6; simp [bringup_grf, ht]
  have hn : (usleep_range 300 350 (call_combphy_cfg priv w6).2).now = settle_end w := by
    subst hw6; simp [settle_end]
  have e : (phy_u3_init priv w).1
      = if (call_combphy_cfg priv w6).1 ≠ 0 then (call_combphy_cfg priv w6).1
        else if (wait_pll_lock priv (usleep_range 300 350 (call_combphy_cfg priv w6).2)).1 ≠ 0
          then (wait_pll_lock priv (usleep_range 300 350 (call_combphy_cfg priv w6).2)).1
          else (wait_is_ready priv (reset_control_deassert priv PHY_PIPE_RSTN
            (wait_pll_lock priv (usleep_range 300 350 (call_combphy_cfg priv w6).2)).2)).1 := by
    subst hw6
    unfold phy_u3_init
    simp only []
    split_ifs <;> rfl
  rw [e, bringup_tail_ret priv (call_combphy_cfg priv w6).2 (bringup_grf priv w) hg hh, hn,
    call_combphy_cfg_ret, hook_ret_congr priv w6 w hm hr]
  rfl

/-- The hardware bring-up polls depends on the GRF and the hardware view
only. -/
theorem bringup_grf_congr (priv : rockchip_combphy_priv) (w1 w2 : World)
    (hg : w1.grf = w2.grf) (hh : w1.grf_hw = w2.grf_hw) :
    (bringup_grf priv w1).grf = (bringup_grf priv w2).grf ∧
    (bringup_grf priv w1).grf_hw = (bringup_grf priv w2).grf_hw := by
  unfold bringup_grf
  by_cases ht : priv.phy_type = PHY_TYPE_USB3
  · rw [if_pos ht, if_pos ht]
    refine ⟨?_, by simp [hh]⟩
    rw [u3_param_writes_eq, u3_param_writes_eq]
    exact param_writes_grf_congr _ w1 w2 hg
  · rw [if_neg ht, if_neg ht]
    exact ⟨hg, hh⟩

/-- The spec-level result of bring-up depends on the clock, the sleep slack,
the PHY window, the clock rate, the GRF and the hardware view only. -/
theorem bringup_ret_congr (priv : rockchip_combphy_priv) (w1 w2 : World)
    (hn : w1.now = w2.now) (hs : w1.sched_slack = w2.sched_slack)
    (hm : w1.mmio = w2.mmio) (hr : w1.clk_rate = w2.clk_rate)
    (hg : w1.grf = w2.grf) (hh : w1.grf_hw = w2.grf_hw) :
    bringup_ret priv w1 = bringup_ret priv w2 := by
  obtain ⟨g1, g2⟩ := bringup_grf_congr priv w1 w2 hg hh
  have e1 : pll_lock_at priv w1 = pll_lock_at priv w2 := by
    funext t
    exact pll_lock_congr priv _ _ rfl g1 g2
  have e2 : is_ready_at priv w1 = is_ready_at priv w2 := by
    funext t
    exact is_ready_congr priv _ _ rfl g1 g2
  have e3 : settle_end w1 = settle_end w2 := by
    unfold settle_end; rw [hn, hs]
  unfold bringup_ret
  rw [hook_ret_congr priv w1 w2 hm hr, e1, e2, e3]

/-- The result of `rockchip_combphy_init`: the clock error if the clock cannot
be enabled, `-EINVAL` if the type is neither PCIe nor USB3, and otherwise the
result of bring-up. -/
theorem init_ret (priv : rockchip_combphy_priv) (w : World) :
    (rockchip_combphy_init priv w).1
      = if w.clk_enable_ret ≠ 0 then w.clk_enable_ret
        else if priv.phy_type = PHY_TYPE_PCIE ∨ priv.phy_type = PHY_TYPE_USB3
          then bringup_ret priv w
        else -EINVAL := by
  by_cases hc : w.clk_enable_ret = 0
  · obtain ⟨e1, _⟩ := init_eq_set_phy_type priv w hc
    rw [e1, if_neg (by simpa using hc)]
    have hb : bringup_ret priv (clk_prepare_enable w).2 = bringup_ret priv w :=
      bringup_ret_congr priv _ _ (by simp) (by simp) (by simp) (by simp) (by simp) (by simp)
    unfold rockchip_combphy_set_phy_type
    by_cases hp : priv.phy_type = PHY_TYPE_PCIE
    · have hnu : priv.phy_type ≠ PHY_TYPE_USB3 := by rw [hp]; decide
      rw [if_pos hp, if_pos (Or.inl hp), phy_pcie_init_ret priv _ hnu, hb]
    · by_cases hu : priv.phy_type = PHY_TYPE_USB3
      · rw [if_neg hp, if_pos hu, if_pos (Or.inr hu), phy_u3_init_ret priv _ hu, hb]
      · rw [if_neg hp, if_neg hu, if_neg (by tauto)]
  · have e : rockchip_combphy_init priv w = clk_prepare_enable w := by
      unfold rockchip_combphy_init
      simp [clk_prepare_enable_ret, hc]
    rw [e, clk_prepare_enable_ret, if_pos hc]

/-- Bring-up succeeds exactly when the hook succeeds and both polls observe
their expected value, the lane-ready poll starting when the PLL-lock poll
ends. -/
theorem bringup_ret_eq_zero_iff (priv : rockchip_combphy_priv) (w : World) :
    bringup_ret priv w = 0 ↔
      hook_ret priv w = 0 ∧
      ∃ k, first_hit (pll_lock_at priv w) priv.cfg.grfcfg.pipe_pll_lock.enable
          (settle_end w) = some k ∧
        ∃ j, first_hit (is_ready_at priv w) priv.cfg.grfcfg.pipe_status_l0.enable
          (settle_end w + 10 * k) = some j := by
  have hne : (-ETIMEDOUT : Int) ≠ 0 := by decide
  unfold bringup_ret
  by_cases hh : hook_ret priv w = 0
  · rw [if_neg (by simpa using hh)]
    cases h1 : first_hit (pll_lock_at priv w) priv.cfg.grfcfg.pipe_pll_lock.enable
        (settle_end w) with
    | none => simp [hne]
    | some k =>
      cases h2 : first_hit (is_ready_at priv w) priv.cfg.grfcfg.pipe_status_l0.enable
          (settle_end w + 10 * k) with
      | none => simp [hne, h2]
      | some j => simp [hh, h2]
  · rw [if_pos hh]
    constructor
    · intro h; exact absurd h hh
    · intro h; exact absurd h.1 hh

/-- A field that never shows the expected value is not observed by a
poll. -/
theorem first_hit_none_of_never (f : Nat → Nat) (expected start : Nat)
    (h : ∀ t, f t ≠ expected) : first_hit f expected start = none := by
  unfold first_hit
  rw [List.find?_eq_none]
  intro k _
  simp [h (start + 10 * k)]

/-- Bring-up whose hook succeeds times out when the PLL-lock field or the
lane-ready field never shows its expected value. -/
theorem bringup_ret_timeout (priv : rockchip_combphy_priv) (w : World)
    (hh : hook_ret priv w = 0)
    (hnever : (∀ t, pll_lock_at priv w t ≠ priv.cfg.grfcfg.pipe_pll_lock.enable) ∨
      ∀ t, is_ready_at priv w t ≠ priv.cfg.grfcfg.pipe_status_l0.enable) :
    bringup_ret priv w = -ETIMEDOUT := by
  unfold bringup_ret
  rw [if_neg (by simpa using hh)]
  rcases hnever with hn | hn
  · rw [first_hit_none_of_never _ _ _ hn]
  · cases h1 : first_hit (pll_lock_at priv w) priv.cfg.grfcfg.pipe_pll_lock.enable
        (settle_end w) with
    | none => rfl
    | some k =>
      simp only []
      rw [first_hit_none_of_never _ _ _ hn]

/-- What `first_hit` returns: `some k` names the first of the reads at
`start + 10 * k`, `k <= 101`, that shows the expected value; `none` means that
none of these 102 reads shows it. -/
theorem first_hit_spec (f : Nat → Nat) (expected start : Nat) :
    (∀ k, first_hit f expected start = some k →
      k ≤ 101 ∧ f (start + 10 * k) = expected ∧ ∀ j, j < k → f (start + 10 * j) ≠ expected) ∧
    (first_hit f expected start = none → ∀ k, k ≤ 101 → f (start + 10 * k) ≠ expected) := by
  unfold first_hit
  constructor
  · intro k hk
    rw [List.find?_range_eq_some] at hk
    obtain ⟨h1, h2, h3⟩ := hk
    refine ⟨by have := List.mem_range.mp h2; omega, by simpa using h1, ?_⟩
    intro j hj
    simpa using h3 j hj
  · intro hn k hk
    have := (List.find?_eq_none.mp hn) k (List.mem_range.mpr (by omega))
    simpa using this

/-- C14, as stated, fails: on the simulated board whose PLL-lock bit appears at
1320 us, a PCIe instance of the rk1808 variant starts its PLL-lock poll at
310 us, so the field does not show its expected value at any time within the
1000 us timeout (310 to 1310 us); yet the poll reads once more at 1320 us, the
first read past the deadline, sees the lock, and `init` returns `0`. -/
theorem init_succeeds_past_timeout_counterexample :
    settle_end sim_world_late_lock = 310 ∧
    ¬ observed_within
        (pll_lock_at ⟨PHY_TYPE_PCIE, fun _ => true, rk1808_combphy_cfgs⟩ sim_world_late_lock)
        rk1808_combphy_cfgs.grfcfg.pipe_pll_lock.enable
        (settle_end sim_world_late_lock) 1000 ∧
    (rockchip_combphy_init ⟨PHY_TYPE_PCIE, fun _ => true, rk1808_combphy_cfgs⟩
        sim_world_late_lock).1 = 0 := by
  refine ⟨by decide, ?_, ?_⟩
  swap
  · rw [init_ret, if_neg (by decide), if_pos (Or.inl rfl), bringup_ret_eq_zero_iff]
    exact ⟨by decide, 101, by decide, 0, by decide⟩
  rintro ⟨t, _, h2, h3⟩
  have hs : settle_end sim_world_late_lock = 310 := by decide
  rw [hs] at h2
  have hlt : ¬ 1320 ≤ t := by omega
  have key : pll_lock_at ⟨PHY_TYPE_PCIE, fun _ => true, rk1808_combphy_cfgs⟩
      sim_world_late_lock t = 0 := by
    simp [pll_lock_at, bringup_grf, rockchip_combphy_pll_lock, regmap_read,
      sim_world_late_lock, sim_world, rk1808_combphy_cfgs, rk1808_grfcfg, PHY_TYPE_PCIE,
      PHY_TYPE_USB3, hlt, u32]
  rw [key] at h3
  revert h3
  decide

/-- C14, amended: `rockchip_combphy_init` returns `0` if and only if the
recorded type is PCIe or USB3, the reference-clock enable succeeds, the
fine-tuning hook (if configured) succeeds, the PLL-lock poll observes the
PLL-lock field equal to `pipe_pll_lock.enable` at one of its reads, and the
lane-ready poll, started when the PLL-lock poll ends, observes the lane-ready
field equal to `pipe_status_l0.enable` at one of its reads; each poll reads
every 10 us from its start up to and including the first read past the 1000 us
deadline, at 1010 us. With a valid type, the clock enabled and the hook
successful it returns `-ETIMEDOUT` when the PLL-lock field or the lane-ready
field never shows its expected value. Neither poll can loop forever: the loop
ends within its `1000 / 10 + 2` iterations, more fuel changes nothing. With the
type unassigned and the clock enable successful it returns `-EINVAL` having
enabled the clock and recorded that in the trace, and nothing else of the
hardware (reset lines, GRF, PHY window) is changed. -/
theorem init_result (priv : rockchip_combphy_priv) (w : World) :
    ((rockchip_combphy_init priv w).1 = 0 ↔
      (priv.phy_type = PHY_TYPE_PCIE ∨ priv.phy_type = PHY_TYPE_USB3) ∧
      w.clk_enable_ret = 0 ∧ hook_ret priv w = 0 ∧
      ∃ k, first_hit (pll_lock_at priv w) priv.cfg.grfcfg.pipe_pll_lock.enable
          (settle_end w) = some k ∧
        ∃ j, first_hit (is_ready_at priv w) priv.cfg.grfcfg.pipe_status_l0.enable
          (settle_end w + 10 * k) = some j) ∧
    ((priv.phy_type = PHY_TYPE_PCIE ∨ priv.phy_type = PHY_TYPE_USB3) →
      w.clk_enable_ret = 0 → hook_ret priv w = 0 →
      ((∀ t, pll_lock_at priv w t ≠ priv.cfg.grfcfg.pipe_pll_lock.enable) ∨
        ∀ t, is_ready_at priv w t ≠ priv.cfg.grfcfg.pipe_status_l0.enable) →
      (rockchip_combphy_init priv w).1 = -ETIMEDOUT) ∧
    (∀ (op : World → Nat) (cond : Nat → Bool) (v : World) (extra : Nat),
      poll_loop op cond 10 1000 (v.now + 1000) (1000 / 10 + 2 + extra) v
        = poll_loop op cond 10 1000 (v.now + 1000) (1000 / 10 + 2) v) ∧
    (priv.phy_type = PHY_NONE → w.clk_enable_ret = 0 →
      rockchip_combphy_init priv w
        = (-EINVAL, log (Op.clk_prepare_enable 0)
            { w with clk_enable_count := w.clk_enable_count + 1 })) ∧
    (∀ (f : Nat → Nat) (expected start : Nat),
      (∀ k, first_hit f expected start = some k →
        k ≤ 101 ∧ f (start + 10 * k) = expected ∧
        ∀ j, j < k → f (start + 10 * j) ≠ expected) ∧
      (first_hit f expected start = none →
        ∀ k, k ≤ 101 → f (start + 10 * k) ≠ expected)) := by
  have hne : (-EINVAL : Int) ≠ 0 := by decide
  refine ⟨?_, ?_, poll_loop_fuel_sufficient, ?_, first_hit_spec⟩
  · rw [init_ret]
    by_cases hc : w.clk_enable_ret = 0
    · rw [if_neg (by simpa using hc)]
      by_cases ht : priv.phy_type = PHY_TYPE_PCIE ∨ priv.phy_type = PHY_TYPE_USB3
      · rw [if_pos ht, bringup_ret_eq_zero_iff]
        constructor
        · intro h; exact ⟨ht, hc, h⟩
        · intro h; exact h.2.2
      · rw [if_neg ht]
        constructor
        · intro h; exact absurd h hne
        · intro h; exact absurd h.1 ht
    · rw [if_pos hc]
      constructor
      · intro h; exact absurd h hc
      · intro h; exact absurd h.2.1 hc
  · intro ht hc hh hnever
    rw [init_ret, if_neg (by simpa using hc), if_pos ht]
    exact bringup_ret_timeout priv w hh hnever
  · intro ht hc
    have hnp : ¬ priv.phy_type = PHY_TYPE_PCIE := by rw [ht]; decide
    have hnu : ¬ priv.phy_type = PHY_TYPE_USB3 := by rw [ht]; decide
    simp [rockchip_combphy_init, clk_prepare_enable, hc, rockchip_combphy_set_phy_type,
      hnp, hnu, hne]

/-- Witness for `init_result`: a USB3 instance of the rk1808 variant on the
simulated board with a 24 MHz clock and a status register showing PLL lock and
lane 0 ready: `init` returns `0`. -/
theorem init_result_witness :
    (rockchip_combphy_init ⟨PHY_TYPE_USB3, fun _ => true, rk1808_combphy_cfgs⟩
        (sim_world 24000000 fun _ => 0x4000)).1 = 0 :=
  (init_result ⟨PHY_TYPE_USB3, fun _ => true, rk1808_combphy_cfgs⟩
    (sim_world 24000000 fun _ => 0x4000)).1.mpr
    ⟨Or.inr rfl, rfl, by decide, 0, by decide, 0, by decide⟩

/-! ### C15: the rk1808 hook at 24 MHz for USB3 -/

/-- C16: each of the 19 fields of the rk1808 table has `bitend >= bitstart`
and both its disable and its enable value below `2 ^ (bitend - bitstart + 1)`,
that is, within the width of the field. -/
theorem rk1808_fields_invariant :
    (grfcfg_fields rk1808_combphy_cfgs.grfcfg).length = 19 ∧
    ∀ reg ∈ grfcfg_fields rk1808_combphy_cfgs.grfcfg,
      reg.bitstart ≤ reg.bitend ∧
      reg.disable < 2 ^ (reg.bitend - reg.bitstart + 1) ∧
      reg.enable < 2 ^ (reg.bitend - reg.bitstart + 1) := by
  refine ⟨rfl, ?_⟩
  decide

/-- Witness for `rk1808_fields_invariant`: the field `pipe_txrx_sel` (bits
15..8, disable `0x14`, enable `0x2f`). -/
theorem rk1808_fields_invariant_witness :
    rk1808_grfcfg.pipe_txrx_sel.bitstart ≤ rk1808_grfcfg.pipe_txrx_sel.bitend ∧
    rk1808_grfcfg.pipe_txrx_sel.disable
      < 2 ^ (rk1808_grfcfg.pipe_txrx_sel.bitend - rk1808_grfcfg.pipe_txrx_sel.bitstart + 1) ∧
    rk1808_grfcfg.pipe_txrx_sel.enable
      < 2 ^ (rk1808_grfcfg.pipe_txrx_sel.bitend - rk1808_grfcfg.pipe_txrx_sel.bitstart + 1) :=
  rk1808_fields_invariant.2 rk1808_grfcfg.pipe_txrx_sel (by decide)

/-! ### C17: the thirteen USB3 writes on the rk1808 table -/

/-- Two numbers below `2 ^ n` with the same low `n` bits are equal. -/
theorem eq_of_testBit_below (n a b : Nat) (ha : a < 2 ^ n) (hb : b < 2 ^ n)
    (h : ∀ i, i < n → a.testBit i = b.testBit i) : a = b := by
  apply Nat.eq_of_testBit_eq
  intro i
  by_cases hi : i < n
  · exact h i hi
  · rw [Nat.testBit_lt_two_pow
        (lt_of_lt_of_le ha (Nat.pow_le_pow_right (by norm_num) (by omega))),
      Nat.testBit_lt_two_pow
        (lt_of_lt_of_le hb (Nat.pow_le_pow_right (by norm_num) (by omega)))]

/-- The GRF after a run of writes is the fold of `param_write` over the
fields. -/
theorem param_writes_grf (regs : List combphy_reg) :
    ∀ w : World, (param_writes regs w).grf
      = regs.foldl (fun g reg => (param_write g reg true).2) w.grf := by
  induction regs with
  | nil => intro w; rfl
  | cons reg regs ih => intro w; exact ih (grf_param_write reg true w).2

/-- The GRF after the thirteen writes on a register space whose transport
succeeds: the four registers written, each as the chain of its writes in source
order, and every other register as before. -/
theorem u3_regs_after_writes (old : Nat → Nat) (w : World) (hw : w.grf = regmap_ok old) :
    (u3_param_writes rk1808_grfcfg w).grf.regs 0x0
      = grf_update (grf_update (grf_update (grf_update (grf_update (old 0x0)
          (param_word rk1808_grfcfg.pipe_l1_sel true))
          (param_word rk1808_grfcfg.pipe_clk_sel true))
          (param_word rk1808_grfcfg.pipe_rate_sel true))
          (param_word rk1808_grfcfg.pipe_mode_sel true))
          (param_word rk1808_grfcfg.pipe_width_sel true) ∧
    (u3_param_writes rk1808_grfcfg w).grf.regs 0x4
      = grf_update (grf_update (grf_update (grf_update (grf_update (old 0x4)
          (param_word rk1808_grfcfg.pipe_txrx_sel true))
          (param_word rk1808_grfcfg.pipe_clk_set true))
          (param_word rk1808_grfcfg.pipe_rate_set true))
          (param_word rk1808_grfcfg.pipe_mode_set true))
          (param_word rk1808_grfcfg.pipe_width_set true) ∧
    (u3_param_writes rk1808_grfcfg w).grf.regs 0x8
      = grf_update (grf_update (old 0x8)
          (param_word rk1808_grfcfg.pipe_l1_set true))
          (param_word rk1808_grfcfg.pipe_txrx_set true) ∧
    (u3_param_writes rk1808_grfcfg w).grf.regs 0xc
      = grf_update (old 0xc) (param_word rk1808_grfcfg.pipe_usb3_sel true) := by
  rw [u3_param_writes_eq, param_writes_grf, hw]
  exact ⟨rfl, rfl, rfl, rfl⟩

/-- Read-back of one field from a register content below which only `old`
varies: shared shape of the thirteen read-back proofs. -/
theorem field_value_lt (reg : combphy_reg) (content : Nat)
    (hm : u32 (GENMASK reg.bitend reg.bitstart) < 2 ^ 16) :
    field_value reg content < 2 ^ 16 := by
  unfold field_value
  rw [Nat.shiftRight_eq_div_pow]
  exact lt_of_le_of_lt (Nat.div_le_self _ _) (Nat.and_lt_two_pow _ hm)

/-- After the thirteen writes every written field of the rk1808 table reads
back as its enable value, whatever the registers held before. -/
theorem u3_fields_read_back (old : Nat → Nat) (w : World) (hw : w.grf = regmap_ok old) :
    ∀ reg ∈ u3_write_fields rk1808_grfcfg,
      field_value reg ((u3_param_writes rk1808_grfcfg w).grf.regs reg.offset)
        = reg.enable := by
  obtain ⟨h0, h4, h8, hc⟩ := u3_regs_after_writes old w hw
  intro reg hreg
  simp only [u3_write_fields, List.mem_cons, List.mem_singleton, List.not_mem_nil,
    or_false] at hreg
  rcases hreg with rfl | rfl | rfl | rfl | rfl | rfl | rfl | rfl | rfl | rfl | rfl | rfl | rfl
  · show field_value rk1808_grfcfg.pipe_l1_set
        ((u3_param_writes rk1808_grfcfg w).grf.regs 0x8) = _
    rw [h8]
    apply eq_of_testBit_below 16 _ _ (field_value_lt _ _ (by decide)) (by decide)
    intro i hi
    interval_cases i <;>
      simp only [field_value, grf_update, Nat.testBit_or, Nat.testBit_and, Nat.testBit_xor,
        Nat.testBit_shiftRight] <;>
      generalize (old 0x8).testBit _ = b <;> cases b <;> decide
  · show field_value rk1808_grfcfg.pipe_l1_sel
        ((u3_param_writes rk1808_grfcfg w).grf.regs 0x0) = _
    rw [h0]
    apply eq_of_testBit_below 16 _ _ (field_value_lt _ _ (by decide)) (by decide)
    intro i hi
    interval_cases i <;>
      simp only [field_value, grf_update, Nat.testBit_or, Nat.testBit_and, Nat.testBit_xor,
        Nat.testBit_shiftRight] <;>
      generalize (old 0x0).testBit _ = b <;> cases b <;> decide
  · show field_value rk1808_grfcfg.pipe_txrx_set
        ((u3_param_writes rk1808_grfcfg w).grf.regs 0x8) = _
    rw [h8]
    apply eq_of_testBit_below 16 _ _ (field_value_lt _ _ (by decide)) (by decide)
    intro i hi
    interval_cases i <;>
      simp only [field_value, grf_update, Nat.testBit_or, Nat.testBit_and, Nat.testBit_xor,
        Nat.testBit_shiftRight] <;>
      generalize (old 0x8).testBit _ = b <;> cases b <;> decide
  · show field_value rk1808_grfcfg.pipe_txrx_sel
        ((u3_param_writes rk1808_grfcfg w).grf.regs 0x4) = _
    rw [h4]
    apply eq_of_testBit_below 16 _ _ (field_value_lt _ _ (by decide)) (by decide)
    intro i hi
    interval_cases i <;>
      simp only [field_value, grf_update, Nat.testBit_or, Nat.testBit_and, Nat.testBit_xor,
        Nat.testBit_shiftRight] <;>
      generalize (old 0x4).testBit _ = b <;> cases b <;> decide
  · show field_value rk1808_grfcfg.pipe_clk_set
        ((u3_param_writes rk1808_grfcfg w).grf.regs 0x4) = _
    rw [h4]
    apply eq_of_testBit_below 16 _ _ (field_value_lt _ _ (by decide)) (by decide)
    intro i hi
    interval_cases i <;>
      simp only [field_value, grf_update, Nat.testBit_or, Nat.testBit_and, Nat.testBit_xor,
        Nat.testBit_shiftRight] <;>
      generalize (old 0x4).testBit _ = b <;> cases b <;> decide
  · show field_value rk1808_grfcfg.pipe_clk_sel
        ((u3_param_writes rk1808_grfcfg w).grf.regs 0x0) = _
    rw [h0]
    apply eq_of_testBit_below 16 _ _ (field_value_lt _ _ (by decide)) (by decide)
    intro i hi
    interval_cases i <;>
      simp only [field_value, grf_update, Nat.testBit_or, Nat.testBit_and, Nat.testBit_xor,
        Nat.testBit_shiftRight] <;>
      generalize (old 0x0).testBit _ = b <;> cases b <;> decide
  · show field_value rk1808_grfcfg.pipe_rate_set
        ((u3_param_writes rk1808_grfcfg w).grf.regs 0x4) = _
    rw [h4]
    apply eq_of_testBit_below 16 _ _ (field_value_lt _ _ (by decide)) (by decide)
    intro i hi
    interval_cases i <;>
      simp only [field_value, grf_update, Nat.testBit_or, Nat.testBit_and, Nat.testBit_xor,
        Nat.testBit_shiftRight] <;>
      generalize (old 0x4).testBit _ = b <;> cases b <;> decide
  · show field_value rk1808_grfcfg.pipe_rate_sel
        ((u3_param_writes rk1808_grfcfg w).grf.regs 0x0) = _
    rw [h0]
    apply eq_of_testBit_below 16 _ _ (field_value_lt _ _ (by decide)) (by decide)
    intro i hi
    interval_cases i <;>
      simp only [field_value, grf_update, Nat.testBit_or, Nat.testBit_and, Nat.testBit_xor,
        Nat.testBit_shiftRight] <;>
      generalize (old 0x0).testBit _ = b <;> cases b <;> decide
  · show field_value rk1808_grfcfg.pipe_mode_set
        ((u3_param_writes rk1808_grfcfg w).grf.regs 0x4) = _
    rw [h4]
    apply eq_of_testBit_below 16 _ _ (field_value_lt _ _ (by decide)) (by decide)
    intro i hi
    interval_cases i <;>
      simp only [field_value, grf_update, Nat.testBit_or, Nat.testBit_and, Nat.testBit_xor,
        Nat.testBit_shiftRight] <;>
      generalize (old 0x4).testBit _ = b <;> cases b <;> decide
  · show field_value rk1808_grfcfg.pipe_mode_sel
        ((u3_param_writes rk1808_grfcfg w).grf.regs 0x0) = _
    rw [h0]
    apply eq_of_testBit_below 16 _ _ (field_value_lt _ _ (by decide)) (by decide)
    intro i hi
    interval_cases i <;>
      simp only [field_value, grf_update, Nat.testBit_or, Nat.testBit_and, Nat.testBit_xor,
        Nat.testBit_shiftRight] <;>
      generalize (old 0x0).testBit _ = b <;> cases b <;> decide
  · show field_value rk1808_grfcfg.pipe_width_set
        ((u3_param_writes rk1808_grfcfg w).grf.regs 0x4) = _
    rw [h4]
    apply eq_of_testBit_below 16 _ _ (field_value_lt _ _ (by decide)) (by decide)
    intro i hi
    interval_cases i <;>
      simp only [field_value, grf_update, Nat.testBit_or, Nat.testBit_and, Nat.testBit_xor,
        Nat.testBit_shiftRight] <;>
      generalize (old 0x4).testBit _ = b <;> cases b <;> decide
  · show field_value rk1808_grfcfg.pipe_width_sel
        ((u3_param_writes rk1808_grfcfg w).grf.regs 0x0) = _
    rw [h0]
    apply eq_of_testBit_below 16 _ _ (field_value_lt _ _ (by decide)) (by decide)
    intro i hi
    interval_cases i <;>
      simp only [field_value, grf_update, Nat.testBit_or, Nat.testBit_and, Nat.testBit_xor,
        Nat.testBit_shiftRight] <;>
      generalize (old 0x0).testBit _ = b <;> cases b <;> decide
  · show field_value rk1808_grfcfg.pipe_usb3_sel
        ((u3_param_writes rk1808_grfcfg w).grf.regs 0xc) = _
    rw [hc]
    apply eq_of_testBit_below 16 _ _ (field_value_lt _ _ (by decide)) (by decide)
    intro i hi
    interval_cases i <;>
      simp only [field_value, grf_update, Nat.testBit_or, Nat.testBit_and, Nat.testBit_xor,
        Nat.testBit_shiftRight] <;>
      generalize (old 0xc).testBit _ = b <;> cases b <;> decide

/-- The low halves of the four registers after the thirteen writes. -/
theorem u3_low_halves (old : Nat → Nat) (w : World) (hw : w.grf = regmap_ok old) :
    (u3_param_writes rk1808_grfcfg w).grf.regs 0x0 &&& 0xffff
      = (old 0x0 &&& 0x07f0) ||| 0xf80f ∧
    (u3_param_writes rk1808_grfcfg w).grf.regs 0x4 &&& 0xffff = 0x2f14 ∧
    (u3_param_writes rk1808_grfcfg w).grf.regs 0x8 &&& 0xffff
      = (old 0x8 &&& 0x00ff) ||| 0xd300 ∧
    (u3_param_writes rk1808_grfcfg w).grf.regs 0xc &&& 0xffff
      = (old 0xc &&& 0xfffe) ||| 0x0001 := by
  obtain ⟨h0, h4, h8, hc⟩ := u3_regs_after_writes old w hw
  rw [h0, h4, h8, hc]
  refine ⟨?_, ?_, ?_, ?_⟩
  · apply eq_of_testBit_below 16 _ _ (Nat.and_lt_two_pow _ (by decide))
      (Nat.or_lt_two_pow (Nat.and_lt_two_pow _ (by decide)) (by decide))
    intro i hi
    interval_cases i <;>
      simp only [grf_update, Nat.testBit_or, Nat.testBit_and, Nat.testBit_xor,
        Nat.testBit_shiftRight] <;>
      generalize (old 0x0).testBit _ = b <;> cases b <;> decide
  · apply eq_of_testBit_below 16 _ _ (Nat.and_lt_two_pow _ (by decide)) (by decide)
    intro i hi
    interval_cases i <;>
      simp only [grf_update, Nat.testBit_or, Nat.testBit_and, Nat.testBit_xor,
        Nat.testBit_shiftRight] <;>
      generalize (old 0x4).testBit _ = b <;> cases b <;> decide
  · apply eq_of_testBit_below 16 _ _ (Nat.and_lt_two_pow _ (by decide))
      (Nat.or_lt_two_pow (Nat.and_lt_two_pow _ (by decide)) (by decide))
    intro i hi
    interval_cases i <;>
      simp only [grf_update, Nat.testBit_or, Nat.testBit_and, Nat.testBit_xor,
        Nat.testBit_shiftRight] <;>
      generalize (old 0x8).testBit _ = b <;> cases b <;> decide
  · apply eq_of_testBit_below 16 _ _ (Nat.and_lt_two_pow _ (by decide))
      (Nat.or_lt_two_pow (Nat.and_lt_two_pow _ (by decide)) (by decide))
    intro i hi
    interval_cases i <;>
      simp only [grf_update, Nat.testBit_or, Nat.testBit_and, Nat.testBit_xor,
        Nat.testBit_shiftRight] <;>
      generalize (old 0xc).testBit _ = b <;> cases b <;> decide

/-- C17: on the rk1808 table the thirteen fields written by USB3 bring-up lie
within bits 0..15 of their registers and are pairwise disjoint (different
register, or non-overlapping bit ranges); so on a write-enable-mask register
space whose transport succeeds, and for every initial content `old`, after the
thirteen writes every written field reads back as its enable value, and the low
halves are `(old & 0x07f0) | 0xf80f` at offset `0x0`, `0x2f14` at offset `0x4`,
`(old & 0x00ff) | 0xd300` at offset `0x8` and `(old & 0xfffe) | 0x0001` at
offset `0xc`; each word handed to `regmap_write` has its high half equal to the
field mask and its low half zero outside that mask. -/
theorem u3_writes_on_rk1808 (old : Nat → Nat) (w : World) (hw : w.grf = regmap_ok old) :
    (∀ reg ∈ u3_write_fields rk1808_grfcfg, reg.bitend ≤ 15) ∧
    List.Pairwise
      (fun a b : combphy_reg =>
        a.offset ≠ b.offset ∨ a.bitend < b.bitstart ∨ b.bitend < a.bitstart)
      (u3_write_fields rk1808_grfcfg) ∧
    (∀ reg ∈ u3_write_fields rk1808_grfcfg,
      field_value reg ((u3_param_writes rk1808_grfcfg w).grf.regs reg.offset)
        = reg.enable) ∧
    ((u3_param_writes rk1808_grfcfg w).grf.regs 0x0 &&& 0xffff
        = (old 0x0 &&& 0x07f0) ||| 0xf80f ∧
      (u3_param_writes rk1808_grfcfg w).grf.regs 0x4 &&& 0xffff = 0x2f14 ∧
      (u3_param_writes rk1808_grfcfg w).grf.regs 0x8 &&& 0xffff
        = (old 0x8 &&& 0x00ff) ||| 0xd300 ∧
      (u3_param_writes rk1808_grfcfg w).grf.regs 0xc &&& 0xffff
        = (old 0xc &&& 0xfffe) ||| 0x0001) ∧
    (∀ reg ∈ u3_write_fields rk1808_grfcfg,
      param_word reg true >>> 16 = GENMASK reg.bitend reg.bitstart ∧
      (param_word reg true &&& 0xffff) &&& (0xffff ^^^ GENMASK reg.bitend reg.bitstart)
        = 0) ∧
    (∀ (base : regmap) (reg : combphy_reg) (en : Bool),
      param_write base reg en = regmap_write base reg.offset (param_word reg en)) := by
  refine ⟨by decide, by decide, u3_fields_read_back old w hw, u3_low_halves old w hw,
    by decide, fun _ _ _ => rfl⟩

/-- Witness for `u3_writes_on_rk1808`: the simulated board with all GRF
registers zero; offset `0x4` ends with low half `0x2f14`. -/
theorem u3_writes_on_rk1808_witness :
    (u3_param_writes rk1808_grfcfg (sim_world 24000000 fun _ => 0)).grf.regs 0x4 &&& 0xffff
      = 0x2f14 :=
  (u3_writes_on_rk1808 (fun _ => 0) (sim_world 24000000 fun _ => 0) rfl).2.2.2.1.2.1

end Combphy
